import Mathlib

/-!
# moonPosition: geocentric position of the Moon

A shallow embedding of `src/moonPosition.cpp`.

The program computes on C++ `double`s.  A `double` is modelled by `Dbl`: a
rational (a finite value), an infinity, or NaN.  Every arithmetic operation
returns the exact rational result rounded to binary64 (round to nearest, ties to
even, gradual underflow, overflow to an infinity).  Two things are not modelled:
the sign of zero (the program never divides by a computed value) and the payload
of a NaN.  `fmod`, `floor` and `fabs` are exact in IEEE-754 arithmetic.  The
library functions `sin`, `cos` and `pow` are parameters (`Libm`): the source fixes
none of their values.  What the C standard and the library's documentation say of
them is a hypothesis of the properties that need it (`Libm.PowExactCases`,
`Libm.PowWithinOneUlp`, `Libm.SinCosBounded`).

Each operation is rounded on its own (no fused multiply-add).  The function
`PrintCurrentPosition`, which `Integrate` calls last, only writes to the console.

The header `include/moonPosition.h`, which holds the coefficient arrays, is not
among the sources: the arrays are parameters (`Coeffs`, `SeriesTables`).
-/

/-! ## binary64 rounding -/

/-- Nearest integer, a tie going to the even neighbour. -/
def roundHalfEven (q : ℚ) : ℤ :=
  if Int.fract q < 1 / 2 then ⌊q⌋
  else if 1 / 2 < Int.fract q then ⌊q⌋ + 1
  else if ⌊q⌋ % 2 = 0 then ⌊q⌋ else ⌊q⌋ + 1

/-- Exponent of the unit in the last place of the binade of `q`: 53 significant
bits, the exponent of a normal number at least `-1022`; below that the
subnormal spacing `2^-1074`. -/
def ulpExp (q : ℚ) : ℤ := max (Int.log 2 |q|) (-1022) - 52

/-- Round a rational to the binary64 grid (exponent range unbounded above). -/
def rnd (q : ℚ) : ℚ := (roundHalfEven (q / 2 ^ ulpExp q) : ℚ) * 2 ^ ulpExp q

/-- Truncation toward zero. -/
def truncQ (q : ℚ) : ℤ := if 0 ≤ q then ⌊q⌋ else ⌈q⌉

/-- The exact truncated remainder `x - y * trunc (x / y)`. -/
def fmodQ (x y : ℚ) : ℚ := x - y * truncQ (x / y)

/-- A C++ `double`: a finite value, an infinity (`neg` for minus infinity) or NaN. -/
inductive Dbl where
  | fin (q : ℚ)
  | inf (neg : Bool)
  | nan
deriving DecidableEq

namespace Dbl

/-- Magnitude from which a result rounds to an infinity: the largest finite
`double` plus half a unit in its last place. -/
def overflowThreshold : ℚ := 2 ^ 1024 - 2 ^ 970

/-- The `double` an exact result is delivered as. -/
def ofRat (q : ℚ) : Dbl :=
  if overflowThreshold ≤ q then inf false
  else if q ≤ -overflowThreshold then inf true
  else fin (rnd q)

/-- The rational `q` is a finite `double`: it converts to itself. -/
def IsDouble (q : ℚ) : Prop := ofRat q = fin q

instance (q : ℚ) : Decidable (IsDouble q) := by unfold IsDouble; infer_instance

/-- Unary minus. -/
def neg : Dbl → Dbl
  | fin a => fin (-a)
  | inf s => inf (!s)
  | nan => nan

/-- Addition of `double`s. -/
def add : Dbl → Dbl → Dbl
  | fin a, fin b => ofRat (a + b)
  | fin _, inf s => inf s
  | inf s, fin _ => inf s
  | inf s, inf t => if s = t then inf s else nan
  | _, _ => nan

/-- Subtraction of `double`s. -/
def sub (x y : Dbl) : Dbl := add x (neg y)

/-- Multiplication of `double`s. -/
def mul : Dbl → Dbl → Dbl
  | fin a, fin b => ofRat (a * b)
  | fin a, inf s => if a = 0 then nan else inf (xor (decide (a < 0)) s)
  | inf s, fin b => if b = 0 then nan else inf (xor s (decide (b < 0)))
  | inf s, inf t => inf (xor s t)
  | _, _ => nan

/-- Division of `double`s (a zero divisor is taken as `+0`). -/
def div : Dbl → Dbl → Dbl
  | fin a, fin b =>
      if b = 0 then (if a = 0 then nan else inf (decide (a < 0))) else ofRat (a / b)
  | fin _, inf _ => fin 0
  | inf s, fin b => inf (xor s (decide (b < 0)))
  | _, _ => nan

/-- The comparison `x < y`; false when an operand is NaN. -/
def lt : Dbl → Dbl → Bool
  | fin a, fin b => decide (a < b)
  | fin _, inf s => !s
  | inf s, fin _ => s
  | inf s, inf t => s && !t
  | _, _ => false

/-- The C library `fmod`: exact. -/
def fmod : Dbl → Dbl → Dbl
  | fin a, fin b => if b = 0 then nan else fin (fmodQ a b)
  | fin a, inf _ => fin a
  | _, _ => nan

/-- The C library `floor`: exact. -/
def floor : Dbl → Dbl
  | fin a => fin ⌊a⌋
  | x => x

/-- The absolute value of a `double`. -/
def abs : Dbl → Dbl
  | fin a => fin |a|
  | inf _ => inf false
  | nan => nan

instance : Add Dbl := ⟨add⟩
instance : Sub Dbl := ⟨sub⟩
instance : Mul Dbl := ⟨mul⟩
instance : Div Dbl := ⟨div⟩
instance : Neg Dbl := ⟨neg⟩
instance (n : ℕ) : OfNat Dbl n := ⟨ofRat n⟩
instance : OfScientific Dbl := ⟨fun m s e => ofRat (OfScientific.ofScientific m s e)⟩

end Dbl

open Dbl

/-- The functions of `<cmath>` the program calls: `sin`, `cos` and `pow`.  Nothing is
assumed of them here. -/
structure Libm where
  sin : Dbl → Dbl
  cos : Dbl → Dbl
  pow : Dbl → Dbl → Dbl

/-- The constant `M_PI` of `<cmath>`: the `double` nearest to pi. -/
def M_PI : Dbl := fin (884279719003555 / 281474976710656)

/-! ## The program -/

/-- The polynomial coefficient arrays of the header. -/
structure Coeffs where
  DYNAMIC_TIME_COEFFS : Fin 2 → Dbl
  MOON_MEAN_LONGITUDE_COEFFS : Fin 5 → Dbl
  MOON_MEAN_ELONGATION_COEFFS : Fin 5 → Dbl
  SUN_MEAN_ANOMALY_COEFFS : Fin 4 → Dbl
  MOON_MEAN_ANOMALY_COEFFS : Fin 5 → Dbl
  MOON_ARG_OF_LATITUDE_COEFFS : Fin 5 → Dbl
  ACTION_OF_VENUS_COEFFS : Fin 2 → Dbl
  ACTION_OF_JUPITER_COEFFS : Fin 2 → Dbl
  ACTION_OF_SOMETHING_COEFFS : Fin 2 → Dbl
  EARTH_ECCENTRICITY_COEFFS : Fin 3 → Dbl

/-- The periodic-term tables and the additive coefficients of the header. -/
structure SeriesTables where
  LONGITUDE_PERIODIC_TERM_MATRIX : Fin 60 → Fin 4 → Dbl
  LATITUDE_PERIODIC_TERM_MATRIX : Fin 60 → Fin 4 → Dbl
  LONGITUDE_SINE_COEFF : Fin 60 → Dbl
  LONGITUDE_COSINE_COEFF : Fin 60 → Dbl
  LATITUDE_SINE_COEFF : Fin 60 → Dbl
  LONGITUDE_ADDITIVE_COEFFS : Fin 3 → Dbl
  LATITUDE_ADDITIVE_COEFFS : Fin 6 → Dbl

/-- The data members of the class `MoonPosition`, in the order of its constructor. -/
@[ext]
structure MoonPosition where
  longitudeIntegrated : Dbl
  latitudeIntegrated : Dbl
  earthToMoonRadius : Dbl
  dynamicalTime : Dbl
  earthEccentricity : Dbl
  actionOfVenus : Dbl
  actionOfJupiter : Dbl
  actionOfSomething : Dbl
  moonMeanElongation : Dbl
  moonMeanLongitude : Dbl
  moonArgumentOfLatitude : Dbl
  moonMeanAnomaly : Dbl
  sunMeanAnomaly : Dbl
  geocentricLongitude : Dbl
  geocentricLatitude : Dbl
  earthToMoonDistance : Dbl
  julianEphemerisDay : Dbl
  cartesianCoordinates : Fin 3 → Dbl

namespace MoonPosition

/-- The constructor `MoonPosition::MoonPosition`: every member value-initialised. -/
def new : MoonPosition where
  longitudeIntegrated := fin 0
  latitudeIntegrated := fin 0
  earthToMoonRadius := fin 0
  dynamicalTime := fin 0
  earthEccentricity := fin 0
  actionOfVenus := fin 0
  actionOfJupiter := fin 0
  actionOfSomething := fin 0
  moonMeanElongation := fin 0
  moonMeanLongitude := fin 0
  moonArgumentOfLatitude := fin 0
  moonMeanAnomaly := fin 0
  sunMeanAnomaly := fin 0
  geocentricLongitude := fin 0
  geocentricLatitude := fin 0
  earthToMoonDistance := fin 0
  julianEphemerisDay := fin 0
  cartesianCoordinates := fun _ => fin 0

/-- The function `MoonPosition::Reduce`. -/
def Reduce (value : Dbl) : Dbl :=
  let value := fmod value 360.0
  if lt value 0 then value + 360.0 else value

/-- The function `MoonPosition::CalcDynamicTime`. -/
def CalcDynamicTime (cf : Coeffs) (s : MoonPosition) : MoonPosition :=
  { s with
    dynamicalTime :=
      (s.julianEphemerisDay - cf.DYNAMIC_TIME_COEFFS 0) / cf.DYNAMIC_TIME_COEFFS 1 }

/-- The function `MoonPosition::CalcMoonMeanLongitude`. -/
def CalcMoonMeanLongitude (lm : Libm) (cf : Coeffs) (s : MoonPosition) : MoonPosition :=
  { s with
    moonMeanLongitude :=
      Reduce (cf.MOON_MEAN_LONGITUDE_COEFFS 0 +
        cf.MOON_MEAN_LONGITUDE_COEFFS 1 * s.dynamicalTime -
        cf.MOON_MEAN_LONGITUDE_COEFFS 2 * lm.pow s.dynamicalTime 2 +
        cf.MOON_MEAN_LONGITUDE_COEFFS 3 * lm.pow s.dynamicalTime 3 -
        cf.MOON_MEAN_LONGITUDE_COEFFS 4 * lm.pow s.dynamicalTime 4) }

/-- The function `MoonPosition::CalcMoonMeanElongation`. -/
def CalcMoonMeanElongation (lm : Libm) (cf : Coeffs) (s : MoonPosition) : MoonPosition :=
  { s with
    moonMeanElongation :=
      Reduce (cf.MOON_MEAN_ELONGATION_COEFFS 0 +
        cf.MOON_MEAN_ELONGATION_COEFFS 1 * s.dynamicalTime -
        cf.MOON_MEAN_ELONGATION_COEFFS 2 * lm.pow s.dynamicalTime 2 +
        cf.MOON_MEAN_ELONGATION_COEFFS 3 * lm.pow s.dynamicalTime 3 -
        cf.MOON_MEAN_ELONGATION_COEFFS 4 * lm.pow s.dynamicalTime 4) }

/-- The function `MoonPosition::CalcSunMeanAnomaly`. -/
def CalcSunMeanAnomaly (lm : Libm) (cf : Coeffs) (s : MoonPosition) : MoonPosition :=
  { s with
    sunMeanAnomaly :=
      Reduce (cf.SUN_MEAN_ANOMALY_COEFFS 0 +
        cf.SUN_MEAN_ANOMALY_COEFFS 1 * s.dynamicalTime -
        cf.SUN_MEAN_ANOMALY_COEFFS 2 * lm.pow s.dynamicalTime 2 +
        cf.SUN_MEAN_ANOMALY_COEFFS 3 * lm.pow s.dynamicalTime 3) }

/-- The function `MoonPosition::CalcMoonMeanAnomaly`. -/
def CalcMoonMeanAnomaly (lm : Libm) (cf : Coeffs) (s : MoonPosition) : MoonPosition :=
  { s with
    moonMeanAnomaly :=
      Reduce (cf.MOON_MEAN_ANOMALY_COEFFS 0 +
        cf.MOON_MEAN_ANOMALY_COEFFS 1 * s.dynamicalTime +
        cf.MOON_MEAN_ANOMALY_COEFFS 2 * lm.pow s.dynamicalTime 2 +
        cf.MOON_MEAN_ANOMALY_COEFFS 3 * lm.pow s.dynamicalTime 3 -
        cf.MOON_MEAN_ANOMALY_COEFFS 4 * lm.pow s.dynamicalTime 4) }

/-- The function `MoonPosition::CalcMoonArgumentOfLatitude`. -/
def CalcMoonArgumentOfLatitude (lm : Libm) (cf : Coeffs) (s : MoonPosition) : MoonPosition :=
  { s with
    moonArgumentOfLatitude :=
      Reduce (cf.MOON_ARG_OF_LATITUDE_COEFFS 0 +
        cf.MOON_ARG_OF_LATITUDE_COEFFS 1 * s.dynamicalTime -
        cf.MOON_ARG_OF_LATITUDE_COEFFS 2 * lm.pow s.dynamicalTime 2 -
        cf.MOON_ARG_OF_LATITUDE_COEFFS 3 * lm.pow s.dynamicalTime 3 +
        cf.MOON_ARG_OF_LATITUDE_COEFFS 4 * lm.pow s.dynamicalTime 4) }

/-- The function `MoonPosition::CalcActionOfVenus`. -/
def CalcActionOfVenus (cf : Coeffs) (s : MoonPosition) : MoonPosition :=
  { s with
    actionOfVenus :=
      Reduce (cf.ACTION_OF_VENUS_COEFFS 0 + cf.ACTION_OF_VENUS_COEFFS 1 * s.dynamicalTime) }

/-- The function `MoonPosition::CalcActionOfJupiter`. -/
def CalcActionOfJupiter (cf : Coeffs) (s : MoonPosition) : MoonPosition :=
  { s with
    actionOfJupiter :=
      Reduce (cf.ACTION_OF_JUPITER_COEFFS 0 + cf.ACTION_OF_JUPITER_COEFFS 1 * s.dynamicalTime) }

/-- The function `MoonPosition::CalcActionOfSomething`. -/
def CalcActionOfSomething (cf : Coeffs) (s : MoonPosition) : MoonPosition :=
  { s with
    actionOfSomething :=
      Reduce (cf.ACTION_OF_SOMETHING_COEFFS 0 +
        cf.ACTION_OF_SOMETHING_COEFFS 1 * s.dynamicalTime) }

/-- The function `MoonPosition::CalcEarthEccentricity`. -/
def CalcEarthEccentricity (lm : Libm) (cf : Coeffs) (s : MoonPosition) : MoonPosition :=
  { s with
    earthEccentricity :=
      cf.EARTH_ECCENTRICITY_COEFFS 0 -
      cf.EARTH_ECCENTRICITY_COEFFS 1 * s.dynamicalTime -
      cf.EARTH_ECCENTRICITY_COEFFS 2 * lm.pow s.dynamicalTime 2 }

/-- The function `MoonPosition::Reinitialize`. -/
def Reinitialize (s : MoonPosition) : MoonPosition :=
  { s with
    longitudeIntegrated := 0.0
    latitudeIntegrated := 0.0
    earthToMoonRadius := 0.0
    earthEccentricity := 0.0
    actionOfVenus := 0.0
    actionOfJupiter := 0.0
    actionOfSomething := 0.0
    moonMeanElongation := 0.0
    moonMeanLongitude := 0.0
    moonArgumentOfLatitude := 0.0
    moonMeanAnomaly := 0.0
    sunMeanAnomaly := 0.0
    geocentricLongitude := 0.0
    geocentricLatitude := 0.0
    earthToMoonDistance := 0.0
    cartesianCoordinates := fun _ => 0 }

/-- The function `MoonPosition::Iterate`. -/
def Iterate (lm : Libm) (cf : Coeffs) (s : MoonPosition) : MoonPosition :=
  let s := CalcDynamicTime cf s
  let s := CalcMoonMeanLongitude lm cf s
  let s := CalcMoonMeanElongation lm cf s
  let s := CalcSunMeanAnomaly lm cf s
  let s := CalcMoonMeanAnomaly lm cf s
  let s := CalcMoonArgumentOfLatitude lm cf s
  let s := CalcActionOfVenus cf s
  let s := CalcActionOfJupiter cf s
  let s := CalcActionOfSomething cf s
  CalcEarthEccentricity lm cf s

/-- The factor `pow( earthEccentricity, floor( abs( M ) ) )` of a series term, `M` the
row's multiplier of the Sun's mean anomaly; `abs` is the `double` overload. -/
def eccentricityFactor (lm : Libm) (E M : Dbl) : Dbl := lm.pow E (floor (abs M))

/-- The argument of a series term, in degrees: the row's four multipliers applied to
the four angles. -/
def termArgument (row : Fin 4 → Dbl) (s : MoonPosition) : Dbl :=
  row 0 * s.moonMeanElongation + row 1 * s.sunMeanAnomaly +
    row 2 * s.moonMeanAnomaly + row 3 * s.moonArgumentOfLatitude

/-- One pass through the body of the `for` loop of `MoonPosition::Integrate`. -/
def seriesStep (lm : Libm) (sr : SeriesTables) (s : MoonPosition) (i : Fin 60) :
    MoonPosition :=
  let s := { s with
    longitudeIntegrated :=
      s.longitudeIntegrated +
      sr.LONGITUDE_SINE_COEFF i *
        eccentricityFactor lm s.earthEccentricity (sr.LONGITUDE_PERIODIC_TERM_MATRIX i 1) *
        lm.sin ((M_PI / 180) * termArgument (sr.LONGITUDE_PERIODIC_TERM_MATRIX i) s) }
  let s := { s with
    earthToMoonRadius :=
      s.earthToMoonRadius +
      sr.LONGITUDE_COSINE_COEFF i *
        eccentricityFactor lm s.earthEccentricity (sr.LONGITUDE_PERIODIC_TERM_MATRIX i 1) *
        lm.cos ((M_PI / 180) * termArgument (sr.LONGITUDE_PERIODIC_TERM_MATRIX i) s) }
  { s with
    latitudeIntegrated :=
      s.latitudeIntegrated +
      sr.LATITUDE_SINE_COEFF i *
        eccentricityFactor lm s.earthEccentricity (sr.LATITUDE_PERIODIC_TERM_MATRIX i 1) *
        lm.sin ((M_PI / 180) * termArgument (sr.LATITUDE_PERIODIC_TERM_MATRIX i) s) }

/-- The `for` loop of `MoonPosition::Integrate`: `i` from 0 to 59. -/
def seriesLoop (lm : Libm) (sr : SeriesTables) (s : MoonPosition) : MoonPosition :=
  (List.finRange 60).foldl (seriesStep lm sr) s

/-- The additive corrections of `MoonPosition::Integrate` (after the loop). -/
def additiveCorrections (lm : Libm) (sr : SeriesTables) (s : MoonPosition) : MoonPosition :=
  let s := { s with
    longitudeIntegrated :=
      s.longitudeIntegrated +
      sr.LONGITUDE_ADDITIVE_COEFFS 0 * lm.sin ((M_PI / 180) * s.actionOfVenus) +
      sr.LONGITUDE_ADDITIVE_COEFFS 1 *
        lm.sin ((M_PI / 180) * (s.moonMeanLongitude - s.moonArgumentOfLatitude)) +
      sr.LONGITUDE_ADDITIVE_COEFFS 2 * lm.sin ((M_PI / 180) * s.actionOfJupiter) }
  { s with
    latitudeIntegrated :=
      s.latitudeIntegrated -
      sr.LATITUDE_ADDITIVE_COEFFS 0 * lm.sin ((M_PI / 180) * s.moonMeanLongitude) +
      sr.LATITUDE_ADDITIVE_COEFFS 1 * lm.sin ((M_PI / 180) * s.actionOfSomething) +
      sr.LATITUDE_ADDITIVE_COEFFS 2 *
        lm.sin ((M_PI / 180) * (s.actionOfVenus - s.moonArgumentOfLatitude)) +
      sr.LATITUDE_ADDITIVE_COEFFS 3 *
        lm.sin ((M_PI / 180) * (s.actionOfVenus + s.moonArgumentOfLatitude)) +
      sr.LATITUDE_ADDITIVE_COEFFS 4 *
        lm.sin ((M_PI / 180) * (s.moonMeanLongitude - s.moonMeanAnomaly)) -
      sr.LATITUDE_ADDITIVE_COEFFS 5 *
        lm.sin ((M_PI / 180) * (s.moonMeanLongitude + s.moonMeanAnomaly)) }

/-- The spherical result of `MoonPosition::Integrate`. -/
def assemble (s : MoonPosition) : MoonPosition :=
  let s := { s with
    geocentricLongitude :=
      s.moonMeanLongitude + s.longitudeIntegrated / 1000000 }
  let s := { s with
    geocentricLatitude :=
      s.latitudeIntegrated / 1000000 }
  { s with
    earthToMoonDistance :=
      385000.56 + s.earthToMoonRadius / 1000 }

/-- The Cartesian result of `MoonPosition::Integrate`. -/
def toCartesian (lm : Libm) (s : MoonPosition) : MoonPosition :=
  let s := { s with
    cartesianCoordinates :=
      Function.update s.cartesianCoordinates 0
        (s.earthToMoonDistance * lm.cos ((M_PI / 180) * s.geocentricLatitude) *
          lm.cos ((M_PI / 180) * s.geocentricLongitude)) }
  let s := { s with
    cartesianCoordinates :=
      Function.update s.cartesianCoordinates 1
        (s.earthToMoonDistance * lm.cos ((M_PI / 180) * s.geocentricLatitude) *
          lm.sin ((M_PI / 180) * s.geocentricLongitude)) }
  { s with
    cartesianCoordinates :=
      Function.update s.cartesianCoordinates 2
        (s.earthToMoonDistance * lm.sin ((M_PI / 180) * s.geocentricLatitude)) }

/-- The function `MoonPosition::Integrate`; the closing `PrintCurrentPosition` only
writes to the console and leaves the object as it is. -/
def Integrate (lm : Libm) (cf : Coeffs) (sr : SeriesTables) (s : MoonPosition) :
    MoonPosition :=
  let s := Reinitialize s
  let s := Iterate lm cf s
  let s := seriesLoop lm sr s
  let s := additiveCorrections lm sr s
  let s := assemble s
  toCartesian lm s

end MoonPosition

/-! ## Definitions used to state the properties -/

/-- Modelled from the spec: the polynomial coefficient arrays of the header
`include/moonPosition.h`, which is not among the sources.  The spec has them as the
published coefficient sets of the reference the source names (Meeus, Astronomical
Algorithms, chapter 47), the epoch constant and the century length of
`dynamicalTime = (jde - epochConstant) / centuryLengthInDays` being J2000 and the
Julian century; the signs are those `src/moonPosition.cpp` applies to the entries. -/
def meeusCoeffs : Coeffs where
  DYNAMIC_TIME_COEFFS := ![2451545.0, 36525.0]
  MOON_MEAN_LONGITUDE_COEFFS :=
    ![218.3164477, 481267.88123421, 0.0015786, 1.0 / 538841.0, 1.0 / 65194000.0]
  MOON_MEAN_ELONGATION_COEFFS :=
    ![297.8501921, 445267.1114034, 0.0018819, 1.0 / 545868.0, 1.0 / 113065000.0]
  SUN_MEAN_ANOMALY_COEFFS := ![357.5291092, 35999.0502909, 0.0001536, 1.0 / 24490000.0]
  MOON_MEAN_ANOMALY_COEFFS :=
    ![134.9633964, 477198.8675055, 0.0087414, 1.0 / 69699.0, 1.0 / 14712000.0]
  MOON_ARG_OF_LATITUDE_COEFFS :=
    ![93.2720950, 483202.0175233, 0.0036539, 1.0 / 3526000.0, 1.0 / 863310000.0]
  ACTION_OF_VENUS_COEFFS := ![119.75, 131.849]
  ACTION_OF_JUPITER_COEFFS := ![53.09, 479264.290]
  ACTION_OF_SOMETHING_COEFFS := ![313.45, 481266.484]
  EARTH_ECCENTRICITY_COEFFS := ![1.0, 0.002516, 0.0000074]

/-- The value is finite and in the half-open range `[0, 360)`. -/
def InHalfOpen360 (a : Dbl) : Prop := ∃ q : ℚ, a = fin q ∧ 0 ≤ q ∧ q < 360

/-- A sum taken left to right over the rows 0, 1, ..., 59, starting from 0. -/
def sumRows (term : Fin 60 → Dbl) : Dbl :=
  (List.finRange 60).foldl (fun acc i => acc + term i) 0

/-- The argument of a series term in radians, as the spec words it:
`(pi/180) * (D*moonMeanElongation + M*sunMeanAnomaly + M'*moonMeanAnomaly +
F*moonArgumentOfLatitude)`. -/
def specArgument (row : Fin 4 → Dbl) (s : MoonPosition) : Dbl :=
  (M_PI / 180) * (row 0 * s.moonMeanElongation + row 1 * s.sunMeanAnomaly +
    row 2 * s.moonMeanAnomaly + row 3 * s.moonArgumentOfLatitude)

/-- The longitude series as the spec words it. -/
def specLongitudeSum (lm : Libm) (sr : SeriesTables) (s : MoonPosition) : Dbl :=
  sumRows fun i => sr.LONGITUDE_SINE_COEFF i *
    lm.pow s.earthEccentricity (floor (abs (sr.LONGITUDE_PERIODIC_TERM_MATRIX i 1))) *
    lm.sin (specArgument (sr.LONGITUDE_PERIODIC_TERM_MATRIX i) s)

/-- The distance series as the spec words it. -/
def specDistanceSum (lm : Libm) (sr : SeriesTables) (s : MoonPosition) : Dbl :=
  sumRows fun i => sr.LONGITUDE_COSINE_COEFF i *
    lm.pow s.earthEccentricity (floor (abs (sr.LONGITUDE_PERIODIC_TERM_MATRIX i 1))) *
    lm.cos (specArgument (sr.LONGITUDE_PERIODIC_TERM_MATRIX i) s)

/-- The latitude series as the spec words it. -/
def specLatitudeSum (lm : Libm) (sr : SeriesTables) (s : MoonPosition) : Dbl :=
  sumRows fun i => sr.LATITUDE_SINE_COEFF i *
    lm.pow s.earthEccentricity (floor (abs (sr.LATITUDE_PERIODIC_TERM_MATRIX i 1))) *
    lm.sin (specArgument (sr.LATITUDE_PERIODIC_TERM_MATRIX i) s)

/-- The value is one a `double` can hold: an infinity, NaN, or a rational that is a
finite `double`. -/
def Dbl.WellFormed : Dbl → Prop
  | fin q => IsDouble q
  | _ => True

/-- A library to evaluate the program at concrete inputs: it returns its argument. -/
def identityLibm : Libm where
  sin := fun x => x
  cos := fun x => x
  pow := fun x _ => x

/-- Series tables to evaluate the program at concrete inputs: every entry 0. -/
def zeroSeries : SeriesTables where
  LONGITUDE_PERIODIC_TERM_MATRIX := fun _ _ => fin 0
  LATITUDE_PERIODIC_TERM_MATRIX := fun _ _ => fin 0
  LONGITUDE_SINE_COEFF := fun _ => fin 0
  LONGITUDE_COSINE_COEFF := fun _ => fin 0
  LATITUDE_SINE_COEFF := fun _ => fin 0
  LONGITUDE_ADDITIVE_COEFFS := fun _ => fin 0
  LATITUDE_ADDITIVE_COEFFS := fun _ => fin 0

/-- The value is finite and within `tol` of `c`. -/
def Near (a : Dbl) (c tol : ℚ) : Prop := ∃ v : ℚ, a = fin v ∧ |v - c| < tol

/-- What is fixed of `pow` at the exponents 0 and 1: `pow(x, 0)` is 1 for every `x`, a
NaN included (C standard, Annex F), and `pow(x, 1)` is `x`. -/
def Libm.PowExactCases (lm : Libm) : Prop :=
  (∀ x : Dbl, lm.pow x (fin 0) = fin 1) ∧ ∀ x : Dbl, lm.pow x (fin 1) = x

/-- The accuracy the C library documents for `pow`, at a finite base and a natural
exponent from 2 on with the exact power below `2^1023` in size: the result is a finite
`double` and is at most one unit in the last place of the exact power away from it. -/
def Libm.PowWithinOneUlp (lm : Libm) : Prop :=
  ∀ (a : ℚ) (n : ℕ), 2 ≤ n → |a ^ n| < 2 ^ 1023 →
    ∃ p : ℚ, lm.pow (fin a) (fin n) = fin p ∧ IsDouble p ∧ |p - a ^ n| ≤ 2 ^ ulpExp (a ^ n)

/-- At a finite argument `sin` and `cos` return a finite value from -1 to 1. -/
def Libm.SinCosBounded (lm : Libm) : Prop :=
  ∀ a : ℚ, (∃ v : ℚ, lm.sin (fin a) = fin v ∧ |v| ≤ 1) ∧
    ∃ v : ℚ, lm.cos (fin a) = fin v ∧ |v| ≤ 1

/-- A `pow` to evaluate the program at concrete inputs: 1 at exponent 0, the base at
exponent 1, the power rounded to nearest at the other natural exponents and a finite
base (NaN where the examples never call it). -/
def nearestPow (x y : Dbl) : Dbl :=
  match y with
  | fin e =>
      if e = 0 then fin 1
      else if e = 1 then x
      else
        match x with
        | fin a => ofRat (a ^ ⌊e⌋.toNat)
        | _ => nan
  | _ => nan

/-- A library to evaluate the program at concrete inputs: `nearestPow`, and the values
of `sin` and `cos` at 0 at every argument. -/
def referenceLibm : Libm where
  sin := fun _ => fin 0
  cos := fun _ => fin 1
  pow := nearestPow

/-- The scaling of a row's term as C10 words it: 1, `E` and the product `E * E` at
`|M| = 0, 1, 2`. -/
def specScaling (E : Dbl) (m : ℤ) : Dbl :=
  if m = 0 then fin 1 else if |m| = 1 then E else E * E

/-- The scaling of a row's term with the library's `pow(E, 2.0)` at `|M| = 2`. -/
def libraryScaling (lm : Libm) (E : Dbl) (m : ℤ) : Dbl :=
  if m = 0 then fin 1 else if |m| = 1 then E else lm.pow E (fin 2)

/-- A library for the example of C10.  At the `earthEccentricity` of
`julianEphemerisDay = 2440461.5`, the `double` `0x1.0031fda08d06bp+0`, `pow(E, 2.0)` is
`0x1.006405042cca2p+0`, the value glibc 2.36 returns; it is `nearestPow` elsewhere.
`sin` returns at the one argument of the example the `double` nearest to the sine, and
`sin` and `cos` return their values at 0 elsewhere. -/
def scalingExampleLibm : Libm where
  sin := fun x =>
    if x = fin (4590951808781077 / 2 ^ 49) then fin (8601740454704771 / 2 ^ 53) else fin 0
  cos := fun _ => fin 1
  pow := fun x y =>
    if x = fin (4507034964250731 / 2 ^ 52) ∧ y = fin 2 then fin (2255236460799569 / 2 ^ 51)
    else nearestPow x y

/-- Series tables for the example of C10: every row has the multipliers `(0, 2, 0, 0)`
and the amplitude 1; no additive correction. -/
def scalingExampleSeries : SeriesTables where
  LONGITUDE_PERIODIC_TERM_MATRIX := fun _ => ![fin 0, fin 2, fin 0, fin 0]
  LATITUDE_PERIODIC_TERM_MATRIX := fun _ => ![fin 0, fin 2, fin 0, fin 0]
  LONGITUDE_SINE_COEFF := fun _ => fin 1
  LONGITUDE_COSINE_COEFF := fun _ => fin 1
  LATITUDE_SINE_COEFF := fun _ => fin 1
  LONGITUDE_ADDITIVE_COEFFS := fun _ => fin 0
  LATITUDE_ADDITIVE_COEFFS := fun _ => fin 0

theorem roundHalfEven_intCast (z : ℤ) : roundHalfEven (z : ℚ) = z := by
  simp [roundHalfEven]

theorem floor_le_roundHalfEven (q : ℚ) : ⌊q⌋ ≤ roundHalfEven q := by
  unfold roundHalfEven
  split_ifs <;> omega

theorem roundHalfEven_le_floor_add_one (q : ℚ) : roundHalfEven q ≤ ⌊q⌋ + 1 := by
  unfold roundHalfEven
  split_ifs <;> omega

theorem roundHalfEven_mono {q r : ℚ} (h : q ≤ r) : roundHalfEven q ≤ roundHalfEven r := by
  have hfl : ⌊q⌋ ≤ ⌊r⌋ := Int.floor_le_floor h
  rcases lt_or_eq_of_le hfl with hlt | heq
  · calc roundHalfEven q ≤ ⌊q⌋ + 1 := roundHalfEven_le_floor_add_one q
      _ ≤ ⌊r⌋ := hlt
      _ ≤ roundHalfEven r := floor_le_roundHalfEven r
  · have hfr : Int.fract q ≤ Int.fract r := by
      unfold Int.fract
      rw [heq]
      linarith
    unfold roundHalfEven
    rw [heq]
    split_ifs <;> first | omega | (exfalso; linarith)

/-- A rational within one half of an integer rounds to it. -/
theorem roundHalfEven_eq_of_abs_sub_lt {q : ℚ} {z : ℤ} (h : |q - z| < 1 / 2) :
    roundHalfEven q = z := by
  rw [abs_lt] at h
  obtain ⟨h1, h2⟩ := h
  by_cases hq : (z : ℚ) ≤ q
  · have hf : ⌊q⌋ = z := Int.floor_eq_iff.mpr ⟨hq, by linarith⟩
    have hfr : Int.fract q < 1 / 2 := by unfold Int.fract; rw [hf]; linarith
    unfold roundHalfEven
    rw [if_pos hfr, hf]
  · push_neg at hq
    have hf : ⌊q⌋ = z - 1 := Int.floor_eq_iff.mpr ⟨by push_cast; linarith, by push_cast; linarith⟩
    have hfr : 1 / 2 < Int.fract q := by unfold Int.fract; rw [hf]; push_cast; linarith
    have hfr2 : ¬ Int.fract q < 1 / 2 := not_lt.mpr hfr.le
    unfold roundHalfEven
    rw [if_neg hfr2, if_pos hfr, hf]
    ring

theorem roundHalfEven_nonneg {q : ℚ} (h : 0 ≤ q) : 0 ≤ roundHalfEven q := by
  have := roundHalfEven_mono h
  simpa [roundHalfEven] using this

theorem log_two_eq {q : ℚ} {e : ℤ} (h1 : (2 : ℚ) ^ e ≤ |q|) (h2 : |q| < 2 ^ (e + 1)) :
    Int.log 2 |q| = e := by
  have hpos : (0 : ℚ) < |q| := lt_of_lt_of_le (by positivity) h1
  have a : e ≤ Int.log 2 |q| := by
    rw [← Int.zpow_le_iff_le_log (by norm_num) hpos]
    simpa using h1
  have b : Int.log 2 |q| < e + 1 := by
    rw [← Int.lt_zpow_iff_log_lt (by norm_num) hpos]
    simpa using h2
  omega

theorem ulpExp_eq {q : ℚ} {e : ℤ} (he : -1022 ≤ e) (h1 : (2 : ℚ) ^ e ≤ |q|)
    (h2 : |q| < 2 ^ (e + 1)) : ulpExp q = e - 52 := by
  unfold ulpExp
  rw [log_two_eq h1 h2, max_eq_left he]

theorem rnd_eq {q : ℚ} (e z : ℤ) (he : -1022 ≤ e) (h1 : (2 : ℚ) ^ e ≤ |q|)
    (h2 : |q| < 2 ^ (e + 1)) (hz : |q / 2 ^ (e - 52) - z| < 1 / 2) :
    rnd q = z * 2 ^ (e - 52) := by
  unfold rnd
  rw [ulpExp_eq he h1 h2, roundHalfEven_eq_of_abs_sub_lt hz]

theorem rnd_zero : rnd 0 = 0 := by
  simp [rnd, roundHalfEven]

theorem two_zpow_pos (e : ℤ) : (0 : ℚ) < 2 ^ e := by positivity

theorem ulpExp_mono {x y : ℚ} (hx : 0 < x) (hxy : x ≤ y) : ulpExp x ≤ ulpExp y := by
  unfold ulpExp
  have h : Int.log 2 |x| ≤ Int.log 2 |y| := by
    rw [abs_of_pos hx, abs_of_pos (lt_of_lt_of_le hx hxy)]
    exact Int.log_mono_right hx hxy
  have := max_le_max h (le_refl (-1022 : ℤ))
  omega

theorem abs_lt_two_zpow_ulpExp (x : ℚ) : |x| < 2 ^ (ulpExp x + 53) := by
  have h1 : |x| < ((2 : ℕ) : ℚ) ^ (Int.log 2 |x| + 1) := Int.lt_zpow_succ_log_self (by norm_num) _
  have h2 : Int.log 2 |x| + 1 ≤ ulpExp x + 53 := by
    unfold ulpExp
    have := le_max_left (Int.log 2 |x|) (-1022)
    omega
  have h3 : ((2 : ℕ) : ℚ) ^ (Int.log 2 |x| + 1) ≤ 2 ^ (ulpExp x + 53) := by
    simpa using zpow_le_zpow_right₀ (by norm_num : (1 : ℚ) ≤ 2) h2
  exact lt_of_lt_of_le h1 h3

theorem two_zpow_ulpExp_le {y : ℚ} (hy : y ≠ 0) (h : -1074 < ulpExp y) :
    (2 : ℚ) ^ (ulpExp y + 52) ≤ |y| := by
  have hpos : (0 : ℚ) < |y| := abs_pos.mpr hy
  have h1 : ((2 : ℕ) : ℚ) ^ (Int.log 2 |y|) ≤ |y| := Int.zpow_log_le_self (by norm_num) hpos
  have h2 : ulpExp y + 52 = Int.log 2 |y| := by
    unfold ulpExp at h ⊢
    rcases le_total (Int.log 2 |y|) (-1022) with hle | hle
    · rw [max_eq_right hle] at h
      omega
    · rw [max_eq_left hle]
      ring
  rw [h2]
  simpa using h1

theorem rnd_le_two_zpow {x : ℚ} (hx : 0 ≤ x) : rnd x ≤ 2 ^ (ulpExp x + 53) := by
  have hlt := abs_lt_two_zpow_ulpExp x
  rw [abs_of_nonneg hx] at hlt
  have hq : x / 2 ^ ulpExp x ≤ ((2 ^ 53 : ℤ) : ℚ) := by
    rw [div_le_iff₀ (two_zpow_pos _)]
    have : ((2 ^ 53 : ℤ) : ℚ) * 2 ^ ulpExp x = 2 ^ (ulpExp x + 53) := by
      rw [zpow_add₀ (by norm_num)]
      norm_num
      ring
    rw [this]
    exact hlt.le
  have hr := roundHalfEven_mono hq
  rw [roundHalfEven_intCast] at hr
  have hr2 : (roundHalfEven (x / 2 ^ ulpExp x) : ℚ) ≤ ((2 ^ 53 : ℤ) : ℚ) := by exact_mod_cast hr
  unfold rnd
  calc (roundHalfEven (x / 2 ^ ulpExp x) : ℚ) * 2 ^ ulpExp x
      ≤ ((2 ^ 53 : ℤ) : ℚ) * 2 ^ ulpExp x :=
        mul_le_mul_of_nonneg_right hr2 (two_zpow_pos _).le
    _ = 2 ^ (ulpExp x + 53) := by
      rw [zpow_add₀ (by norm_num)]
      norm_num
      ring

theorem two_zpow_le_rnd {y : ℚ} (hy : 0 < y) (h : -1074 < ulpExp y) :
    (2 : ℚ) ^ (ulpExp y + 52) ≤ rnd y := by
  have hle := two_zpow_ulpExp_le hy.ne' h
  rw [abs_of_pos hy] at hle
  have hq : ((2 ^ 52 : ℤ) : ℚ) ≤ y / 2 ^ ulpExp y := by
    rw [le_div_iff₀ (two_zpow_pos _)]
    have : ((2 ^ 52 : ℤ) : ℚ) * 2 ^ ulpExp y = 2 ^ (ulpExp y + 52) := by
      rw [zpow_add₀ (by norm_num)]
      norm_num
      ring
    rw [this]
    exact hle
  have hr := roundHalfEven_mono hq
  rw [roundHalfEven_intCast] at hr
  have hr2 : ((2 ^ 52 : ℤ) : ℚ) ≤ (roundHalfEven (y / 2 ^ ulpExp y) : ℚ) := by exact_mod_cast hr
  unfold rnd
  calc (2 : ℚ) ^ (ulpExp y + 52) = ((2 ^ 52 : ℤ) : ℚ) * 2 ^ ulpExp y := by
        rw [zpow_add₀ (by norm_num)]
        norm_num
        ring
    _ ≤ (roundHalfEven (y / 2 ^ ulpExp y) : ℚ) * 2 ^ ulpExp y :=
        mul_le_mul_of_nonneg_right hr2 (two_zpow_pos _).le

theorem ulpExp_ge (x : ℚ) : -1074 ≤ ulpExp x := by
  unfold ulpExp
  have := le_max_right (Int.log 2 |x|) (-1022)
  omega

/-- Rounding is monotone on the positive rationals. -/
theorem rnd_mono_of_pos {x y : ℚ} (hx : 0 < x) (hxy : x ≤ y) : rnd x ≤ rnd y := by
  have hy : 0 < y := lt_of_lt_of_le hx hxy
  rcases lt_or_eq_of_le (ulpExp_mono hx hxy) with hlt | heq
  · have h1 := rnd_le_two_zpow hx.le
    have h2 := two_zpow_le_rnd hy (lt_of_le_of_lt (ulpExp_ge x) hlt)
    have h3 : (2 : ℚ) ^ (ulpExp x + 53) ≤ 2 ^ (ulpExp y + 52) :=
      zpow_le_zpow_right₀ (by norm_num) (by omega)
    linarith
  · unfold rnd
    rw [heq]
    have hq : x / 2 ^ ulpExp y ≤ y / 2 ^ ulpExp y :=
      div_le_div_of_nonneg_right hxy (two_zpow_pos _).le
    have hr := roundHalfEven_mono hq
    have hr2 : (roundHalfEven (x / 2 ^ ulpExp y) : ℚ) ≤ (roundHalfEven (y / 2 ^ ulpExp y) : ℚ) := by
      exact_mod_cast hr
    exact mul_le_mul_of_nonneg_right hr2 (two_zpow_pos _).le

theorem rnd_nonneg {x : ℚ} (hx : 0 ≤ x) : 0 ≤ rnd x := by
  unfold rnd
  have h1 : 0 ≤ x / 2 ^ ulpExp x := div_nonneg hx (two_zpow_pos _).le
  have h2 := roundHalfEven_nonneg h1
  have h3 : (0 : ℚ) ≤ (roundHalfEven (x / 2 ^ ulpExp x) : ℚ) := by exact_mod_cast h2
  exact mul_nonneg h3 (two_zpow_pos _).le

/-! ## The rounding error -/

theorem roundHalfEven_abs_sub_le (q : ℚ) : |(roundHalfEven q : ℚ) - q| ≤ 1 / 2 := by
  have h0 := Int.fract_nonneg q
  have h1 := Int.fract_lt_one q
  have hq : q = ⌊q⌋ + Int.fract q := (Int.floor_add_fract q).symm
  rw [abs_le]
  unfold roundHalfEven
  split_ifs <;> push_cast <;> constructor <;> linarith

theorem ulpExp_le {t : ℚ} (e : ℤ) (ht : t ≠ 0) (he : -1022 ≤ e) (h : |t| < 2 ^ (e + 1)) :
    ulpExp t ≤ e - 52 := by
  have hpos : (0 : ℚ) < |t| := abs_pos.mpr ht
  have hl : Int.log 2 |t| < e + 1 := by
    rw [← Int.lt_zpow_iff_log_lt (by norm_num) hpos]
    simpa using h
  unfold ulpExp
  have := max_le (show Int.log 2 |t| ≤ e by omega) he
  omega

theorem rnd_abs_sub_le (t : ℚ) : |rnd t - t| ≤ 2 ^ ulpExp t / 2 := by
  have hu := two_zpow_pos (ulpExp t)
  have h := roundHalfEven_abs_sub_le (t / 2 ^ ulpExp t)
  have he : rnd t - t = ((roundHalfEven (t / 2 ^ ulpExp t) : ℚ) - t / 2 ^ ulpExp t) *
      2 ^ ulpExp t := by
    unfold rnd
    field_simp
  rw [he, abs_mul, abs_of_pos hu]
  calc |(roundHalfEven (t / 2 ^ ulpExp t) : ℚ) - t / 2 ^ ulpExp t| * 2 ^ ulpExp t
      ≤ 1 / 2 * 2 ^ ulpExp t := mul_le_mul_of_nonneg_right h hu.le
    _ = 2 ^ ulpExp t / 2 := by ring

theorem roundHalfEven_neg (t : ℚ) : roundHalfEven (-t) = -roundHalfEven t := by
  by_cases h0 : Int.fract t = 0
  · have ht : t = ⌊t⌋ := by
      have := Int.floor_add_fract t
      rw [h0, add_zero] at this
      exact this.symm
    rw [ht, ← Int.cast_neg, roundHalfEven_intCast, roundHalfEven_intCast]
  · have hf : Int.fract (-t) = 1 - Int.fract t := Int.fract_neg h0
    have hfl : ⌊-t⌋ = -⌊t⌋ - 1 := by
      have h1 := Int.floor_add_fract (-t)
      have h2 := Int.floor_add_fract t
      have h3 : ((⌊-t⌋ : ℤ) : ℚ) = ((-⌊t⌋ - 1 : ℤ) : ℚ) := by
        push_cast
        linarith
      exact_mod_cast h3
    have hpos : 0 < Int.fract t := lt_of_le_of_ne (Int.fract_nonneg t) (Ne.symm h0)
    unfold roundHalfEven
    rw [hf, hfl]
    split_ifs <;> first | omega | (exfalso; linarith)

theorem ulpExp_neg (q : ℚ) : ulpExp (-q) = ulpExp q := by
  unfold ulpExp
  rw [abs_neg]

theorem rnd_neg (q : ℚ) : rnd (-q) = -rnd q := by
  unfold rnd
  rw [ulpExp_neg, neg_div, roundHalfEven_neg]
  push_cast
  ring

theorem roundHalfEven_le_of_lt_add_half {t : ℚ} {z : ℤ} (h : t < z + 1 / 2) :
    roundHalfEven t ≤ z := by
  rcases le_or_lt t z with ht | ht
  · have := roundHalfEven_mono ht
    rwa [roundHalfEven_intCast] at this
  · have : roundHalfEven t = z := by
      apply roundHalfEven_eq_of_abs_sub_lt
      rw [abs_lt]
      constructor <;> linarith
    exact this.le

/-- A value on the grid of an exponent from `-1074` on, with fewer than 53 significant
bits, is not changed by rounding. -/
theorem rnd_grid (z e : ℤ) (hz : |z| < 2 ^ 53) (he : -1074 ≤ e) :
    rnd ((z : ℚ) * 2 ^ e) = (z : ℚ) * 2 ^ e := by
  by_cases hz0 : z = 0
  · rw [hz0]
    simp [rnd_zero]
  · have hv0 : (z : ℚ) * 2 ^ e ≠ 0 :=
      mul_ne_zero (by exact_mod_cast hz0) (two_zpow_pos e).ne'
    have hzq : |(z : ℚ)| < 2 ^ 53 := by exact_mod_cast hz
    have hlt : |(z : ℚ) * 2 ^ e| < 2 ^ (e + 52 + 1) := by
      rw [abs_mul, abs_of_pos (two_zpow_pos e)]
      have : (2 : ℚ) ^ (e + 52 + 1) = 2 ^ 53 * 2 ^ e := by
        rw [show e + 52 + 1 = 53 + e by ring, zpow_add₀ (by norm_num)]
        norm_num
      rw [this]
      exact mul_lt_mul_of_pos_right hzq (two_zpow_pos e)
    have hu := ulpExp_le (e + 52) hv0 (by omega) hlt
    obtain ⟨n, hn⟩ : ∃ n : ℕ, e - ulpExp ((z : ℚ) * 2 ^ e) = n :=
      Int.eq_ofNat_of_zero_le (by omega)
    have he2 : (2 : ℚ) ^ e = 2 ^ n * 2 ^ ulpExp ((z : ℚ) * 2 ^ e) := by
      rw [← zpow_natCast, ← zpow_add₀ (by norm_num), ← hn]
      ring_nf
    unfold rnd
    have hq : (z : ℚ) * 2 ^ e / 2 ^ ulpExp ((z : ℚ) * 2 ^ e) = ((z * 2 ^ n : ℤ) : ℚ) := by
      rw [div_eq_iff (two_zpow_pos _).ne']
      push_cast
      nth_rewrite 1 [he2]
      ring
    rw [hq, roundHalfEven_intCast]
    push_cast
    nth_rewrite 2 [he2]
    ring

theorem roundHalfEven_scaled_abs_le (q : ℚ) :
    |roundHalfEven (q / 2 ^ ulpExp q)| ≤ 2 ^ 53 := by
  have hlt := abs_lt_two_zpow_ulpExp q
  have hu := two_zpow_pos (ulpExp q)
  have hb : |q / 2 ^ ulpExp q| < 2 ^ 53 := by
    rw [abs_div, abs_of_pos hu, div_lt_iff₀ hu]
    have : (2 : ℚ) ^ 53 * 2 ^ ulpExp q = 2 ^ (ulpExp q + 53) := by
      rw [zpow_add₀ (by norm_num)]
      norm_num
      ring
    rw [this]
    exact hlt
  rw [abs_lt] at hb
  rw [abs_le]
  constructor
  · have h1 : (((-2 ^ 53 : ℤ)) : ℚ) ≤ q / 2 ^ ulpExp q := by
      push_cast
      linarith
    have := roundHalfEven_mono h1
    rwa [roundHalfEven_intCast] at this
  · have h1 : q / 2 ^ ulpExp q ≤ (((2 ^ 53 : ℤ)) : ℚ) := by
      push_cast
      linarith
    have := roundHalfEven_mono h1
    rwa [roundHalfEven_intCast] at this

/-- Rounding is idempotent. -/
theorem rnd_rnd (q : ℚ) : rnd (rnd q) = rnd q := by
  have hz := roundHalfEven_scaled_abs_le q
  have he := ulpExp_ge q
  rcases lt_or_eq_of_le hz with hlt | heq
  · exact rnd_grid _ _ hlt he
  · have hr : rnd q = ((roundHalfEven (q / 2 ^ ulpExp q) / 2 : ℤ) : ℚ) * 2 ^ (ulpExp q + 1) := by
      unfold rnd
      rcases abs_eq (by norm_num : (0 : ℤ) ≤ 2 ^ 53) |>.mp heq with h | h
      · rw [h, zpow_add₀ (by norm_num)]
        norm_num
        ring
      · rw [h, zpow_add₀ (by norm_num)]
        norm_num
        ring
    rw [hr]
    apply rnd_grid _ _ _ (by omega)
    rcases abs_eq (by norm_num : (0 : ℤ) ≤ 2 ^ 53) |>.mp heq with h | h
    · rw [h]
      norm_num
    · rw [h]
      norm_num

theorem rnd_nonpos {x : ℚ} (hx : x ≤ 0) : rnd x ≤ 0 := by
  have h := rnd_nonneg (x := -x) (by linarith)
  rw [rnd_neg] at h
  linarith

theorem rnd_two_pow_1023 : rnd (2 ^ 1023) = 2 ^ 1023 := by
  rw [rnd_eq 1023 (2 ^ 52) (by norm_num) (by norm_num [abs_of_pos])
    (by norm_num [abs_of_pos]) (by norm_num [abs_lt])]
  norm_num

/-- Below the overflow threshold the rounded value is below it too. -/
theorem rnd_lt_overflowThreshold {q : ℚ} (h : q < overflowThreshold) :
    rnd q < overflowThreshold := by
  unfold overflowThreshold at h ⊢
  rcases le_or_lt q 0 with h0 | h0
  · have := rnd_nonpos h0
    have : (0 : ℚ) < 2 ^ 1024 - 2 ^ 970 := by norm_num
    linarith
  · rcases lt_or_le q (2 ^ 1023) with h1 | h1
    · have hm := rnd_mono_of_pos h0 h1.le
      rw [rnd_two_pow_1023] at hm
      have : (2 : ℚ) ^ 1023 < 2 ^ 1024 - 2 ^ 970 := by norm_num
      linarith
    · have hu : ulpExp q = 1023 - 52 := by
        apply ulpExp_eq (by norm_num)
        · have e1 : (2 : ℚ) ^ (1023 : ℤ) = 2 ^ 1023 := by norm_num
          rw [abs_of_pos h0, e1]
          exact h1
        · rw [abs_of_pos h0]
          have : (2 : ℚ) ^ 1024 - 2 ^ 970 < 2 ^ (1023 + 1 : ℤ) := by norm_num
          linarith
      have hr : roundHalfEven (q / 2 ^ ulpExp q) ≤ 2 ^ 53 - 1 := by
        apply roundHalfEven_le_of_lt_add_half
        rw [hu, div_lt_iff₀ (two_zpow_pos _)]
        have : (((2 ^ 53 - 1 : ℤ) : ℚ) + 1 / 2) * 2 ^ (1023 - 52 : ℤ) = 2 ^ 1024 - 2 ^ 970 := by
          norm_num
        rw [this]
        exact h
      have hr2 : (roundHalfEven (q / 2 ^ ulpExp q) : ℚ) ≤ ((2 ^ 53 - 1 : ℤ) : ℚ) := by
        exact_mod_cast hr
      unfold rnd
      calc (roundHalfEven (q / 2 ^ ulpExp q) : ℚ) * 2 ^ ulpExp q
          ≤ ((2 ^ 53 - 1 : ℤ) : ℚ) * 2 ^ ulpExp q :=
            mul_le_mul_of_nonneg_right hr2 (two_zpow_pos _).le
        _ < 2 ^ 1024 - 2 ^ 970 := by
            rw [hu]
            norm_num

theorem neg_overflowThreshold_lt_rnd {q : ℚ} (h : -overflowThreshold < q) :
    -overflowThreshold < rnd q := by
  have h1 := rnd_lt_overflowThreshold (q := -q) (by linarith)
  rw [rnd_neg] at h1
  linarith

/-! ## Literals and conversions -/

namespace Dbl

theorem ofRat_eq_fin {q : ℚ} (h1 : q < overflowThreshold) (h2 : -overflowThreshold < q) :
    ofRat q = fin (rnd q) := by
  unfold ofRat
  rw [if_neg (not_le.mpr h1), if_neg (not_le.mpr h2)]

theorem overflowThreshold_gt : (1000000 : ℚ) < overflowThreshold := by
  unfold overflowThreshold
  norm_num

theorem ofRat_eq_fin_of_abs_lt {q : ℚ} (h : |q| < 1000000) : ofRat q = fin (rnd q) := by
  rw [abs_lt] at h
  have := overflowThreshold_gt
  exact ofRat_eq_fin (by linarith) (by linarith)

theorem ofRat_zero : ofRat 0 = fin 0 := by
  rw [ofRat_eq_fin_of_abs_lt (by norm_num), rnd_zero]

theorem rnd_360 : rnd 360 = 360 := by
  rw [rnd_eq 8 (360 * 2 ^ 44) (by norm_num) (by norm_num) (by norm_num) (by norm_num)]
  norm_num

theorem ofRat_360 : ofRat 360 = fin 360 := by
  rw [ofRat_eq_fin_of_abs_lt (by norm_num), rnd_360]

theorem lit_zero : (0 : Dbl) = fin 0 := ofRat_zero

theorem lit_360 : (360.0 : Dbl) = fin 360 := by
  show ofRat (OfScientific.ofScientific 3600 true 1) = fin 360
  have : (OfScientific.ofScientific 3600 true 1 : ℚ) = 360 := by norm_num
  rw [this, ofRat_360]

theorem add_def (x y : Dbl) : x + y = add x y := rfl
theorem sub_def (x y : Dbl) : x - y = add x (neg y) := rfl
theorem mul_def (x y : Dbl) : x * y = mul x y := rfl
theorem div_def (x y : Dbl) : x / y = div x y := rfl
end Dbl

namespace Dbl

/-- Every result of an arithmetic operation is a `double`. -/
theorem ofRat_wellFormed (q : ℚ) : (ofRat q).WellFormed := by
  unfold ofRat
  split_ifs with h1 h2
  · trivial
  · trivial
  · show ofRat (rnd q) = fin (rnd q)
    rw [ofRat_eq_fin (rnd_lt_overflowThreshold (not_le.mp h1))
      (neg_overflowThreshold_lt_rnd (not_le.mp h2)), rnd_rnd]

theorem add_wellFormed (x y : Dbl) : (x + y).WellFormed := by
  cases x <;> cases y <;> first | exact ofRat_wellFormed _ | trivial | skip
  rename_i s t
  show (if s = t then inf s else nan).WellFormed
  split_ifs <;> trivial

theorem sub_wellFormed (x y : Dbl) : (x - y).WellFormed := add_wellFormed x (neg y)

end Dbl

/-! ## The truncated remainder -/

theorem fmodQ_nonneg {x : ℚ} (hx : 0 ≤ x) : 0 ≤ fmodQ x 360 ∧ fmodQ x 360 < 360 := by
  unfold fmodQ truncQ
  have h0 : (0 : ℚ) ≤ x / 360 := by positivity
  rw [if_pos h0]
  have h1 := Int.floor_le (x / 360)
  have h2 := Int.lt_floor_add_one (x / 360)
  constructor <;> linarith

theorem fmodQ_neg {x : ℚ} (hx : x < 0) : -360 < fmodQ x 360 ∧ fmodQ x 360 ≤ 0 := by
  unfold fmodQ truncQ
  have h0 : ¬ (0 : ℚ) ≤ x / 360 := by
    rw [not_le]
    exact div_neg_of_neg_of_pos hx (by norm_num)
  rw [if_neg h0]
  have h1 := Int.le_ceil (x / 360)
  have h2 := Int.ceil_lt_add_one (x / 360)
  constructor <;> linarith

theorem fmodQ_abs_lt (x : ℚ) : -360 < fmodQ x 360 ∧ fmodQ x 360 < 360 := by
  rcases le_or_lt 0 x with h | h
  · have := fmodQ_nonneg h
    constructor <;> linarith
  · have := fmodQ_neg h
    constructor <;> linarith

theorem fmodQ_of_lt {x : ℚ} (h0 : 0 ≤ x) (h1 : x < 360) : fmodQ x 360 = x := by
  unfold fmodQ truncQ
  have hn : (0 : ℚ) ≤ x / 360 := by positivity
  have hf : ⌊x / 360⌋ = 0 := by
    rw [Int.floor_eq_iff]
    constructor
    · simpa using hn
    · rw [div_lt_iff₀ (by norm_num)]
      simpa using h1
  rw [if_pos hn, hf]
  simp

theorem fmodQ_of_neg_lt {x : ℚ} (h0 : x < 0) (h1 : -360 < x) : fmodQ x 360 = x := by
  unfold fmodQ truncQ
  have hn : ¬ (0 : ℚ) ≤ x / 360 := by
    rw [not_le]
    exact div_neg_of_neg_of_pos h0 (by norm_num)
  have hf : ⌈x / 360⌉ = 0 := by
    rw [Int.ceil_eq_iff]
    constructor
    · rw [lt_div_iff₀ (by norm_num)]
      simpa using h1
    · simpa using (not_le.mp hn).le
  rw [if_neg hn, hf]
  simp

/-! ## The reference library -/

theorem rnd_one : rnd 1 = 1 := by
  rw [rnd_eq 0 (2 ^ 52) (by norm_num) (by norm_num) (by norm_num) (by norm_num)]
  norm_num

theorem nearestPow_zero (x : Dbl) : nearestPow x (fin 0) = fin 1 := by
  simp [nearestPow]

theorem nearestPow_one (x : Dbl) : nearestPow x (fin 1) = x := by
  simp [nearestPow]

theorem nearestPow_natCast (a : ℚ) (n : ℕ) (hn : 2 ≤ n) :
    nearestPow (fin a) (fin n) = ofRat (a ^ n) := by
  have h0 : (n : ℚ) ≠ 0 := by
    have : (2 : ℚ) ≤ n := by exact_mod_cast hn
    linarith
  have h1 : (n : ℚ) ≠ 1 := by
    have : (2 : ℚ) ≤ n := by exact_mod_cast hn
    linarith
  unfold nearestPow
  simp only []
  rw [if_neg h0, if_neg h1, Int.floor_natCast, Int.toNat_ofNat]

theorem two_pow_1023_lt_overflowThreshold : (2 : ℚ) ^ 1023 < overflowThreshold := by
  unfold overflowThreshold
  norm_num

/-- A rounded value below `2^1023` in size is a finite `double`. -/
theorem isDouble_rnd {t : ℚ} (h : |t| < 2 ^ 1023) : IsDouble (rnd t) := by
  have ht := two_pow_1023_lt_overflowThreshold
  rw [abs_lt] at h
  unfold IsDouble
  rw [ofRat_eq_fin (rnd_lt_overflowThreshold (by linarith))
    (neg_overflowThreshold_lt_rnd (by linarith)), rnd_rnd]

theorem ofRat_of_abs_lt {t : ℚ} (h : |t| < 2 ^ 1023) : ofRat t = fin (rnd t) := by
  have ht := two_pow_1023_lt_overflowThreshold
  rw [abs_lt] at h
  exact ofRat_eq_fin (by linarith) (by linarith)

theorem referenceLibm_powExactCases : referenceLibm.PowExactCases :=
  ⟨nearestPow_zero, nearestPow_one⟩

theorem referenceLibm_powWithinOneUlp : referenceLibm.PowWithinOneUlp := by
  intro a n hn hb
  refine ⟨rnd (a ^ n), ?_, isDouble_rnd hb, ?_⟩
  · show nearestPow (fin a) (fin n) = _
    rw [nearestPow_natCast a n hn, ofRat_of_abs_lt hb]
  · have h := rnd_abs_sub_le (a ^ n)
    have hp := two_zpow_pos (ulpExp (a ^ n))
    linarith

theorem referenceLibm_sinCosBounded : referenceLibm.SinCosBounded :=
  fun _ => ⟨⟨0, rfl, by norm_num⟩, ⟨1, rfl, by norm_num⟩⟩

/-! ## The program: properties -/

namespace MoonPosition

/-- What `Reduce` returns at a finite value. -/
theorem Reduce_fin (x : ℚ) :
    Reduce (fin x) =
      if fmodQ x 360 < 0 then fin (rnd (fmodQ x 360 + 360)) else fin (fmodQ x 360) := by
  unfold Reduce
  simp only [lit_360, lit_zero, fmod, lt]
  have h360 : (360 : ℚ) ≠ 0 := by norm_num
  rw [if_neg h360]
  by_cases h : fmodQ x 360 < 0
  · have hb := fmodQ_abs_lt x
    simp only [h, decide_True, if_true, add_def, add]
    rw [ofRat_eq_fin_of_abs_lt]
    rw [abs_lt]
    constructor <;> linarith
  · simp [h]

theorem Reduce_inf (s : Bool) : Reduce (inf s) = nan := by
  simp [Reduce, lit_360, lit_zero, fmod, lt]

theorem Reduce_nan : Reduce nan = nan := by
  simp [Reduce, lit_360, lit_zero, fmod, lt]

/-- The result of `Reduce` is NaN or a finite value from 0 to 360, both included. -/
theorem Reduce_range (d : Dbl) :
    Reduce d = nan ∨ ∃ q, Reduce d = fin q ∧ 0 ≤ q ∧ q ≤ 360 := by
  cases d with
  | fin x =>
    right
    rw [Reduce_fin]
    have hb := fmodQ_abs_lt x
    by_cases h : fmodQ x 360 < 0
    · rw [if_pos h]
      refine ⟨_, rfl, rnd_nonneg (by linarith), ?_⟩
      have hpos : 0 < fmodQ x 360 + 360 := by linarith
      have hm := rnd_mono_of_pos hpos (show fmodQ x 360 + 360 ≤ 360 by linarith)
      rw [rnd_360] at hm
      exact hm
    · rw [if_neg h]
      exact ⟨_, rfl, not_lt.mp h, hb.2.le⟩
  | inf s => left; exact Reduce_inf s
  | nan => left; exact Reduce_nan

/-- At a value that is not negative the result of `Reduce` is in `[0, 360)`. -/
theorem Reduce_of_nonneg {x : ℚ} (hx : 0 ≤ x) : InHalfOpen360 (Reduce (fin x)) := by
  have hb := fmodQ_nonneg hx
  rw [Reduce_fin, if_neg (not_lt.mpr hb.1)]
  exact ⟨_, rfl, hb.1, hb.2⟩

theorem isDouble_of_rnd_eq {q : ℚ} (h : |q| < 1000000) (hr : rnd q = q) : IsDouble q := by
  unfold IsDouble
  rw [ofRat_eq_fin_of_abs_lt h, hr]

theorem rnd_neg_two_pow_neg_60 : rnd (-(1 / 2 ^ 60)) = -(1 / 2 ^ 60) := by
  rw [rnd_eq (-60) (-2 ^ 52) (by norm_num) (by norm_num [abs_of_pos])
    (by norm_num [abs_of_pos]) (by norm_num [abs_lt])]
  norm_num

theorem rnd_360_sub_tiny : rnd (-(1 / 2 ^ 60) + 360) = 360 := by
  rw [rnd_eq 8 (360 * 2 ^ 44) (by norm_num) (by norm_num [abs_of_pos])
    (by norm_num [abs_of_pos]) (by norm_num [abs_lt])]
  norm_num

theorem Reduce_neg_two_pow_neg_60 : Reduce (fin (-(1 / 2 ^ 60))) = fin 360 := by
  have hf : fmodQ (-(1 / 2 ^ 60)) 360 = -(1 / 2 ^ 60) :=
    fmodQ_of_neg_lt (by norm_num) (by norm_num)
  rw [Reduce_fin, hf, if_pos (by norm_num), rnd_360_sub_tiny]

theorem Reduce_360 : Reduce (fin 360) = fin 0 := by
  have hf : fmodQ 360 360 = 0 := by
    unfold fmodQ truncQ
    norm_num
  rw [Reduce_fin, hf, if_neg (by norm_num)]

/-- C1 (fails on the code): the finite `double` `-2^-60` is taken by `Reduce` to `360`,
which is outside `[0, 360)`: the `fmod` is `-2^-60` itself and adding `360.0` to it
rounds to `360.0`. -/
theorem Reduce_reaches_360 :
    IsDouble (-(1 / 2 ^ 60)) ∧ Reduce (fin (-(1 / 2 ^ 60))) = fin 360 ∧
      ¬ InHalfOpen360 (Reduce (fin (-(1 / 2 ^ 60)))) := by
  refine ⟨isDouble_of_rnd_eq (by norm_num [abs_lt]) rnd_neg_two_pow_neg_60,
    Reduce_neg_two_pow_neg_60, ?_⟩
  rintro ⟨q, hq, -, hlt⟩
  rw [Reduce_neg_two_pow_neg_60] at hq
  injection hq with hq
  rw [← hq] at hlt
  exact lt_irrefl _ hlt

/-! ### The literals of the tests of `Reduce` -/

theorem rnd_eq_self_of_isDouble {q : ℚ} (h : IsDouble q) : rnd q = q := by
  unfold IsDouble ofRat at h
  split_ifs at h
  injection h

/-- On `[0, 360)` the function `Reduce` changes nothing. -/
theorem Reduce_of_mem {x : ℚ} (h0 : 0 ≤ x) (h1 : x < 360) : Reduce (fin x) = fin x := by
  rw [Reduce_fin, fmodQ_of_lt h0 h1, if_neg (not_lt.mpr h0)]

/-- C4 (fails on the code): at the finite `double` `-2^-60`, `Reduce(x) = 360` and
`Reduce(Reduce(x)) = 0`. -/
theorem Reduce_not_idempotent :
    Reduce (fin (-(1 / 2 ^ 60))) = fin 360 ∧ Reduce (Reduce (fin (-(1 / 2 ^ 60)))) = fin 0 ∧
      Reduce (Reduce (fin (-(1 / 2 ^ 60)))) ≠ Reduce (fin (-(1 / 2 ^ 60))) := by
  refine ⟨Reduce_neg_two_pow_neg_60, ?_, ?_⟩
  · rw [Reduce_neg_two_pow_neg_60, Reduce_360]
  · rw [Reduce_neg_two_pow_neg_60, Reduce_360]
    intro h
    injection h with h
    norm_num at h

/-! ### Literals and entries of the coefficient arrays -/

theorem lit_2451545 : (2451545.0 : Dbl) = fin 2451545 := by
  show ofRat (OfScientific.ofScientific 24515450 true 1) = _
  have h : (OfScientific.ofScientific 24515450 true 1 : ℚ) = 2451545 := by norm_num
  rw [h, ofRat_eq_fin (by norm_num [overflowThreshold]) (by norm_num [overflowThreshold]),
    rnd_eq 21 (2451545 * 2 ^ 31) (by norm_num) (by norm_num [abs_of_pos])
      (by norm_num [abs_of_pos]) (by norm_num [abs_lt])]
  norm_num

theorem lit_36525 : (36525.0 : Dbl) = fin 36525 := by
  show ofRat (OfScientific.ofScientific 365250 true 1) = _
  have h : (OfScientific.ofScientific 365250 true 1 : ℚ) = 36525 := by norm_num
  rw [h, ofRat_eq_fin_of_abs_lt (by norm_num [abs_lt]),
    rnd_eq 15 (36525 * 2 ^ 37) (by norm_num) (by norm_num [abs_of_pos])
      (by norm_num [abs_of_pos]) (by norm_num [abs_lt])]
  norm_num

theorem div_fin (a : ℚ) {b : ℚ} (hb : b ≠ 0) : (fin a : Dbl) / fin b = ofRat (a / b) := by
  show (if b = 0 then (if a = 0 then nan else inf (decide (a < 0))) else ofRat (a / b)) = _
  rw [if_neg hb]

theorem lit_two : (2 : Dbl) = fin 2 := by
  show ofRat ((2 : ℕ) : ℚ) = _
  rw [ofRat_eq_fin_of_abs_lt (by norm_num [abs_lt]),
    rnd_eq 1 (2 ^ 52) (by norm_num) (by norm_num [abs_of_pos])
      (by norm_num [abs_of_pos]) (by norm_num [abs_lt])]
  norm_num

theorem lit_three : (3 : Dbl) = fin 3 := by
  show ofRat ((3 : ℕ) : ℚ) = _
  rw [ofRat_eq_fin_of_abs_lt (by norm_num [abs_lt]),
    rnd_eq 1 (3 * 2 ^ 51) (by norm_num) (by norm_num [abs_of_pos])
      (by norm_num [abs_of_pos]) (by norm_num [abs_lt])]
  norm_num

theorem lit_one : (1.0 : Dbl) = fin 1 := by
  show ofRat (OfScientific.ofScientific 10 true 1) = _
  have h : (OfScientific.ofScientific 10 true 1 : ℚ) = 1 := by norm_num
  rw [h, ofRat_eq_fin_of_abs_lt (by norm_num [abs_lt]),
    rnd_eq 0 (2 ^ 52) (by norm_num) (by norm_num [abs_of_pos])
      (by norm_num [abs_of_pos]) (by norm_num [abs_lt])]
  norm_num

theorem vec5_two (a b c d e : Dbl) : (![a, b, c, d, e] : Fin 5 → Dbl) 2 = c := rfl
theorem vec5_three (a b c d e : Dbl) : (![a, b, c, d, e] : Fin 5 → Dbl) 3 = d := rfl
theorem vec2_zero (a b : Dbl) : (![a, b] : Fin 2 → Dbl) 0 = a := rfl
theorem vec2_one (a b : Dbl) : (![a, b] : Fin 2 → Dbl) 1 = b := rfl

theorem meeus_time_coeff_zero : meeusCoeffs.DYNAMIC_TIME_COEFFS 0 = 2451545.0 := by
  rw [meeusCoeffs]
  dsimp only
  exact vec2_zero _ _

theorem meeus_time_coeff_one : meeusCoeffs.DYNAMIC_TIME_COEFFS 1 = 36525.0 := by
  rw [meeusCoeffs]
  dsimp only
  exact vec2_one _ _

/-! ### The geocentric longitude -/

theorem lit_million : (1000000 : Dbl) = fin 1000000 := by
  show ofRat ((1000000 : ℕ) : ℚ) = _
  rw [ofRat_eq_fin (by norm_num [overflowThreshold]) (by norm_num [overflowThreshold]),
    rnd_eq 19 (1000000 * 2 ^ 33) (by norm_num) (by norm_num [abs_of_pos])
      (by norm_num [abs_of_pos]) (by norm_num [abs_lt])]
  norm_num

theorem rnd_five : rnd 5 = 5 := by
  rw [rnd_eq 2 (5 * 2 ^ 50) (by norm_num) (by norm_num) (by norm_num) (by norm_num)]
  norm_num

theorem rnd_364 : rnd 364 = 364 := by
  rw [rnd_eq 8 (364 * 2 ^ 44) (by norm_num) (by norm_num) (by norm_num) (by norm_num)]
  norm_num

theorem assemble_geocentricLongitude (s : MoonPosition) :
    (assemble s).geocentricLongitude = s.moonMeanLongitude + s.longitudeIntegrated / 1000000 :=
  rfl

theorem Integrate_geocentricLongitude (lm : Libm) (cf : Coeffs) (sr : SeriesTables)
    (s : MoonPosition) :
    (Integrate lm cf sr s).geocentricLongitude =
      (additiveCorrections lm sr
        (seriesLoop lm sr (Iterate lm cf ( Reinitialize s)))).moonMeanLongitude +
      (additiveCorrections lm sr
        (seriesLoop lm sr (Iterate lm cf ( Reinitialize s)))).longitudeIntegrated / 1000000 :=
  rfl

/-- C6 (fails on the code): `Integrate` leaves in `geocentricLongitude` the plain sum
`moonMeanLongitude + longitudeIntegrated / 1000000`, with no `Reduce`: a mean longitude
of 359 degrees and a series sum of 5000000 (5 degrees) give 364. -/
theorem geocentricLongitude_not_reduced :
    (∀ (lm : Libm) (cf : Coeffs) (sr : SeriesTables) (s : MoonPosition),
      (Integrate lm cf sr s).geocentricLongitude =
        (additiveCorrections lm sr
          (seriesLoop lm sr (Iterate lm cf ( Reinitialize s)))).moonMeanLongitude +
        (additiveCorrections lm sr
          (seriesLoop lm sr (Iterate lm cf ( Reinitialize s)))).longitudeIntegrated /
            1000000) ∧
      (assemble { new with
        moonMeanLongitude := fin 359
        longitudeIntegrated := fin 5000000 }).geocentricLongitude = fin 364 ∧
      ¬ InHalfOpen360 (fin 364) := by
  refine ⟨Integrate_geocentricLongitude, ?_, ?_⟩
  · rw [assemble_geocentricLongitude]
    show (fin 359 : Dbl) + fin 5000000 / 1000000 = fin 364
    rw [lit_million, div_fin _ (by norm_num)]
    have h5 : (5000000 : ℚ) / 1000000 = 5 := by norm_num
    rw [h5, ofRat_eq_fin_of_abs_lt (by norm_num), rnd_five]
    show ofRat (359 + 5) = fin 364
    have h364 : (359 : ℚ) + 5 = 364 := by norm_num
    rw [h364, ofRat_eq_fin_of_abs_lt (by norm_num), rnd_364]
  · rintro ⟨q, hq, -, hlt⟩
    injection hq with hq
    rw [← hq] at hlt
    norm_num at hlt

/-! ### `Reinitialize`, `Iterate` and `Integrate` on the whole state -/

theorem seriesStep_julianEphemerisDay (lm : Libm) (sr : SeriesTables) (s : MoonPosition)
    (i : Fin 60) : (seriesStep lm sr s i).julianEphemerisDay = s.julianEphemerisDay := rfl

theorem foldl_seriesStep_julianEphemerisDay (lm : Libm) (sr : SeriesTables)
    (l : List (Fin 60)) (s : MoonPosition) :
    (l.foldl (seriesStep lm sr) s).julianEphemerisDay = s.julianEphemerisDay := by
  induction l generalizing s with
  | nil => rfl
  | cons i l ih => rw [List.foldl_cons, ih, seriesStep_julianEphemerisDay]

theorem Iterate_julianEphemerisDay (lm : Libm) (cf : Coeffs) (s : MoonPosition) :
    (Iterate lm cf s).julianEphemerisDay = s.julianEphemerisDay := by
  simp only [Iterate, CalcDynamicTime, CalcMoonMeanLongitude, CalcMoonMeanElongation,
    CalcSunMeanAnomaly, CalcMoonMeanAnomaly, CalcMoonArgumentOfLatitude, CalcActionOfVenus,
    CalcActionOfJupiter, CalcActionOfSomething, CalcEarthEccentricity]

theorem Reinitialize_julianEphemerisDay (s : MoonPosition) :
    ( Reinitialize s).julianEphemerisDay = s.julianEphemerisDay := rfl

theorem Integrate_julianEphemerisDay (lm : Libm) (cf : Coeffs) (sr : SeriesTables)
    (s : MoonPosition) :
    (Integrate lm cf sr s).julianEphemerisDay = s.julianEphemerisDay := by
  simp only [Integrate, toCartesian, assemble, additiveCorrections, seriesLoop]
  rw [foldl_seriesStep_julianEphemerisDay, Iterate_julianEphemerisDay,
    Reinitialize_julianEphemerisDay]

/-- The first two steps of `Integrate` leave a state that is a function of
`julianEphemerisDay` alone. -/
theorem CalcDynamicTime_congr (cf : Coeffs) (s1 s2 : MoonPosition)
    (h : s1.julianEphemerisDay = s2.julianEphemerisDay) :
    CalcDynamicTime cf ( Reinitialize s1) = CalcDynamicTime cf ( Reinitialize s2) := by
  unfold CalcDynamicTime Reinitialize
  rw [h]

theorem Integrate_eq_of_julianEphemerisDay_eq (lm : Libm) (cf : Coeffs) (sr : SeriesTables)
    (s1 s2 : MoonPosition) (h : s1.julianEphemerisDay = s2.julianEphemerisDay) :
    Integrate lm cf sr s1 = Integrate lm cf sr s2 := by
  have key := CalcDynamicTime_congr cf s1 s2 h
  unfold Integrate Iterate
  simp only []
  rw [key]

/-- C7: `Integrate` depends on `julianEphemerisDay` alone: two states that agree on it
are taken to the same state, whatever their other members hold; so `Iterate` followed by
`Integrate`, and `Integrate` twice, give what `Integrate` gives. -/
theorem Integrate_depends_only_on_julianEphemerisDay (lm : Libm) (cf : Coeffs)
    (sr : SeriesTables) (s1 s2 : MoonPosition)
    (h : s1.julianEphemerisDay = s2.julianEphemerisDay) :
    Integrate lm cf sr s1 = Integrate lm cf sr s2 ∧
      Integrate lm cf sr (Iterate lm cf s1) = Integrate lm cf sr s1 ∧
      Integrate lm cf sr (Integrate lm cf sr s1) = Integrate lm cf sr s1 :=
  ⟨Integrate_eq_of_julianEphemerisDay_eq lm cf sr s1 s2 h,
    Integrate_eq_of_julianEphemerisDay_eq lm cf sr _ _ (Iterate_julianEphemerisDay lm cf s1),
    Integrate_eq_of_julianEphemerisDay_eq lm cf sr _ _
      (Integrate_julianEphemerisDay lm cf sr s1)⟩

theorem Integrate_depends_only_on_julianEphemerisDay_witness :
    (new.julianEphemerisDay =
        ({ new with dynamicalTime := fin 5, geocentricLongitude := fin 7 } :
          MoonPosition).julianEphemerisDay) ∧
      (Integrate identityLibm meeusCoeffs zeroSeries new =
          Integrate identityLibm meeusCoeffs zeroSeries
            { new with dynamicalTime := fin 5, geocentricLongitude := fin 7 } ∧
        Integrate identityLibm meeusCoeffs zeroSeries
            (Iterate identityLibm meeusCoeffs new) =
          Integrate identityLibm meeusCoeffs zeroSeries new ∧
        Integrate identityLibm meeusCoeffs zeroSeries
            (Integrate identityLibm meeusCoeffs zeroSeries new) =
          Integrate identityLibm meeusCoeffs zeroSeries new) :=
  ⟨rfl, Integrate_depends_only_on_julianEphemerisDay identityLibm meeusCoeffs zeroSeries
    new { new with dynamicalTime := fin 5, geocentricLongitude := fin 7 } rfl⟩

/-- C8 (fails on the code): `Reinitialize` does not assign `dynamicalTime`: from a state
where it is 1 it is still 1 afterwards, and in general it keeps its value. -/
theorem Reinitialize_keeps_dynamicalTime :
    ( Reinitialize { new with dynamicalTime := fin 1 }).dynamicalTime = fin 1 ∧
      (fin 1 : Dbl) ≠ fin 0 ∧
      ∀ s : MoonPosition, ( Reinitialize s).dynamicalTime = s.dynamicalTime := by
  refine ⟨rfl, ?_, fun s => rfl⟩
  intro h
  injection h with h
  norm_num at h

theorem lit_zero_point_zero : (0.0 : Dbl) = fin 0 := by
  show ofRat (OfScientific.ofScientific 0 true 1) = _
  have h : (OfScientific.ofScientific 0 true 1 : ℚ) = 0 := by norm_num
  rw [h, ofRat_zero]

/-- What `Reinitialize` does set to zero: every member but `dynamicalTime` and
`julianEphemerisDay`. -/
theorem Reinitialize_zeroes (s : MoonPosition) :
    Reinitialize s =
      { new with
        dynamicalTime := s.dynamicalTime
        julianEphemerisDay := s.julianEphemerisDay } := by
  unfold Reinitialize new
  simp only [lit_zero_point_zero, lit_zero]

/-! ### The series loop -/

/-- The loop over any list of rows: each accumulator is its own left-to-right sum, the
terms taken at the state the loop starts from. -/
theorem foldl_seriesStep (lm : Libm) (sr : SeriesTables) (l : List (Fin 60))
    (s : MoonPosition) :
    (l.foldl (seriesStep lm sr) s).longitudeIntegrated =
        l.foldl (fun acc i => acc + sr.LONGITUDE_SINE_COEFF i *
          lm.pow s.earthEccentricity (floor (abs (sr.LONGITUDE_PERIODIC_TERM_MATRIX i 1))) *
          lm.sin (specArgument (sr.LONGITUDE_PERIODIC_TERM_MATRIX i) s))
          s.longitudeIntegrated ∧
      (l.foldl (seriesStep lm sr) s).earthToMoonRadius =
        l.foldl (fun acc i => acc + sr.LONGITUDE_COSINE_COEFF i *
          lm.pow s.earthEccentricity (floor (abs (sr.LONGITUDE_PERIODIC_TERM_MATRIX i 1))) *
          lm.cos (specArgument (sr.LONGITUDE_PERIODIC_TERM_MATRIX i) s))
          s.earthToMoonRadius ∧
      (l.foldl (seriesStep lm sr) s).latitudeIntegrated =
        l.foldl (fun acc i => acc + sr.LATITUDE_SINE_COEFF i *
          lm.pow s.earthEccentricity (floor (abs (sr.LATITUDE_PERIODIC_TERM_MATRIX i 1))) *
          lm.sin (specArgument (sr.LATITUDE_PERIODIC_TERM_MATRIX i) s))
          s.latitudeIntegrated := by
  induction l generalizing s with
  | nil => exact ⟨rfl, rfl, rfl⟩
  | cons i l ih =>
    rw [List.foldl_cons]
    obtain ⟨h1, h2, h3⟩ := ih (seriesStep lm sr s i)
    exact ⟨h1, h2, h3⟩

theorem sums_zero_before_loop (lm : Libm) (cf : Coeffs) (s : MoonPosition) :
    (Iterate lm cf ( Reinitialize s)).longitudeIntegrated = 0 ∧
      (Iterate lm cf ( Reinitialize s)).earthToMoonRadius = 0 ∧
      (Iterate lm cf ( Reinitialize s)).latitudeIntegrated = 0 := by
  simp only [Iterate, CalcDynamicTime, CalcMoonMeanLongitude, CalcMoonMeanElongation,
    CalcSunMeanAnomaly, CalcMoonMeanAnomaly, CalcMoonArgumentOfLatitude, CalcActionOfVenus,
    CalcActionOfJupiter, CalcActionOfSomething, CalcEarthEccentricity, Reinitialize,
    lit_zero_point_zero, lit_zero, and_self]

/-- C9: in `Integrate`, after the loop and before the additive corrections, the three
accumulators are the left-to-right sums over the rows 0..59, from 0, of
`LONGITUDE_SINE_COEFF[i] * E^floor(|M_i|) * sin(arg_i)`,
`LONGITUDE_COSINE_COEFF[i] * E^floor(|M_i|) * cos(arg_i)` (both on the rows of the
longitude table) and `LATITUDE_SINE_COEFF[i] * E^floor(|M_i|) * sin(arg_i)` (on the rows
of the latitude table), the angles and `E` being those `Iterate` has left. -/
theorem seriesLoop_eq_row_sums (lm : Libm) (cf : Coeffs) (sr : SeriesTables)
    (s : MoonPosition) :
    (seriesLoop lm sr (Iterate lm cf ( Reinitialize s))).longitudeIntegrated =
        specLongitudeSum lm sr (Iterate lm cf ( Reinitialize s)) ∧
      (seriesLoop lm sr (Iterate lm cf ( Reinitialize s))).earthToMoonRadius =
        specDistanceSum lm sr (Iterate lm cf ( Reinitialize s)) ∧
      (seriesLoop lm sr (Iterate lm cf ( Reinitialize s))).latitudeIntegrated =
        specLatitudeSum lm sr (Iterate lm cf ( Reinitialize s)) ∧
      Integrate lm cf sr s =
        toCartesian lm (assemble (additiveCorrections lm sr
          (seriesLoop lm sr (Iterate lm cf ( Reinitialize s))))) := by
  obtain ⟨h1, h2, h3⟩ := foldl_seriesStep lm sr (List.finRange 60)
    (Iterate lm cf ( Reinitialize s))
  obtain ⟨z1, z2, z3⟩ := sums_zero_before_loop lm cf s
  rw [z1] at h1
  rw [z2] at h2
  rw [z3] at h3
  exact ⟨h1, h2, h3, rfl⟩

theorem eccentricityFactor_intCast (lm : Libm) (E : Dbl) (m : ℤ) :
    eccentricityFactor lm E (fin m) = lm.pow E (fin ((|m| : ℤ) : ℚ)) := by
  unfold eccentricityFactor
  show lm.pow E (fin ((⌊|(m : ℚ)|⌋ : ℤ) : ℚ)) = _
  have : ⌊|(m : ℚ)|⌋ = |m| := by
    rw [← Int.cast_abs, Int.floor_intCast]
  rw [this]

end MoonPosition

/-! ## Multiplication of `double`s commutes -/

namespace Dbl

theorem mul_commutes (x y : Dbl) : x * y = y * x := by
  cases x with
  | fin a =>
    cases y with
    | fin b =>
      show ofRat (a * b) = ofRat (b * a)
      rw [mul_comm]
    | inf s =>
      show (if a = 0 then nan else inf (xor (decide (a < 0)) s)) =
        (if a = 0 then nan else inf (xor s (decide (a < 0))))
      rw [Bool.xor_comm]
    | nan => rfl
  | inf s =>
    cases y with
    | fin b =>
      show (if b = 0 then nan else inf (xor s (decide (b < 0)))) =
        (if b = 0 then nan else inf (xor (decide (b < 0)) s))
      rw [Bool.xor_comm]
    | inf t =>
      show inf (xor s t) = inf (xor t s)
      rw [Bool.xor_comm]
    | nan => rfl
  | nan => cases y <;> rfl

end Dbl

namespace MoonPosition

/-! ### The assembly of the result -/

theorem seriesStep_moonMeanLongitude (lm : Libm) (sr : SeriesTables) (s : MoonPosition)
    (i : Fin 60) : (seriesStep lm sr s i).moonMeanLongitude = s.moonMeanLongitude := rfl

theorem foldl_seriesStep_moonMeanLongitude (lm : Libm) (sr : SeriesTables)
    (l : List (Fin 60)) (s : MoonPosition) :
    (l.foldl (seriesStep lm sr) s).moonMeanLongitude = s.moonMeanLongitude := by
  induction l generalizing s with
  | nil => rfl
  | cons i l ih => rw [List.foldl_cons, ih, seriesStep_moonMeanLongitude]

theorem additiveCorrections_frame (lm : Libm) (sr : SeriesTables) (t : MoonPosition) :
    (additiveCorrections lm sr t).moonMeanLongitude = t.moonMeanLongitude := rfl

/-- The mean longitude that the assembly reads is the one `Iterate` has computed. -/
theorem additiveCorrections_moonMeanLongitude (lm : Libm) (cf : Coeffs) (sr : SeriesTables)
    (s : MoonPosition) :
    (additiveCorrections lm sr (seriesLoop lm sr (Iterate lm cf ( Reinitialize s)))).moonMeanLongitude =
      (Iterate lm cf ( Reinitialize s)).moonMeanLongitude := by
  rw [additiveCorrections_frame]
  unfold seriesLoop
  rw [foldl_seriesStep_moonMeanLongitude]

/-- The assembly and the conversion on any state: what they compute and what they keep. -/
theorem toCartesian_assemble (lm : Libm) (t : MoonPosition) :
    (toCartesian lm (assemble t)).geocentricLongitude =
        t.moonMeanLongitude + t.longitudeIntegrated / 1000000 ∧
      (toCartesian lm (assemble t)).geocentricLatitude = t.latitudeIntegrated / 1000000 ∧
      (toCartesian lm (assemble t)).earthToMoonDistance =
        385000.56 + t.earthToMoonRadius / 1000 ∧
      (toCartesian lm (assemble t)).longitudeIntegrated = t.longitudeIntegrated ∧
      (toCartesian lm (assemble t)).latitudeIntegrated = t.latitudeIntegrated ∧
      (toCartesian lm (assemble t)).earthToMoonRadius = t.earthToMoonRadius ∧
      (toCartesian lm (assemble t)).moonMeanLongitude = t.moonMeanLongitude ∧
      toCartesian lm (assemble t) =
        { t with
          geocentricLongitude := (toCartesian lm (assemble t)).geocentricLongitude
          geocentricLatitude := (toCartesian lm (assemble t)).geocentricLatitude
          earthToMoonDistance := (toCartesian lm (assemble t)).earthToMoonDistance
          cartesianCoordinates := (toCartesian lm (assemble t)).cartesianCoordinates } :=
  ⟨rfl, rfl, rfl, rfl, rfl, rfl, rfl, rfl⟩

theorem Integrate_eq_toCartesian (lm : Libm) (cf : Coeffs) (sr : SeriesTables)
    (s : MoonPosition) :
    Integrate lm cf sr s =
      toCartesian lm (assemble (additiveCorrections lm sr
        (seriesLoop lm sr (Iterate lm cf ( Reinitialize s))))) := rfl

/-- C11: `Integrate` assembles the spherical result from the sums and the mean longitude
that the earlier steps have left (the state after the additive corrections):
`geocentricLongitude = moonMeanLongitude + longitudeIntegrated / 1000000`,
`geocentricLatitude = latitudeIntegrated / 1000000` and
`earthToMoonDistance = 385000.56 + earthToMoonRadius / 1000`.  Those sums and that mean
longitude (the one `Iterate` computed) are the ones `Integrate` ends with, and the
assembly and what follows it change no member but the three results and the Cartesian
triple. -/
theorem Integrate_spherical_result (lm : Libm) (cf : Coeffs) (sr : SeriesTables)
    (s : MoonPosition) :
    (Integrate lm cf sr s).geocentricLongitude =
        (additiveCorrections lm sr (seriesLoop lm sr (Iterate lm cf ( Reinitialize s)))).moonMeanLongitude +
          (additiveCorrections lm sr (seriesLoop lm sr (Iterate lm cf ( Reinitialize s)))).longitudeIntegrated / 1000000 ∧
      (Integrate lm cf sr s).geocentricLatitude =
        (additiveCorrections lm sr (seriesLoop lm sr (Iterate lm cf ( Reinitialize s)))).latitudeIntegrated / 1000000 ∧
      (Integrate lm cf sr s).earthToMoonDistance =
        385000.56 +
          (additiveCorrections lm sr (seriesLoop lm sr (Iterate lm cf ( Reinitialize s)))).earthToMoonRadius / 1000 ∧
      (Integrate lm cf sr s).longitudeIntegrated =
        (additiveCorrections lm sr (seriesLoop lm sr (Iterate lm cf ( Reinitialize s)))).longitudeIntegrated ∧
      (Integrate lm cf sr s).latitudeIntegrated =
        (additiveCorrections lm sr (seriesLoop lm sr (Iterate lm cf ( Reinitialize s)))).latitudeIntegrated ∧
      (Integrate lm cf sr s).earthToMoonRadius =
        (additiveCorrections lm sr (seriesLoop lm sr (Iterate lm cf ( Reinitialize s)))).earthToMoonRadius ∧
      (Integrate lm cf sr s).moonMeanLongitude =
        (Iterate lm cf ( Reinitialize s)).moonMeanLongitude ∧
      Integrate lm cf sr s =
        { (additiveCorrections lm sr (seriesLoop lm sr (Iterate lm cf ( Reinitialize s)))) with
          geocentricLongitude := (Integrate lm cf sr s).geocentricLongitude
          geocentricLatitude := (Integrate lm cf sr s).geocentricLatitude
          earthToMoonDistance := (Integrate lm cf sr s).earthToMoonDistance
          cartesianCoordinates := (Integrate lm cf sr s).cartesianCoordinates } := by
  rw [Integrate_eq_toCartesian]
  obtain ⟨h1, h2, h3, h4, h5, h6, h7, h8⟩ := toCartesian_assemble lm
    (additiveCorrections lm sr (seriesLoop lm sr (Iterate lm cf ( Reinitialize s))))
  exact ⟨h1, h2, h3, h4, h5, h6,
    h7.trans (additiveCorrections_moonMeanLongitude lm cf sr s), h8⟩

/-- The conversion on any state: the triple it computes and what it keeps. -/
theorem toCartesian_result (lm : Libm) (u : MoonPosition) :
    (toCartesian lm u).cartesianCoordinates 0 =
        u.earthToMoonDistance * lm.cos ((M_PI / 180) * u.geocentricLatitude) *
          lm.cos ((M_PI / 180) * u.geocentricLongitude) ∧
      (toCartesian lm u).cartesianCoordinates 1 =
        u.earthToMoonDistance * lm.cos ((M_PI / 180) * u.geocentricLatitude) *
          lm.sin ((M_PI / 180) * u.geocentricLongitude) ∧
      (toCartesian lm u).cartesianCoordinates 2 =
        u.earthToMoonDistance * lm.sin ((M_PI / 180) * u.geocentricLatitude) ∧
      (toCartesian lm u).earthToMoonDistance = u.earthToMoonDistance ∧
      (toCartesian lm u).geocentricLatitude = u.geocentricLatitude ∧
      (toCartesian lm u).geocentricLongitude = u.geocentricLongitude ∧
      toCartesian lm u =
        { u with cartesianCoordinates := (toCartesian lm u).cartesianCoordinates } := by
  refine ⟨?_, ?_, ?_, rfl, rfl, rfl, rfl⟩
  · simp only [toCartesian]
    rw [Function.update_noteq (by decide), Function.update_noteq (by decide),
      Function.update_same]
  · simp only [toCartesian]
    rw [Function.update_noteq (by decide), Function.update_same]
  · simp only [toCartesian]
    rw [Function.update_same]

/-- C12: `Integrate` computes the Cartesian triple from the spherical coordinates that
the assembly has left (the state before the conversion): `x = d * cos(lat) * cos(lon)`,
`y = d * cos(lat) * sin(lon)`, `z = d * sin(lat)`, with `d = earthToMoonDistance` and the
angles in radians, `lat = geocentricLatitude * (M_PI / 180)`,
`lon = geocentricLongitude * (M_PI / 180)` (the source writes the product as
`(M_PI / 180) * angle`, the same `double`).  Those spherical coordinates are the ones
`Integrate` ends with, and the conversion changes no member but the triple. -/
theorem Integrate_cartesian_result (lm : Libm) (cf : Coeffs) (sr : SeriesTables)
    (s : MoonPosition) :
    (Integrate lm cf sr s).cartesianCoordinates 0 =
        (assemble (additiveCorrections lm sr
          (seriesLoop lm sr (Iterate lm cf ( Reinitialize s))))).earthToMoonDistance *
          lm.cos ((assemble (additiveCorrections lm sr
          (seriesLoop lm sr (Iterate lm cf ( Reinitialize s))))).geocentricLatitude * (M_PI / 180)) *
          lm.cos ((assemble (additiveCorrections lm sr
          (seriesLoop lm sr (Iterate lm cf ( Reinitialize s))))).geocentricLongitude * (M_PI / 180)) ∧
      (Integrate lm cf sr s).cartesianCoordinates 1 =
        (assemble (additiveCorrections lm sr
          (seriesLoop lm sr (Iterate lm cf ( Reinitialize s))))).earthToMoonDistance *
          lm.cos ((assemble (additiveCorrections lm sr
          (seriesLoop lm sr (Iterate lm cf ( Reinitialize s))))).geocentricLatitude * (M_PI / 180)) *
          lm.sin ((assemble (additiveCorrections lm sr
          (seriesLoop lm sr (Iterate lm cf ( Reinitialize s))))).geocentricLongitude * (M_PI / 180)) ∧
      (Integrate lm cf sr s).cartesianCoordinates 2 =
        (assemble (additiveCorrections lm sr
          (seriesLoop lm sr (Iterate lm cf ( Reinitialize s))))).earthToMoonDistance *
          lm.sin ((assemble (additiveCorrections lm sr
          (seriesLoop lm sr (Iterate lm cf ( Reinitialize s))))).geocentricLatitude * (M_PI / 180)) ∧
      (Integrate lm cf sr s).earthToMoonDistance =
        (assemble (additiveCorrections lm sr
          (seriesLoop lm sr (Iterate lm cf ( Reinitialize s))))).earthToMoonDistance ∧
      (Integrate lm cf sr s).geocentricLatitude =
        (assemble (additiveCorrections lm sr
          (seriesLoop lm sr (Iterate lm cf ( Reinitialize s))))).geocentricLatitude ∧
      (Integrate lm cf sr s).geocentricLongitude =
        (assemble (additiveCorrections lm sr
          (seriesLoop lm sr (Iterate lm cf ( Reinitialize s))))).geocentricLongitude ∧
      Integrate lm cf sr s =
        { (assemble (additiveCorrections lm sr
          (seriesLoop lm sr (Iterate lm cf ( Reinitialize s))))) with
          cartesianCoordinates := (Integrate lm cf sr s).cartesianCoordinates } := by
  rw [Integrate_eq_toCartesian]
  obtain ⟨h0, h1, h2, h3, h4, h5, h6⟩ := toCartesian_result lm
    (assemble (additiveCorrections lm sr (seriesLoop lm sr (Iterate lm cf ( Reinitialize s)))))
  rw [mul_commutes (M_PI / 180), mul_commutes (M_PI / 180)] at h0 h1
  rw [mul_commutes (M_PI / 180)] at h2
  exact ⟨h0, h1, h2, h3, h4, h5, h6⟩

end MoonPosition

namespace MoonPosition

/-! ### The additive corrections -/

end MoonPosition

namespace MoonPosition

/-! ### What `Reinitialize` and `Iterate` leave alone -/

/-- C18: `Reinitialize` and `Iterate` keep `julianEphemerisDay`; `Iterate` also keeps the
three sums, the spherical result and `cartesianCoordinates`: the state it returns is the
one it was given with new values in `dynamicalTime`, the eight angles and
`earthEccentricity` only. -/
theorem Reinitialize_Iterate_frame (lm : Libm) (cf : Coeffs) (s : MoonPosition) :
    ( Reinitialize s).julianEphemerisDay = s.julianEphemerisDay ∧
      (Iterate lm cf s).julianEphemerisDay = s.julianEphemerisDay ∧
      (Iterate lm cf s).longitudeIntegrated = s.longitudeIntegrated ∧
      (Iterate lm cf s).latitudeIntegrated = s.latitudeIntegrated ∧
      (Iterate lm cf s).earthToMoonRadius = s.earthToMoonRadius ∧
      (Iterate lm cf s).geocentricLongitude = s.geocentricLongitude ∧
      (Iterate lm cf s).geocentricLatitude = s.geocentricLatitude ∧
      (Iterate lm cf s).earthToMoonDistance = s.earthToMoonDistance ∧
      (Iterate lm cf s).cartesianCoordinates = s.cartesianCoordinates ∧
      Iterate lm cf s =
        { s with
          dynamicalTime := (Iterate lm cf s).dynamicalTime
          earthEccentricity := (Iterate lm cf s).earthEccentricity
          actionOfVenus := (Iterate lm cf s).actionOfVenus
          actionOfJupiter := (Iterate lm cf s).actionOfJupiter
          actionOfSomething := (Iterate lm cf s).actionOfSomething
          moonMeanElongation := (Iterate lm cf s).moonMeanElongation
          moonMeanLongitude := (Iterate lm cf s).moonMeanLongitude
          moonArgumentOfLatitude := (Iterate lm cf s).moonArgumentOfLatitude
          moonMeanAnomaly := (Iterate lm cf s).moonMeanAnomaly
          sunMeanAnomaly := (Iterate lm cf s).sunMeanAnomaly } := by
  simp only [Iterate, Reinitialize, CalcDynamicTime, CalcMoonMeanLongitude,
    CalcMoonMeanElongation, CalcSunMeanAnomaly, CalcMoonMeanAnomaly,
    CalcMoonArgumentOfLatitude, CalcActionOfVenus, CalcActionOfJupiter,
    CalcActionOfSomething, CalcEarthEccentricity, and_self]

end MoonPosition

/-! ## Evaluating the rounding at a given rational -/

theorem rnd_eval_pos {q : ℚ} (v : ℚ) (e z : ℤ) (hq : 0 < q) (he : -1022 ≤ e)
    (h1 : (2 : ℚ) ^ e ≤ q) (h2 : q < 2 ^ (e + 1)) (hz1 : (z : ℚ) - 1 / 2 < q / 2 ^ (e - 52))
    (hz2 : q / 2 ^ (e - 52) < z + 1 / 2) (hv : (z : ℚ) * 2 ^ (e - 52) = v) : rnd q = v := by
  rw [rnd_eq e z he (by rwa [abs_of_pos hq]) (by rwa [abs_of_pos hq])
    (by rw [abs_lt]; constructor <;> linarith), hv]

theorem rnd_eval_neg {q : ℚ} (v : ℚ) (e z : ℤ) (hq : q < 0) (he : -1022 ≤ e)
    (h1 : (2 : ℚ) ^ e ≤ -q) (h2 : -q < 2 ^ (e + 1)) (hz1 : (z : ℚ) - 1 / 2 < q / 2 ^ (e - 52))
    (hz2 : q / 2 ^ (e - 52) < z + 1 / 2) (hv : (z : ℚ) * 2 ^ (e - 52) = v) : rnd q = v := by
  rw [rnd_eq e z he (by rwa [abs_of_neg hq]) (by rwa [abs_of_neg hq])
    (by rw [abs_lt]; constructor <;> linarith), hv]

namespace Dbl

theorem two_zpow_lt_overflowThreshold {e : ℤ} (he : e ≤ 1022) :
    (2 : ℚ) ^ (e + 1) < overflowThreshold := by
  have h1 : (2 : ℚ) ^ (e + 1) ≤ 2 ^ (1023 : ℤ) := zpow_le_zpow_right₀ (by norm_num) (by omega)
  have h2 : (2 : ℚ) ^ (1023 : ℤ) < overflowThreshold := by
    unfold overflowThreshold
    norm_num
  exact lt_of_le_of_lt h1 h2

theorem ofRat_eval_pos {q : ℚ} (v : ℚ) (e z : ℤ) (hq : 0 < q) (hb : e ≤ 1022)
    (he : -1022 ≤ e) (h1 : (2 : ℚ) ^ e ≤ q) (h2 : q < 2 ^ (e + 1))
    (hz1 : (z : ℚ) - 1 / 2 < q / 2 ^ (e - 52)) (hz2 : q / 2 ^ (e - 52) < z + 1 / 2)
    (hv : (z : ℚ) * 2 ^ (e - 52) = v) : ofRat q = fin v := by
  have ht := two_zpow_lt_overflowThreshold hb
  rw [ofRat_eq_fin (by linarith) (by linarith),
    rnd_eval_pos v e z hq he h1 h2 hz1 hz2 hv]

theorem ofRat_eval_neg {q : ℚ} (v : ℚ) (e z : ℤ) (hq : q < 0) (hb : e ≤ 1022)
    (he : -1022 ≤ e) (h1 : (2 : ℚ) ^ e ≤ -q) (h2 : -q < 2 ^ (e + 1))
    (hz1 : (z : ℚ) - 1 / 2 < q / 2 ^ (e - 52)) (hz2 : q / 2 ^ (e - 52) < z + 1 / 2)
    (hv : (z : ℚ) * 2 ^ (e - 52) = v) : ofRat q = fin v := by
  have ht := two_zpow_lt_overflowThreshold hb
  rw [ofRat_eq_fin (by linarith) (by linarith),
    rnd_eval_neg v e z hq he h1 h2 hz1 hz2 hv]

theorem add_fin (a b : ℚ) : (fin a : Dbl) + fin b = ofRat (a + b) := rfl

theorem sub_fin (a b : ℚ) : (fin a : Dbl) - fin b = ofRat (a - b) := by
  show ofRat (a + -b) = ofRat (a - b)
  rw [sub_eq_add_neg]

theorem mul_fin (a b : ℚ) : (fin a : Dbl) * fin b = ofRat (a * b) := rfl

end Dbl

namespace MoonPosition

theorem lit_four : (4 : Dbl) = fin 4 := by
  show ofRat ((4 : ℕ) : ℚ) = _
  rw [ofRat_eq_fin_of_abs_lt (by norm_num [abs_lt]),
    rnd_eq 2 (2 ^ 52) (by norm_num) (by norm_num [abs_of_pos])
      (by norm_num [abs_of_pos]) (by norm_num [abs_lt])]
  norm_num

theorem Reduce_fin_of_neg_rem {x r v : ℚ} (hf : fmodQ x 360 = r) (hr : r < 0)
    (hv : rnd (r + 360) = v) : Reduce (fin x) = fin v := by
  rw [Reduce_fin, hf, if_pos hr, hv]

/-- The truncated remainder of a negative value, from the quotient. -/
theorem fmodQ_eval_neg {x r : ℚ} (t : ℤ) (hx : x < 0) (h1 : ((t : ℚ) - 1) * 360 < x)
    (h2 : x ≤ t * 360) (hr : x - 360 * t = r) : fmodQ x 360 = r := by
  unfold fmodQ truncQ
  have hn : ¬ (0 : ℚ) ≤ x / 360 := by
    rw [not_le]
    exact div_neg_of_neg_of_pos hx (by norm_num)
  have hc : ⌈x / 360⌉ = t := by
    rw [Int.ceil_eq_iff]
    constructor
    · rw [lt_div_iff₀ (by norm_num)]
      exact h1
    · rw [div_le_iff₀ (by norm_num)]
      exact h2
  rw [if_neg hn, hc, hr]

end MoonPosition

/-! ## Evaluating the rounding at a tie -/

/-- A value half-way between two integers goes to the even one. -/
theorem roundHalfEven_tie (m : ℤ) : roundHalfEven ((m : ℚ) + 1 / 2) = m + m % 2 := by
  have hfl : ⌊(m : ℚ) + 1 / 2⌋ = m := by
    rw [Int.floor_eq_iff]
    constructor <;> norm_num
  have hfr : Int.fract ((m : ℚ) + 1 / 2) = 1 / 2 := by
    rw [Int.fract, hfl]
    ring
  unfold roundHalfEven
  rw [hfr, hfl, if_neg (lt_irrefl _), if_neg (lt_irrefl _)]
  rcases Int.emod_two_eq_zero_or_one m with h | h <;> simp [h]

theorem rnd_tie_pos {q : ℚ} (v : ℚ) (e m z : ℤ) (hq : 0 < q) (he : -1022 ≤ e)
    (h1 : (2 : ℚ) ^ e ≤ q) (h2 : q < 2 ^ (e + 1)) (ht : q / 2 ^ (e - 52) = m + 1 / 2)
    (hz : m + m % 2 = z) (hv : (z : ℚ) * 2 ^ (e - 52) = v) : rnd q = v := by
  unfold rnd
  rw [ulpExp_eq he (by rwa [abs_of_pos hq]) (by rwa [abs_of_pos hq]), ht, roundHalfEven_tie,
    hz, hv]

theorem rnd_tie_neg {q : ℚ} (v : ℚ) (e m z : ℤ) (hq : q < 0) (he : -1022 ≤ e)
    (h1 : (2 : ℚ) ^ e ≤ -q) (h2 : -q < 2 ^ (e + 1)) (ht : q / 2 ^ (e - 52) = m + 1 / 2)
    (hz : m + m % 2 = z) (hv : (z : ℚ) * 2 ^ (e - 52) = v) : rnd q = v := by
  unfold rnd
  rw [ulpExp_eq he (by rwa [abs_of_neg hq]) (by rwa [abs_of_neg hq]), ht, roundHalfEven_tie,
    hz, hv]

namespace Dbl

theorem ofRat_tie_pos {q : ℚ} (v : ℚ) (e m z : ℤ) (hq : 0 < q) (hb : e ≤ 1022)
    (he : -1022 ≤ e) (h1 : (2 : ℚ) ^ e ≤ q) (h2 : q < 2 ^ (e + 1))
    (ht : q / 2 ^ (e - 52) = m + 1 / 2) (hz : m + m % 2 = z)
    (hv : (z : ℚ) * 2 ^ (e - 52) = v) : ofRat q = fin v := by
  have ht2 := two_zpow_lt_overflowThreshold hb
  rw [ofRat_eq_fin (by linarith) (by linarith),
    rnd_tie_pos v e m z hq he h1 h2 ht hz hv]

theorem ofRat_tie_neg {q : ℚ} (v : ℚ) (e m z : ℤ) (hq : q < 0) (hb : e ≤ 1022)
    (he : -1022 ≤ e) (h1 : (2 : ℚ) ^ e ≤ -q) (h2 : -q < 2 ^ (e + 1))
    (ht : q / 2 ^ (e - 52) = m + 1 / 2) (hz : m + m % 2 = z)
    (hv : (z : ℚ) * 2 ^ (e - 52) = v) : ofRat q = fin v := by
  have ht2 := two_zpow_lt_overflowThreshold hb
  rw [ofRat_eq_fin (by linarith) (by linarith),
    rnd_tie_neg v e m z hq he h1 h2 ht hz hv]

end Dbl


/-! ## The two `double`s next to a value -/

/-- A finite `double` at most one unit in the last place away from a value strictly
inside a binade and off the grid is one of the two grid points that enclose the value. -/
theorem isDouble_near_cases {p x : ℚ} (lo hi : ℚ) (e m : ℤ) (hp : IsDouble p)
    (he : -1022 ≤ e) (h1 : (2 : ℚ) ^ e + 2 ^ (e - 52) ≤ |x|)
    (h2 : |x| + 2 ^ (e - 52) < 2 ^ (e + 1)) (hm1 : (m : ℚ) < x / 2 ^ (e - 52))
    (hm2 : x / 2 ^ (e - 52) < m + 1) (hlo : (m : ℚ) * 2 ^ (e - 52) = lo)
    (hhi : ((m : ℚ) + 1) * 2 ^ (e - 52) = hi) (hd : |p - x| ≤ 2 ^ ulpExp x) :
    p = lo ∨ p = hi := by
  have hu := two_zpow_pos (e - 52)
  have hux : ulpExp x = e - 52 := ulpExp_eq he (by linarith) (by linarith)
  rw [hux] at hd
  have hpx : |x| - |p| ≤ |p - x| := by
    rw [abs_sub_comm p x]
    exact abs_sub_abs_le_abs_sub x p
  have hpx2 : |p| - |x| ≤ |p - x| := abs_sub_abs_le_abs_sub p x
  have hup : ulpExp p = e - 52 := ulpExp_eq he (by linarith) (by linarith)
  have hr := MoonPosition.rnd_eq_self_of_isDouble hp
  unfold rnd at hr
  rw [hup] at hr
  have hz : (roundHalfEven (p / 2 ^ (e - 52)) : ℚ) = p / 2 ^ (e - 52) := by
    rw [eq_div_iff hu.ne']
    exact hr
  rw [abs_le] at hd
  rw [lt_div_iff₀ hu] at hm1
  rw [div_lt_iff₀ hu] at hm2
  have hlow : ((m - 1 : ℤ) : ℚ) < roundHalfEven (p / 2 ^ (e - 52)) := by
    rw [hz, lt_div_iff₀ hu]
    push_cast
    linarith
  have hupp : (roundHalfEven (p / 2 ^ (e - 52)) : ℚ) < ((m + 2 : ℤ) : ℚ) := by
    rw [hz, div_lt_iff₀ hu]
    push_cast
    linarith
  have hlow2 : m - 1 < roundHalfEven (p / 2 ^ (e - 52)) := by exact_mod_cast hlow
  have hupp2 : roundHalfEven (p / 2 ^ (e - 52)) < m + 2 := by exact_mod_cast hupp
  have hcases : roundHalfEven (p / 2 ^ (e - 52)) = m ∨
      roundHalfEven (p / 2 ^ (e - 52)) = m + 1 := by omega
  rcases hcases with hc | hc
  · left
    rw [← hr, hc, hlo]
  · right
    rw [← hr, hc, ← hhi]
    push_cast
    ring

/-- The two values a `pow` within one unit in the last place can return, when the exact
power is positive. -/
theorem Libm.pow_candidates_pos (lm : Libm) (h : lm.PowWithinOneUlp) {a : ℚ} (n : ℕ)
    (hn : 2 ≤ n) (x lo hi : ℚ) (e m : ℤ) (hx : a ^ n = x) (hpos : 0 < x) (hb : e ≤ 1021)
    (he : -1022 ≤ e) (h1 : (2 : ℚ) ^ e + 2 ^ (e - 52) ≤ x)
    (h2 : x + 2 ^ (e - 52) < 2 ^ (e + 1)) (hm1 : (m : ℚ) < x / 2 ^ (e - 52))
    (hm2 : x / 2 ^ (e - 52) < m + 1) (hlo : (m : ℚ) * 2 ^ (e - 52) = lo)
    (hhi : ((m : ℚ) + 1) * 2 ^ (e - 52) = hi) :
    lm.pow (fin a) (fin n) = fin lo ∨ lm.pow (fin a) (fin n) = fin hi := by
  have hu := two_zpow_pos (e - 52)
  have hbig : |a ^ n| < 2 ^ 1023 := by
    rw [hx, abs_of_pos hpos]
    have h3 : (2 : ℚ) ^ (e + 1) ≤ 2 ^ (1022 : ℤ) := zpow_le_zpow_right₀ (by norm_num) (by omega)
    have h4 : (2 : ℚ) ^ (1022 : ℤ) < 2 ^ 1023 := by norm_num
    linarith
  obtain ⟨p, hp, hd, hn2⟩ := h a n hn hbig
  rw [hx] at hn2
  rw [hp]
  rcases isDouble_near_cases lo hi e m hd he (by rwa [abs_of_pos hpos])
    (by rwa [abs_of_pos hpos]) hm1 hm2 hlo hhi hn2 with hc | hc
  · left
    rw [hc]
  · right
    rw [hc]

/-- The two values a `pow` within one unit in the last place can return, when the exact
power is negative. -/
theorem Libm.pow_candidates_neg (lm : Libm) (h : lm.PowWithinOneUlp) {a : ℚ} (n : ℕ)
    (hn : 2 ≤ n) (x lo hi : ℚ) (e m : ℤ) (hx : a ^ n = x) (hneg : x < 0) (hb : e ≤ 1021)
    (he : -1022 ≤ e) (h1 : (2 : ℚ) ^ e + 2 ^ (e - 52) ≤ -x)
    (h2 : -x + 2 ^ (e - 52) < 2 ^ (e + 1)) (hm1 : (m : ℚ) < x / 2 ^ (e - 52))
    (hm2 : x / 2 ^ (e - 52) < m + 1) (hlo : (m : ℚ) * 2 ^ (e - 52) = lo)
    (hhi : ((m : ℚ) + 1) * 2 ^ (e - 52) = hi) :
    lm.pow (fin a) (fin n) = fin lo ∨ lm.pow (fin a) (fin n) = fin hi := by
  have hu := two_zpow_pos (e - 52)
  have hbig : |a ^ n| < 2 ^ 1023 := by
    rw [hx, abs_of_neg hneg]
    have h3 : (2 : ℚ) ^ (e + 1) ≤ 2 ^ (1022 : ℤ) := zpow_le_zpow_right₀ (by norm_num) (by omega)
    have h4 : (2 : ℚ) ^ (1022 : ℤ) < 2 ^ 1023 := by norm_num
    linarith
  obtain ⟨p, hp, hd, hn2⟩ := h a n hn hbig
  rw [hx] at hn2
  rw [hp]
  rcases isDouble_near_cases lo hi e m hd he (by rwa [abs_of_neg hneg])
    (by rwa [abs_of_neg hneg]) hm1 hm2 hlo hhi hn2 with hc | hc
  · left
    rw [hc]
  · right
    rw [hc]

namespace MoonPosition

/-! ### Bounds on finite `double`s -/

end MoonPosition

namespace MoonPosition

/-! ### Entries of the coefficient arrays and what each function assigns -/

theorem vec5_zero (a b c d e : Dbl) : (![a, b, c, d, e] : Fin 5 → Dbl) 0 = a := rfl
theorem vec5_one (a b c d e : Dbl) : (![a, b, c, d, e] : Fin 5 → Dbl) 1 = b := rfl
theorem vec5_four (a b c d e : Dbl) : (![a, b, c, d, e] : Fin 5 → Dbl) 4 = e := rfl
theorem vec4_zero (a b c d : Dbl) : (![a, b, c, d] : Fin 4 → Dbl) 0 = a := rfl
theorem vec4_one (a b c d : Dbl) : (![a, b, c, d] : Fin 4 → Dbl) 1 = b := rfl
theorem vec4_two (a b c d : Dbl) : (![a, b, c, d] : Fin 4 → Dbl) 2 = c := rfl
theorem vec4_three (a b c d : Dbl) : (![a, b, c, d] : Fin 4 → Dbl) 3 = d := rfl
theorem vec3_zero (a b c : Dbl) : (![a, b, c] : Fin 3 → Dbl) 0 = a := rfl
theorem vec3_one (a b c : Dbl) : (![a, b, c] : Fin 3 → Dbl) 1 = b := rfl
theorem vec3_two (a b c : Dbl) : (![a, b, c] : Fin 3 → Dbl) 2 = c := rfl

theorem CalcDynamicTime_dynamicalTime (cf : Coeffs) (s : MoonPosition) :
    (CalcDynamicTime cf s).dynamicalTime =
      (s.julianEphemerisDay - cf.DYNAMIC_TIME_COEFFS 0) / cf.DYNAMIC_TIME_COEFFS 1 := rfl

theorem Iterate_dynamicalTime (lm : Libm) (cf : Coeffs) (s : MoonPosition) :
    (Iterate lm cf s).dynamicalTime =
      (s.julianEphemerisDay - cf.DYNAMIC_TIME_COEFFS 0) / cf.DYNAMIC_TIME_COEFFS 1 := rfl

theorem CalcMoonMeanLongitude_moonMeanLongitude (lm : Libm) (cf : Coeffs) (s : MoonPosition) :
    (CalcMoonMeanLongitude lm cf s).moonMeanLongitude =
      Reduce (cf.MOON_MEAN_LONGITUDE_COEFFS 0 +
        cf.MOON_MEAN_LONGITUDE_COEFFS 1 * s.dynamicalTime -
        cf.MOON_MEAN_LONGITUDE_COEFFS 2 * lm.pow s.dynamicalTime 2 +
        cf.MOON_MEAN_LONGITUDE_COEFFS 3 * lm.pow s.dynamicalTime 3 -
        cf.MOON_MEAN_LONGITUDE_COEFFS 4 * lm.pow s.dynamicalTime 4) := rfl

theorem CalcMoonMeanElongation_moonMeanElongation (lm : Libm) (cf : Coeffs) (s : MoonPosition) :
    (CalcMoonMeanElongation lm cf s).moonMeanElongation =
      Reduce (cf.MOON_MEAN_ELONGATION_COEFFS 0 +
        cf.MOON_MEAN_ELONGATION_COEFFS 1 * s.dynamicalTime -
        cf.MOON_MEAN_ELONGATION_COEFFS 2 * lm.pow s.dynamicalTime 2 +
        cf.MOON_MEAN_ELONGATION_COEFFS 3 * lm.pow s.dynamicalTime 3 -
        cf.MOON_MEAN_ELONGATION_COEFFS 4 * lm.pow s.dynamicalTime 4) := rfl

theorem Iterate_moonMeanElongation (lm : Libm) (cf : Coeffs) (s : MoonPosition) :
    (Iterate lm cf s).moonMeanElongation =
      Reduce (cf.MOON_MEAN_ELONGATION_COEFFS 0 +
        cf.MOON_MEAN_ELONGATION_COEFFS 1 * (Iterate lm cf s).dynamicalTime -
        cf.MOON_MEAN_ELONGATION_COEFFS 2 * lm.pow (Iterate lm cf s).dynamicalTime 2 +
        cf.MOON_MEAN_ELONGATION_COEFFS 3 * lm.pow (Iterate lm cf s).dynamicalTime 3 -
        cf.MOON_MEAN_ELONGATION_COEFFS 4 * lm.pow (Iterate lm cf s).dynamicalTime 4) := rfl

theorem CalcSunMeanAnomaly_sunMeanAnomaly (lm : Libm) (cf : Coeffs) (s : MoonPosition) :
    (CalcSunMeanAnomaly lm cf s).sunMeanAnomaly =
      Reduce (cf.SUN_MEAN_ANOMALY_COEFFS 0 +
        cf.SUN_MEAN_ANOMALY_COEFFS 1 * s.dynamicalTime -
        cf.SUN_MEAN_ANOMALY_COEFFS 2 * lm.pow s.dynamicalTime 2 +
        cf.SUN_MEAN_ANOMALY_COEFFS 3 * lm.pow s.dynamicalTime 3) := rfl

theorem Iterate_sunMeanAnomaly (lm : Libm) (cf : Coeffs) (s : MoonPosition) :
    (Iterate lm cf s).sunMeanAnomaly =
      Reduce (cf.SUN_MEAN_ANOMALY_COEFFS 0 +
        cf.SUN_MEAN_ANOMALY_COEFFS 1 * (Iterate lm cf s).dynamicalTime -
        cf.SUN_MEAN_ANOMALY_COEFFS 2 * lm.pow (Iterate lm cf s).dynamicalTime 2 +
        cf.SUN_MEAN_ANOMALY_COEFFS 3 * lm.pow (Iterate lm cf s).dynamicalTime 3) := rfl

theorem CalcMoonMeanAnomaly_moonMeanAnomaly (lm : Libm) (cf : Coeffs) (s : MoonPosition) :
    (CalcMoonMeanAnomaly lm cf s).moonMeanAnomaly =
      Reduce (cf.MOON_MEAN_ANOMALY_COEFFS 0 +
        cf.MOON_MEAN_ANOMALY_COEFFS 1 * s.dynamicalTime +
        cf.MOON_MEAN_ANOMALY_COEFFS 2 * lm.pow s.dynamicalTime 2 +
        cf.MOON_MEAN_ANOMALY_COEFFS 3 * lm.pow s.dynamicalTime 3 -
        cf.MOON_MEAN_ANOMALY_COEFFS 4 * lm.pow s.dynamicalTime 4) := rfl

theorem Iterate_moonMeanAnomaly (lm : Libm) (cf : Coeffs) (s : MoonPosition) :
    (Iterate lm cf s).moonMeanAnomaly =
      Reduce (cf.MOON_MEAN_ANOMALY_COEFFS 0 +
        cf.MOON_MEAN_ANOMALY_COEFFS 1 * (Iterate lm cf s).dynamicalTime +
        cf.MOON_MEAN_ANOMALY_COEFFS 2 * lm.pow (Iterate lm cf s).dynamicalTime 2 +
        cf.MOON_MEAN_ANOMALY_COEFFS 3 * lm.pow (Iterate lm cf s).dynamicalTime 3 -
        cf.MOON_MEAN_ANOMALY_COEFFS 4 * lm.pow (Iterate lm cf s).dynamicalTime 4) := rfl

theorem CalcMoonArgumentOfLatitude_moonArgumentOfLatitude (lm : Libm) (cf : Coeffs) (s : MoonPosition) :
    (CalcMoonArgumentOfLatitude lm cf s).moonArgumentOfLatitude =
      Reduce (cf.MOON_ARG_OF_LATITUDE_COEFFS 0 +
        cf.MOON_ARG_OF_LATITUDE_COEFFS 1 * s.dynamicalTime -
        cf.MOON_ARG_OF_LATITUDE_COEFFS 2 * lm.pow s.dynamicalTime 2 -
        cf.MOON_ARG_OF_LATITUDE_COEFFS 3 * lm.pow s.dynamicalTime 3 +
        cf.MOON_ARG_OF_LATITUDE_COEFFS 4 * lm.pow s.dynamicalTime 4) := rfl

theorem Iterate_moonArgumentOfLatitude (lm : Libm) (cf : Coeffs) (s : MoonPosition) :
    (Iterate lm cf s).moonArgumentOfLatitude =
      Reduce (cf.MOON_ARG_OF_LATITUDE_COEFFS 0 +
        cf.MOON_ARG_OF_LATITUDE_COEFFS 1 * (Iterate lm cf s).dynamicalTime -
        cf.MOON_ARG_OF_LATITUDE_COEFFS 2 * lm.pow (Iterate lm cf s).dynamicalTime 2 -
        cf.MOON_ARG_OF_LATITUDE_COEFFS 3 * lm.pow (Iterate lm cf s).dynamicalTime 3 +
        cf.MOON_ARG_OF_LATITUDE_COEFFS 4 * lm.pow (Iterate lm cf s).dynamicalTime 4) := rfl

theorem CalcActionOfVenus_actionOfVenus (cf : Coeffs) (s : MoonPosition) :
    (CalcActionOfVenus cf s).actionOfVenus =
      Reduce (cf.ACTION_OF_VENUS_COEFFS 0 +
        cf.ACTION_OF_VENUS_COEFFS 1 * s.dynamicalTime) := rfl

theorem CalcActionOfJupiter_actionOfJupiter (cf : Coeffs) (s : MoonPosition) :
    (CalcActionOfJupiter cf s).actionOfJupiter =
      Reduce (cf.ACTION_OF_JUPITER_COEFFS 0 +
        cf.ACTION_OF_JUPITER_COEFFS 1 * s.dynamicalTime) := rfl

theorem CalcActionOfSomething_actionOfSomething (cf : Coeffs) (s : MoonPosition) :
    (CalcActionOfSomething cf s).actionOfSomething =
      Reduce (cf.ACTION_OF_SOMETHING_COEFFS 0 +
        cf.ACTION_OF_SOMETHING_COEFFS 1 * s.dynamicalTime) := rfl

theorem CalcEarthEccentricity_earthEccentricity (lm : Libm) (cf : Coeffs) (s : MoonPosition) :
    (CalcEarthEccentricity lm cf s).earthEccentricity =
      cf.EARTH_ECCENTRICITY_COEFFS 0 -
        cf.EARTH_ECCENTRICITY_COEFFS 1 * s.dynamicalTime -
        cf.EARTH_ECCENTRICITY_COEFFS 2 * lm.pow s.dynamicalTime 2 := rfl

theorem Iterate_earthEccentricity (lm : Libm) (cf : Coeffs) (s : MoonPosition) :
    (Iterate lm cf s).earthEccentricity =
      cf.EARTH_ECCENTRICITY_COEFFS 0 -
        cf.EARTH_ECCENTRICITY_COEFFS 1 * (Iterate lm cf s).dynamicalTime -
        cf.EARTH_ECCENTRICITY_COEFFS 2 * lm.pow (Iterate lm cf s).dynamicalTime 2 := rfl

/-! ### The worked example: `julianEphemerisDay = 2448724.5` -/

theorem lit_2448724_5 :
    (2448724.5 : Dbl) = fin (4897449 / 2 ^ 1) := by
  show ofRat (OfScientific.ofScientific 24487245 true 1) = _
  have h : (OfScientific.ofScientific 24487245 true 1 : ℚ) = 4897449 / 2 := by norm_num
  rw [h]
  exact ofRat_eval_pos _ 21 5258595822206976 (by norm_num) (by norm_num) (by norm_num)
    (by norm_num) (by norm_num) (by norm_num) (by norm_num) (by norm_num)

theorem example_time_1 :
    (fin (4897449 / 2 ^ 1) : Dbl) - fin (2451545) = fin (-5641 / 2 ^ 1) := by
  rw [sub_fin]
  exact ofRat_eval_neg _ 11 (-6202345092284416) (by norm_num) (by norm_num) (by norm_num)
    (by norm_num) (by norm_num) (by norm_num) (by norm_num) (by norm_num)

theorem example_time_2 :
    (fin (-5641 / 2 ^ 1) : Dbl) / fin (36525) = fin (-5564365338370315 / 2 ^ 56) := by
  rw [div_fin _ (by norm_num)]
  exact ofRat_eval_neg _ (-4) (-5564365338370315) (by norm_num) (by norm_num) (by norm_num)
    (by norm_num) (by norm_num) (by norm_num) (by norm_num) (by norm_num)

/-- The `dynamicalTime` of the worked example, as a `double`. -/
theorem dynamicalTime_example (s : MoonPosition) :
    (CalcDynamicTime meeusCoeffs { s with julianEphemerisDay := 2448724.5 }).dynamicalTime =
      fin (-5564365338370315 / 2 ^ 56) := by
  rw [CalcDynamicTime_dynamicalTime]
  dsimp only
  rw [meeus_time_coeff_zero, meeus_time_coeff_one, lit_2448724_5, lit_2451545, lit_36525, example_time_1,
    example_time_2]

theorem example_pow_two (lm : Libm) (h : lm.PowWithinOneUlp) :
    lm.pow (fin (-5564365338370315 / 2 ^ 56)) 2 = fin (1718745236071017 / 2 ^ 58) ∨ lm.pow (fin (-5564365338370315 / 2 ^ 56)) 2 = fin (6874980944284069 / 2 ^ 60) := by
  have hc := Libm.pow_candidates_pos lm h (a := -5564365338370315 / 2 ^ 56) 2 (by norm_num)
    (30962161618856990144420073199225 / 5192296858534827628530496329220096) (1718745236071017 / 2 ^ 58) (6874980944284069 / 2 ^ 60) (-8) 6874980944284068
    (by norm_num) (by norm_num) (by norm_num) (by norm_num) (by norm_num)
    (by norm_num) (by norm_num) (by norm_num) (by norm_num) (by norm_num)
  rw [Nat.cast_ofNat] at hc
  rw [lit_two]
  exact hc

theorem example_pow_three (lm : Libm) (h : lm.PowWithinOneUlp) :
    lm.pow (fin (-5564365338370315 / 2 ^ 56)) 3 = fin (-8494295415568829 / 2 ^ 64) ∨ lm.pow (fin (-5564365338370315 / 2 ^ 56)) 3 = fin (-2123573853892207 / 2 ^ 62) := by
  have hc := Libm.pow_candidates_neg lm h (a := -5564365338370315 / 2 ^ 56) 3 (by norm_num)
    (-172284778912987556018505695726521277869821005875 / 374144419156711147060143317175368453031918731001856) (-8494295415568829 / 2 ^ 64) (-2123573853892207 / 2 ^ 62) (-12) (-8494295415568829)
    (by norm_num) (by norm_num) (by norm_num) (by norm_num) (by norm_num)
    (by norm_num) (by norm_num) (by norm_num) (by norm_num) (by norm_num)
  rw [Nat.cast_ofNat] at hc
  rw [lit_three]
  exact hc

theorem example_pow_four (lm : Libm) (h : lm.PowWithinOneUlp) :
    lm.pow (fin (-5564365338370315 / 2 ^ 56)) 4 = fin (2623754712620055 / 2 ^ 66) ∨ lm.pow (fin (-5564365338370315 / 2 ^ 56)) 4 = fin (5247509425240111 / 2 ^ 67) := by
  have hc := Libm.pow_candidates_pos lm h (a := -5564365338370315 / 2 ^ 56) 4 (by norm_num)
    (958655452112220912637869366663222662611265208369507126540600625 / 26959946667150639794667015087019630673637144422540572481103610249216) (2623754712620055 / 2 ^ 66) (5247509425240111 / 2 ^ 67) (-15) 5247509425240110
    (by norm_num) (by norm_num) (by norm_num) (by norm_num) (by norm_num)
    (by norm_num) (by norm_num) (by norm_num) (by norm_num) (by norm_num)
  rw [Nat.cast_ofNat] at hc
  rw [lit_four]
  exact hc

theorem meeus_elongation_coeff_zero :
    meeusCoeffs.MOON_MEAN_ELONGATION_COEFFS 0 = 297.8501921 := by
  rw [meeusCoeffs]
  dsimp only
  exact vec5_zero _ _ _ _ _

theorem lit_297_8501921 :
    (297.8501921 : Dbl) = fin (5239835992788245 / 2 ^ 44) := by
  show ofRat (OfScientific.ofScientific 2978501921 true 7) = _
  have h : (OfScientific.ofScientific 2978501921 true 7 : ℚ) = 2978501921 / 10000000 := by norm_num
  rw [h]
  exact ofRat_eval_pos _ 8 5239835992788245 (by norm_num) (by norm_num) (by norm_num)
    (by norm_num) (by norm_num) (by norm_num) (by norm_num) (by norm_num)

theorem meeus_elongation_coeff_one :
    meeusCoeffs.MOON_MEAN_ELONGATION_COEFFS 1 = 445267.1114034 := by
  rw [meeusCoeffs]
  dsimp only
  exact vec5_one _ _ _ _ _

theorem lit_445267_1114034 :
    (445267.1114034 : Dbl) = fin (7649630725847967 / 2 ^ 34) := by
  show ofRat (OfScientific.ofScientific 4452671114034 true 7) = _
  have h : (OfScientific.ofScientific 4452671114034 true 7 : ℚ) = 2226335557017 / 5000000 := by norm_num
  rw [h]
  exact ofRat_eval_pos _ 18 7649630725847967 (by norm_num) (by norm_num) (by norm_num)
    (by norm_num) (by norm_num) (by norm_num) (by norm_num) (by norm_num)

theorem meeus_elongation_coeff_two :
    meeusCoeffs.MOON_MEAN_ELONGATION_COEFFS 2 = 0.0018819 := by
  rw [meeusCoeffs]
  dsimp only
  exact vec5_two _ _ _ _ _

theorem lit_0_0018819 :
    (0.0018819 : Dbl) = fin (8678731918078501 / 2 ^ 62) := by
  show ofRat (OfScientific.ofScientific 18819 true 7) = _
  have h : (OfScientific.ofScientific 18819 true 7 : ℚ) = 18819 / 10000000 := by norm_num
  rw [h]
  exact ofRat_eval_pos _ (-10) 8678731918078501 (by norm_num) (by norm_num) (by norm_num)
    (by norm_num) (by norm_num) (by norm_num) (by norm_num) (by norm_num)

theorem meeus_elongation_coeff_three :
    meeusCoeffs.MOON_MEAN_ELONGATION_COEFFS 3 = 1.0 / 545868.0 := by
  rw [meeusCoeffs]
  dsimp only
  exact vec5_three _ _ _ _ _

theorem lit_545868_0 :
    (545868.0 : Dbl) = fin (545868) := by
  show ofRat (OfScientific.ofScientific 5458680 true 1) = _
  have h : (OfScientific.ofScientific 5458680 true 1 : ℚ) = 545868 := by norm_num
  rw [h]
  exact ofRat_eval_pos _ 19 4688970415865856 (by norm_num) (by norm_num) (by norm_num)
    (by norm_num) (by norm_num) (by norm_num) (by norm_num) (by norm_num)

theorem coeff_elongation_3 :
    (fin (1) : Dbl) / fin (545868) = fin (33793415392933 / 2 ^ 64) := by
  rw [div_fin _ (by norm_num)]
  exact ofRat_eval_pos _ (-20) 8651114340590848 (by norm_num) (by norm_num) (by norm_num)
    (by norm_num) (by norm_num) (by norm_num) (by norm_num) (by norm_num)

theorem meeus_elongation_coeff_four :
    meeusCoeffs.MOON_MEAN_ELONGATION_COEFFS 4 = 1.0 / 113065000.0 := by
  rw [meeusCoeffs]
  dsimp only
  exact vec5_four _ _ _ _ _

theorem lit_113065000_0 :
    (113065000.0 : Dbl) = fin (113065000) := by
  show ofRat (OfScientific.ofScientific 1130650000 true 1) = _
  have h : (OfScientific.ofScientific 1130650000 true 1 : ℚ) = 113065000 := by norm_num
  rw [h]
  exact ofRat_eval_pos _ 26 7587663708160000 (by norm_num) (by norm_num) (by norm_num)
    (by norm_num) (by norm_num) (by norm_num) (by norm_num) (by norm_num)

theorem coeff_elongation_4 :
    (fin (1) : Dbl) / fin (113065000) = fin (5346154068963115 / 2 ^ 79) := by
  rw [div_fin _ (by norm_num)]
  exact ofRat_eval_pos _ (-27) 5346154068963115 (by norm_num) (by norm_num) (by norm_num)
    (by norm_num) (by norm_num) (by norm_num) (by norm_num) (by norm_num)

theorem example_elongation_5 :
    (fin (7649630725847967 / 2 ^ 34) : Dbl) * fin (-5564365338370315 / 2 ^ 56) = fin (-4725702058809953 / 2 ^ 37) := by
  rw [mul_fin]
  exact ofRat_eval_neg _ 15 (-4725702058809953) (by norm_num) (by norm_num) (by norm_num)
    (by norm_num) (by norm_num) (by norm_num) (by norm_num) (by norm_num)

theorem example_elongation_6 :
    (fin (8678731918078501 / 2 ^ 62) : Dbl) * fin (1718745236071017 / 2 ^ 58) = fin (207008426224771 / 2 ^ 64) := by
  rw [mul_fin]
  exact ofRat_eval_pos _ (-17) 6624269639192672 (by norm_num) (by norm_num) (by norm_num)
    (by norm_num) (by norm_num) (by norm_num) (by norm_num) (by norm_num)

theorem example_elongation_7 :
    (fin (33793415392933 / 2 ^ 64) : Dbl) * fin (-8494295415568829 / 2 ^ 64) = fin (-2039621829287369 / 2 ^ 81) := by
  rw [mul_fin]
  exact ofRat_eval_neg _ (-31) (-8158487317149476) (by norm_num) (by norm_num) (by norm_num)
    (by norm_num) (by norm_num) (by norm_num) (by norm_num) (by norm_num)

theorem example_elongation_8 :
    (fin (5346154068963115 / 2 ^ 79) : Dbl) * fin (2623754712620055 / 2 ^ 66) = fin (6229237984471883 / 2 ^ 94) := by
  rw [mul_fin]
  exact ofRat_eval_pos _ (-42) 6229237984471883 (by norm_num) (by norm_num) (by norm_num)
    (by norm_num) (by norm_num) (by norm_num) (by norm_num) (by norm_num)

theorem example_elongation_9 :
    (fin (5239835992788245 / 2 ^ 44) : Dbl) + fin (-4725702058809953 / 2 ^ 37) = fin (-4684765840116295 / 2 ^ 37) := by
  rw [add_fin]
  exact ofRat_eval_neg _ 15 (-4684765840116295) (by norm_num) (by norm_num) (by norm_num)
    (by norm_num) (by norm_num) (by norm_num) (by norm_num) (by norm_num)

theorem example_elongation_10 :
    (fin (-4684765840116295 / 2 ^ 37) : Dbl) - fin (207008426224771 / 2 ^ 64) = fin (-1171191460414657 / 2 ^ 35) := by
  rw [sub_fin]
  exact ofRat_eval_neg _ 15 (-4684765841658628) (by norm_num) (by norm_num) (by norm_num)
    (by norm_num) (by norm_num) (by norm_num) (by norm_num) (by norm_num)

theorem example_elongation_11 :
    (fin (-1171191460414657 / 2 ^ 35) : Dbl) + fin (-2039621829287369 / 2 ^ 81) = fin (-585595730207343 / 2 ^ 34) := by
  rw [add_fin]
  exact ofRat_eval_neg _ 15 (-4684765841658744) (by norm_num) (by norm_num) (by norm_num)
    (by norm_num) (by norm_num) (by norm_num) (by norm_num) (by norm_num)

theorem example_elongation_12 :
    (fin (-585595730207343 / 2 ^ 34) : Dbl) - fin (6229237984471883 / 2 ^ 94) = fin (-585595730207343 / 2 ^ 34) := by
  rw [sub_fin]
  exact ofRat_eval_neg _ 15 (-4684765841658744) (by norm_num) (by norm_num) (by norm_num)
    (by norm_num) (by norm_num) (by norm_num) (by norm_num) (by norm_num)

theorem example_elongation_13 :
    Reduce (fin (-585595730207343 / 2 ^ 34)) = fin (1955795885457 / 2 ^ 34) := by
  have hf : fmodQ (-585595730207343 / 2 ^ 34) 360 = -4228957020783 / 2 ^ 34 :=
    fmodQ_eval_neg (-94) (by norm_num) (by norm_num) (by norm_num) (by norm_num)
  exact Reduce_fin_of_neg_rem hf (by norm_num)
    (rnd_eval_pos _ 6 8010939946831872 (by norm_num) (by norm_num) (by norm_num)
    (by norm_num) (by norm_num) (by norm_num) (by norm_num))

theorem example_elongation_14 :
    (fin (5346154068963115 / 2 ^ 79) : Dbl) * fin (5247509425240111 / 2 ^ 67) = fin (1557309496117971 / 2 ^ 92) := by
  rw [mul_fin]
  exact ofRat_eval_pos _ (-42) 6229237984471884 (by norm_num) (by norm_num) (by norm_num)
    (by norm_num) (by norm_num) (by norm_num) (by norm_num) (by norm_num)

theorem example_elongation_15 :
    (fin (-585595730207343 / 2 ^ 34) : Dbl) - fin (1557309496117971 / 2 ^ 92) = fin (-585595730207343 / 2 ^ 34) := by
  rw [sub_fin]
  exact ofRat_eval_neg _ 15 (-4684765841658744) (by norm_num) (by norm_num) (by norm_num)
    (by norm_num) (by norm_num) (by norm_num) (by norm_num) (by norm_num)

theorem example_elongation_16 :
    (fin (33793415392933 / 2 ^ 64) : Dbl) * fin (-2123573853892207 / 2 ^ 62) = fin (-8158487317149475 / 2 ^ 83) := by
  rw [mul_fin]
  exact ofRat_eval_neg _ (-31) (-8158487317149475) (by norm_num) (by norm_num) (by norm_num)
    (by norm_num) (by norm_num) (by norm_num) (by norm_num) (by norm_num)

theorem example_elongation_17 :
    (fin (-1171191460414657 / 2 ^ 35) : Dbl) + fin (-8158487317149475 / 2 ^ 83) = fin (-585595730207343 / 2 ^ 34) := by
  rw [add_fin]
  exact ofRat_eval_neg _ 15 (-4684765841658744) (by norm_num) (by norm_num) (by norm_num)
    (by norm_num) (by norm_num) (by norm_num) (by norm_num) (by norm_num)

theorem example_elongation_18 :
    (fin (8678731918078501 / 2 ^ 62) : Dbl) * fin (6874980944284069 / 2 ^ 60) = fin (6624269639192673 / 2 ^ 69) := by
  rw [mul_fin]
  exact ofRat_eval_pos _ (-17) 6624269639192673 (by norm_num) (by norm_num) (by norm_num)
    (by norm_num) (by norm_num) (by norm_num) (by norm_num) (by norm_num)

theorem example_elongation_19 :
    (fin (-4684765840116295 / 2 ^ 37) : Dbl) - fin (6624269639192673 / 2 ^ 69) = fin (-1171191460414657 / 2 ^ 35) := by
  rw [sub_fin]
  exact ofRat_eval_neg _ 15 (-4684765841658628) (by norm_num) (by norm_num) (by norm_num)
    (by norm_num) (by norm_num) (by norm_num) (by norm_num) (by norm_num)

theorem moonMeanElongation_example (lm : Libm) (h : lm.PowWithinOneUlp) (s : MoonPosition) :
    Near (CalcMoonMeanElongation lm meeusCoeffs
        (CalcDynamicTime meeusCoeffs { s with julianEphemerisDay := 2448724.5 })).moonMeanElongation
      113.842 0.001 := by
  rw [CalcMoonMeanElongation_moonMeanElongation, dynamicalTime_example,
    meeus_elongation_coeff_zero, meeus_elongation_coeff_one, meeus_elongation_coeff_two,
    meeus_elongation_coeff_three, meeus_elongation_coeff_four, lit_297_8501921,
    lit_445267_1114034, lit_0_0018819, lit_one, lit_545868_0, lit_113065000_0,
    coeff_elongation_3, coeff_elongation_4]
  rcases example_pow_two lm h with h2 | h2
  · rcases example_pow_three lm h with h3 | h3
    · rcases example_pow_four lm h with h4 | h4
      · rw [h2, h3, h4, example_elongation_5, example_elongation_6, example_elongation_7,
          example_elongation_8, example_elongation_9, example_elongation_10,
          example_elongation_11, example_elongation_12, example_elongation_13]
        exact ⟨_, rfl, by norm_num [abs_lt]⟩
      · rw [h2, h3, h4, example_elongation_5, example_elongation_6, example_elongation_7,
          example_elongation_14, example_elongation_9, example_elongation_10,
          example_elongation_11, example_elongation_15, example_elongation_13]
        exact ⟨_, rfl, by norm_num [abs_lt]⟩
    · rcases example_pow_four lm h with h4 | h4
      · rw [h2, h3, h4, example_elongation_5, example_elongation_6, example_elongation_16,
          example_elongation_8, example_elongation_9, example_elongation_10,
          example_elongation_17, example_elongation_12, example_elongation_13]
        exact ⟨_, rfl, by norm_num [abs_lt]⟩
      · rw [h2, h3, h4, example_elongation_5, example_elongation_6, example_elongation_16,
          example_elongation_14, example_elongation_9, example_elongation_10,
          example_elongation_17, example_elongation_15, example_elongation_13]
        exact ⟨_, rfl, by norm_num [abs_lt]⟩
  · rcases example_pow_three lm h with h3 | h3
    · rcases example_pow_four lm h with h4 | h4
      · rw [h2, h3, h4, example_elongation_5, example_elongation_18, example_elongation_7,
          example_elongation_8, example_elongation_9, example_elongation_19,
          example_elongation_11, example_elongation_12, example_elongation_13]
        exact ⟨_, rfl, by norm_num [abs_lt]⟩
      · rw [h2, h3, h4, example_elongation_5, example_elongation_18, example_elongation_7,
          example_elongation_14, example_elongation_9, example_elongation_19,
          example_elongation_11, example_elongation_15, example_elongation_13]
        exact ⟨_, rfl, by norm_num [abs_lt]⟩
    · rcases example_pow_four lm h with h4 | h4
      · rw [h2, h3, h4, example_elongation_5, example_elongation_18, example_elongation_16,
          example_elongation_8, example_elongation_9, example_elongation_19,
          example_elongation_17, example_elongation_12, example_elongation_13]
        exact ⟨_, rfl, by norm_num [abs_lt]⟩
      · rw [h2, h3, h4, example_elongation_5, example_elongation_18, example_elongation_16,
          example_elongation_14, example_elongation_9, example_elongation_19,
          example_elongation_17, example_elongation_15, example_elongation_13]
        exact ⟨_, rfl, by norm_num [abs_lt]⟩

theorem meeus_sun_anomaly_coeff_zero :
    meeusCoeffs.SUN_MEAN_ANOMALY_COEFFS 0 = 357.5291092 := by
  rw [meeusCoeffs]
  dsimp only
  exact vec4_zero _ _ _ _

theorem lit_357_5291092 :
    (357.5291092 : Dbl) = fin (1572429651335181 / 2 ^ 42) := by
  show ofRat (OfScientific.ofScientific 3575291092 true 7) = _
  have h : (OfScientific.ofScientific 3575291092 true 7 : ℚ) = 893822773 / 2500000 := by norm_num
  rw [h]
  exact ofRat_eval_pos _ 8 6289718605340724 (by norm_num) (by norm_num) (by norm_num)
    (by norm_num) (by norm_num) (by norm_num) (by norm_num) (by norm_num)

theorem meeus_sun_anomaly_coeff_one :
    meeusCoeffs.SUN_MEAN_ANOMALY_COEFFS 1 = 35999.0502909 := by
  rw [meeusCoeffs]
  dsimp only
  exact vec4_one _ _ _ _

theorem lit_35999_0502909 :
    (35999.0502909 : Dbl) = fin (4947671797967193 / 2 ^ 37) := by
  show ofRat (OfScientific.ofScientific 359990502909 true 7) = _
  have h : (OfScientific.ofScientific 359990502909 true 7 : ℚ) = 359990502909 / 10000000 := by norm_num
  rw [h]
  exact ofRat_eval_pos _ 15 4947671797967193 (by norm_num) (by norm_num) (by norm_num)
    (by norm_num) (by norm_num) (by norm_num) (by norm_num) (by norm_num)

theorem meeus_sun_anomaly_coeff_two :
    meeusCoeffs.SUN_MEAN_ANOMALY_COEFFS 2 = 0.0001536 := by
  rw [meeusCoeffs]
  dsimp only
  exact vec4_two _ _ _ _

theorem lit_0_0001536 :
    (0.0001536 : Dbl) = fin (2833419889721787 / 2 ^ 64) := by
  show ofRat (OfScientific.ofScientific 1536 true 7) = _
  have h : (OfScientific.ofScientific 1536 true 7 : ℚ) = 12 / 78125 := by norm_num
  rw [h]
  exact ofRat_eval_pos _ (-13) 5666839779443574 (by norm_num) (by norm_num) (by norm_num)
    (by norm_num) (by norm_num) (by norm_num) (by norm_num) (by norm_num)

theorem meeus_sun_anomaly_coeff_three :
    meeusCoeffs.SUN_MEAN_ANOMALY_COEFFS 3 = 1.0 / 24490000.0 := by
  rw [meeusCoeffs]
  dsimp only
  exact vec4_three _ _ _ _

theorem lit_24490000_0 :
    (24490000.0 : Dbl) = fin (24490000) := by
  show ofRat (OfScientific.ofScientific 244900000 true 1) = _
  have h : (OfScientific.ofScientific 244900000 true 1 : ℚ) = 24490000 := by norm_num
  rw [h]
  exact ofRat_eval_pos _ 24 6573984317440000 (by norm_num) (by norm_num) (by norm_num)
    (by norm_num) (by norm_num) (by norm_num) (by norm_num) (by norm_num)

theorem coeff_sun_anomaly_20 :
    (fin (1) : Dbl) / fin (24490000) = fin (6170507450054253 / 2 ^ 77) := by
  rw [div_fin _ (by norm_num)]
  exact ofRat_eval_pos _ (-25) 6170507450054253 (by norm_num) (by norm_num) (by norm_num)
    (by norm_num) (by norm_num) (by norm_num) (by norm_num) (by norm_num)

theorem example_sun_anomaly_21 :
    (fin (4947671797967193 / 2 ^ 37) : Dbl) * fin (-5564365338370315 / 2 ^ 56) = fin (-3056516535231533 / 2 ^ 40) := by
  rw [mul_fin]
  exact ofRat_eval_neg _ 11 (-6113033070463066) (by norm_num) (by norm_num) (by norm_num)
    (by norm_num) (by norm_num) (by norm_num) (by norm_num) (by norm_num)

theorem example_sun_anomaly_22 :
    (fin (2833419889721787 / 2 ^ 64) : Dbl) * fin (1718745236071017 / 2 ^ 58) = fin (8650728022360333 / 2 ^ 73) := by
  rw [mul_fin]
  exact ofRat_eval_pos _ (-21) 8650728022360333 (by norm_num) (by norm_num) (by norm_num)
    (by norm_num) (by norm_num) (by norm_num) (by norm_num) (by norm_num)

theorem example_sun_anomaly_23 :
    (fin (6170507450054253 / 2 ^ 77) : Dbl) * fin (-8494295415568829 / 2 ^ 64) = fin (-5819135522858637 / 2 ^ 88) := by
  rw [mul_fin]
  exact ofRat_eval_neg _ (-36) (-5819135522858637) (by norm_num) (by norm_num) (by norm_num)
    (by norm_num) (by norm_num) (by norm_num) (by norm_num) (by norm_num)

theorem example_sun_anomaly_24 :
    (fin (1572429651335181 / 2 ^ 42) : Dbl) + fin (-3056516535231533 / 2 ^ 40) = fin (-1331704561198869 / 2 ^ 39) := by
  rw [add_fin]
  exact ofRat_tie_neg _ 11 (-5326818244795476) (-5326818244795476) (by norm_num) (by norm_num) (by norm_num)
    (by norm_num) (by norm_num) (by norm_num) (by norm_num) (by norm_num)

theorem example_sun_anomaly_25 :
    (fin (-1331704561198869 / 2 ^ 39) : Dbl) - fin (8650728022360333 / 2 ^ 73) = fin (-5326818246809631 / 2 ^ 41) := by
  rw [sub_fin]
  exact ofRat_eval_neg _ 11 (-5326818246809631) (by norm_num) (by norm_num) (by norm_num)
    (by norm_num) (by norm_num) (by norm_num) (by norm_num) (by norm_num)

theorem example_sun_anomaly_26 :
    (fin (-5326818246809631 / 2 ^ 41) : Dbl) + fin (-5819135522858637 / 2 ^ 88) = fin (-665852280851209 / 2 ^ 38) := by
  rw [add_fin]
  exact ofRat_eval_neg _ 11 (-5326818246809672) (by norm_num) (by norm_num) (by norm_num)
    (by norm_num) (by norm_num) (by norm_num) (by norm_num) (by norm_num)

theorem example_sun_anomaly_27 :
    Reduce (fin (-665852280851209 / 2 ^ 38)) = fin (26840044647671 / 2 ^ 38) := by
  have hf : fmodQ (-665852280851209 / 2 ^ 38) 360 = -72116001852169 / 2 ^ 38 :=
    fmodQ_eval_neg (-6) (by norm_num) (by norm_num) (by norm_num) (by norm_num)
  exact Reduce_fin_of_neg_rem hf (by norm_num)
    (rnd_eval_pos _ 6 6871051429803776 (by norm_num) (by norm_num) (by norm_num)
    (by norm_num) (by norm_num) (by norm_num) (by norm_num))

theorem example_sun_anomaly_28 :
    (fin (6170507450054253 / 2 ^ 77) : Dbl) * fin (-2123573853892207 / 2 ^ 62) = fin (-1454783880714659 / 2 ^ 86) := by
  rw [mul_fin]
  exact ofRat_eval_neg _ (-36) (-5819135522858636) (by norm_num) (by norm_num) (by norm_num)
    (by norm_num) (by norm_num) (by norm_num) (by norm_num) (by norm_num)

theorem example_sun_anomaly_29 :
    (fin (-5326818246809631 / 2 ^ 41) : Dbl) + fin (-1454783880714659 / 2 ^ 86) = fin (-665852280851209 / 2 ^ 38) := by
  rw [add_fin]
  exact ofRat_eval_neg _ 11 (-5326818246809672) (by norm_num) (by norm_num) (by norm_num)
    (by norm_num) (by norm_num) (by norm_num) (by norm_num) (by norm_num)

theorem example_sun_anomaly_30 :
    (fin (2833419889721787 / 2 ^ 64) : Dbl) * fin (6874980944284069 / 2 ^ 60) = fin (4325364011180167 / 2 ^ 72) := by
  rw [mul_fin]
  exact ofRat_eval_pos _ (-21) 8650728022360334 (by norm_num) (by norm_num) (by norm_num)
    (by norm_num) (by norm_num) (by norm_num) (by norm_num) (by norm_num)

theorem example_sun_anomaly_31 :
    (fin (-1331704561198869 / 2 ^ 39) : Dbl) - fin (4325364011180167 / 2 ^ 72) = fin (-5326818246809631 / 2 ^ 41) := by
  rw [sub_fin]
  exact ofRat_eval_neg _ 11 (-5326818246809631) (by norm_num) (by norm_num) (by norm_num)
    (by norm_num) (by norm_num) (by norm_num) (by norm_num) (by norm_num)

theorem sunMeanAnomaly_example (lm : Libm) (h : lm.PowWithinOneUlp) (s : MoonPosition) :
    Near (CalcSunMeanAnomaly lm meeusCoeffs
        (CalcDynamicTime meeusCoeffs { s with julianEphemerisDay := 2448724.5 })).sunMeanAnomaly
      97.643514 0.000001 := by
  rw [CalcSunMeanAnomaly_sunMeanAnomaly, dynamicalTime_example, meeus_sun_anomaly_coeff_zero,
    meeus_sun_anomaly_coeff_one, meeus_sun_anomaly_coeff_two, meeus_sun_anomaly_coeff_three,
    lit_357_5291092, lit_35999_0502909, lit_0_0001536, lit_one, lit_24490000_0,
    coeff_sun_anomaly_20]
  rcases example_pow_two lm h with h2 | h2
  · rcases example_pow_three lm h with h3 | h3
    · rw [h2, h3, example_sun_anomaly_21, example_sun_anomaly_22, example_sun_anomaly_23,
        example_sun_anomaly_24, example_sun_anomaly_25, example_sun_anomaly_26,
        example_sun_anomaly_27]
      exact ⟨_, rfl, by norm_num [abs_lt]⟩
    · rw [h2, h3, example_sun_anomaly_21, example_sun_anomaly_22, example_sun_anomaly_28,
        example_sun_anomaly_24, example_sun_anomaly_25, example_sun_anomaly_29,
        example_sun_anomaly_27]
      exact ⟨_, rfl, by norm_num [abs_lt]⟩
  · rcases example_pow_three lm h with h3 | h3
    · rw [h2, h3, example_sun_anomaly_21, example_sun_anomaly_30, example_sun_anomaly_23,
        example_sun_anomaly_24, example_sun_anomaly_31, example_sun_anomaly_26,
        example_sun_anomaly_27]
      exact ⟨_, rfl, by norm_num [abs_lt]⟩
    · rw [h2, h3, example_sun_anomaly_21, example_sun_anomaly_30, example_sun_anomaly_28,
        example_sun_anomaly_24, example_sun_anomaly_31, example_sun_anomaly_29,
        example_sun_anomaly_27]
      exact ⟨_, rfl, by norm_num [abs_lt]⟩

theorem meeus_moon_anomaly_coeff_zero :
    meeusCoeffs.MOON_MEAN_ANOMALY_COEFFS 0 = 134.9633964 := by
  rw [meeusCoeffs]
  dsimp only
  exact vec5_zero _ _ _ _ _

theorem lit_134_9633964 :
    (134.9633964 : Dbl) = fin (4748602357310129 / 2 ^ 45) := by
  show ofRat (OfScientific.ofScientific 1349633964 true 7) = _
  have h : (OfScientific.ofScientific 1349633964 true 7 : ℚ) = 337408491 / 2500000 := by norm_num
  rw [h]
  exact ofRat_eval_pos _ 7 4748602357310129 (by norm_num) (by norm_num) (by norm_num)
    (by norm_num) (by norm_num) (by norm_num) (by norm_num) (by norm_num)

theorem meeus_moon_anomaly_coeff_one :
    meeusCoeffs.MOON_MEAN_ANOMALY_COEFFS 1 = 477198.8675055 := by
  rw [meeusCoeffs]
  dsimp only
  exact vec5_one _ _ _ _ _

theorem lit_477198_8675055 :
    (477198.8675055 : Dbl) = fin (4099107059248719 / 2 ^ 33) := by
  show ofRat (OfScientific.ofScientific 4771988675055 true 7) = _
  have h : (OfScientific.ofScientific 4771988675055 true 7 : ℚ) = 954397735011 / 2000000 := by norm_num
  rw [h]
  exact ofRat_eval_pos _ 18 8198214118497438 (by norm_num) (by norm_num) (by norm_num)
    (by norm_num) (by norm_num) (by norm_num) (by norm_num) (by norm_num)

theorem meeus_moon_anomaly_coeff_two :
    meeusCoeffs.MOON_MEAN_ANOMALY_COEFFS 2 = 0.0087414 := by
  rw [meeusCoeffs]
  dsimp only
  exact vec5_two _ _ _ _ _

theorem lit_0_0087414 :
    (0.0087414 : Dbl) = fin (2519537010092573 / 2 ^ 58) := by
  show ofRat (OfScientific.ofScientific 87414 true 7) = _
  have h : (OfScientific.ofScientific 87414 true 7 : ℚ) = 43707 / 5000000 := by norm_num
  rw [h]
  exact ofRat_eval_pos _ (-7) 5039074020185146 (by norm_num) (by norm_num) (by norm_num)
    (by norm_num) (by norm_num) (by norm_num) (by norm_num) (by norm_num)

theorem meeus_moon_anomaly_coeff_three :
    meeusCoeffs.MOON_MEAN_ANOMALY_COEFFS 3 = 1.0 / 69699.0 := by
  rw [meeusCoeffs]
  dsimp only
  exact vec5_three _ _ _ _ _

theorem lit_69699_0 :
    (69699.0 : Dbl) = fin (69699) := by
  show ofRat (OfScientific.ofScientific 696990 true 1) = _
  have h : (OfScientific.ofScientific 696990 true 1 : ℚ) = 69699 := by norm_num
  rw [h]
  exact ofRat_eval_pos _ 16 4789678809022464 (by norm_num) (by norm_num) (by norm_num)
    (by norm_num) (by norm_num) (by norm_num) (by norm_num) (by norm_num)

theorem coeff_moon_anomaly_32 :
    (fin (1) : Dbl) / fin (69699) = fin (2117303728743259 / 2 ^ 67) := by
  rw [div_fin _ (by norm_num)]
  exact ofRat_eval_pos _ (-17) 8469214914973036 (by norm_num) (by norm_num) (by norm_num)
    (by norm_num) (by norm_num) (by norm_num) (by norm_num) (by norm_num)

theorem meeus_moon_anomaly_coeff_four :
    meeusCoeffs.MOON_MEAN_ANOMALY_COEFFS 4 = 1.0 / 14712000.0 := by
  rw [meeusCoeffs]
  dsimp only
  exact vec5_four _ _ _ _ _

theorem lit_14712000_0 :
    (14712000.0 : Dbl) = fin (14712000) := by
  show ofRat (OfScientific.ofScientific 147120000 true 1) = _
  have h : (OfScientific.ofScientific 147120000 true 1 : ℚ) = 14712000 := by norm_num
  rw [h]
  exact ofRat_eval_pos _ 23 7898444857344000 (by norm_num) (by norm_num) (by norm_num)
    (by norm_num) (by norm_num) (by norm_num) (by norm_num) (by norm_num)

theorem coeff_moon_anomaly_33 :
    (fin (1) : Dbl) / fin (14712000) = fin (1283949560323449 / 2 ^ 74) := by
  rw [div_fin _ (by norm_num)]
  exact ofRat_eval_pos _ (-24) 5135798241293796 (by norm_num) (by norm_num) (by norm_num)
    (by norm_num) (by norm_num) (by norm_num) (by norm_num) (by norm_num)

theorem example_moon_anomaly_34 :
    (fin (4099107059248719 / 2 ^ 33) : Dbl) * fin (-5564365338370315 / 2 ^ 56) = fin (-2532299840790913 / 2 ^ 36) := by
  rw [mul_fin]
  exact ofRat_eval_neg _ 15 (-5064599681581826) (by norm_num) (by norm_num) (by norm_num)
    (by norm_num) (by norm_num) (by norm_num) (by norm_num) (by norm_num)

theorem example_moon_anomaly_35 :
    (fin (2519537010092573 / 2 ^ 58) : Dbl) * fin (1718745236071017 / 2 ^ 58) = fin (240387833705459 / 2 ^ 62) := by
  rw [mul_fin]
  exact ofRat_eval_pos _ (-15) 7692410678574688 (by norm_num) (by norm_num) (by norm_num)
    (by norm_num) (by norm_num) (by norm_num) (by norm_num) (by norm_num)

theorem example_moon_anomaly_36 :
    (fin (2117303728743259 / 2 ^ 67) : Dbl) * fin (-8494295415568829 / 2 ^ 64) = fin (-1996736482427003 / 2 ^ 78) := by
  rw [mul_fin]
  exact ofRat_eval_neg _ (-28) (-7986945929708012) (by norm_num) (by norm_num) (by norm_num)
    (by norm_num) (by norm_num) (by norm_num) (by norm_num) (by norm_num)

theorem example_moon_anomaly_37 :
    (fin (1283949560323449 / 2 ^ 74) : Dbl) * fin (2623754712620055 / 2 ^ 66) = fin (374008458610697 / 2 ^ 87) := by
  rw [mul_fin]
  exact ofRat_eval_pos _ (-39) 5984135337771152 (by norm_num) (by norm_num) (by norm_num)
    (by norm_num) (by norm_num) (by norm_num) (by norm_num) (by norm_num)

theorem example_moon_anomaly_38 :
    (fin (4748602357310129 / 2 ^ 45) : Dbl) + fin (-2532299840790913 / 2 ^ 36) = fin (-5046050453623583 / 2 ^ 37) := by
  rw [add_fin]
  exact ofRat_eval_neg _ 15 (-5046050453623583) (by norm_num) (by norm_num) (by norm_num)
    (by norm_num) (by norm_num) (by norm_num) (by norm_num) (by norm_num)

theorem example_moon_anomaly_39 :
    (fin (-5046050453623583 / 2 ^ 37) : Dbl) + fin (240387833705459 / 2 ^ 62) = fin (-5046050446459467 / 2 ^ 37) := by
  rw [add_fin]
  exact ofRat_eval_neg _ 15 (-5046050446459467) (by norm_num) (by norm_num) (by norm_num)
    (by norm_num) (by norm_num) (by norm_num) (by norm_num) (by norm_num)

theorem example_moon_anomaly_40 :
    (fin (-5046050446459467 / 2 ^ 37) : Dbl) + fin (-1996736482427003 / 2 ^ 78) = fin (-5046050446460375 / 2 ^ 37) := by
  rw [add_fin]
  exact ofRat_eval_neg _ 15 (-5046050446460375) (by norm_num) (by norm_num) (by norm_num)
    (by norm_num) (by norm_num) (by norm_num) (by norm_num) (by norm_num)

theorem example_moon_anomaly_41 :
    (fin (-5046050446460375 / 2 ^ 37) : Dbl) - fin (374008458610697 / 2 ^ 87) = fin (-5046050446460375 / 2 ^ 37) := by
  rw [sub_fin]
  exact ofRat_eval_neg _ 15 (-5046050446460375) (by norm_num) (by norm_num) (by norm_num)
    (by norm_num) (by norm_num) (by norm_num) (by norm_num) (by norm_num)

theorem example_moon_anomaly_42 :
    Reduce (fin (-5046050446460375 / 2 ^ 37)) = fin (707925031465 / 2 ^ 37) := by
  have hf : fmodQ (-5046050446460375 / 2 ^ 37) 360 = -48770098218455 / 2 ^ 37 :=
    fmodQ_eval_neg (-101) (by norm_num) (by norm_num) (by norm_num) (by norm_num)
  exact Reduce_fin_of_neg_rem hf (by norm_num)
    (rnd_eval_pos _ 2 5799321857761280 (by norm_num) (by norm_num) (by norm_num)
    (by norm_num) (by norm_num) (by norm_num) (by norm_num))

theorem example_moon_anomaly_43 :
    (fin (1283949560323449 / 2 ^ 74) : Dbl) * fin (5247509425240111 / 2 ^ 67) = fin (5984135337771153 / 2 ^ 91) := by
  rw [mul_fin]
  exact ofRat_eval_pos _ (-39) 5984135337771153 (by norm_num) (by norm_num) (by norm_num)
    (by norm_num) (by norm_num) (by norm_num) (by norm_num) (by norm_num)

theorem example_moon_anomaly_44 :
    (fin (-5046050446460375 / 2 ^ 37) : Dbl) - fin (5984135337771153 / 2 ^ 91) = fin (-5046050446460375 / 2 ^ 37) := by
  rw [sub_fin]
  exact ofRat_eval_neg _ 15 (-5046050446460375) (by norm_num) (by norm_num) (by norm_num)
    (by norm_num) (by norm_num) (by norm_num) (by norm_num) (by norm_num)

theorem example_moon_anomaly_45 :
    (fin (2117303728743259 / 2 ^ 67) : Dbl) * fin (-2123573853892207 / 2 ^ 62) = fin (-1996736482427003 / 2 ^ 78) := by
  rw [mul_fin]
  exact ofRat_eval_neg _ (-28) (-7986945929708012) (by norm_num) (by norm_num) (by norm_num)
    (by norm_num) (by norm_num) (by norm_num) (by norm_num) (by norm_num)

theorem example_moon_anomaly_46 :
    (fin (2519537010092573 / 2 ^ 58) : Dbl) * fin (6874980944284069 / 2 ^ 60) = fin (7692410678574689 / 2 ^ 67) := by
  rw [mul_fin]
  exact ofRat_eval_pos _ (-15) 7692410678574689 (by norm_num) (by norm_num) (by norm_num)
    (by norm_num) (by norm_num) (by norm_num) (by norm_num) (by norm_num)

theorem example_moon_anomaly_47 :
    (fin (-5046050453623583 / 2 ^ 37) : Dbl) + fin (7692410678574689 / 2 ^ 67) = fin (-5046050446459467 / 2 ^ 37) := by
  rw [add_fin]
  exact ofRat_eval_neg _ 15 (-5046050446459467) (by norm_num) (by norm_num) (by norm_num)
    (by norm_num) (by norm_num) (by norm_num) (by norm_num) (by norm_num)

theorem moonMeanAnomaly_example (lm : Libm) (h : lm.PowWithinOneUlp) (s : MoonPosition) :
    Near (CalcMoonMeanAnomaly lm meeusCoeffs
        (CalcDynamicTime meeusCoeffs { s with julianEphemerisDay := 2448724.5 })).moonMeanAnomaly
      5.150833 0.000001 := by
  rw [CalcMoonMeanAnomaly_moonMeanAnomaly, dynamicalTime_example, meeus_moon_anomaly_coeff_zero,
    meeus_moon_anomaly_coeff_one, meeus_moon_anomaly_coeff_two, meeus_moon_anomaly_coeff_three,
    meeus_moon_anomaly_coeff_four, lit_134_9633964, lit_477198_8675055, lit_0_0087414, lit_one,
    lit_69699_0, lit_14712000_0, coeff_moon_anomaly_32, coeff_moon_anomaly_33]
  rcases example_pow_two lm h with h2 | h2
  · rcases example_pow_three lm h with h3 | h3
    · rcases example_pow_four lm h with h4 | h4
      · rw [h2, h3, h4, example_moon_anomaly_34, example_moon_anomaly_35,
          example_moon_anomaly_36, example_moon_anomaly_37, example_moon_anomaly_38,
          example_moon_anomaly_39, example_moon_anomaly_40, example_moon_anomaly_41,
          example_moon_anomaly_42]
        exact ⟨_, rfl, by norm_num [abs_lt]⟩
      · rw [h2, h3, h4, example_moon_anomaly_34, example_moon_anomaly_35,
          example_moon_anomaly_36, example_moon_anomaly_43, example_moon_anomaly_38,
          example_moon_anomaly_39, example_moon_anomaly_40, example_moon_anomaly_44,
          example_moon_anomaly_42]
        exact ⟨_, rfl, by norm_num [abs_lt]⟩
    · rcases example_pow_four lm h with h4 | h4
      · rw [h2, h3, h4, example_moon_anomaly_34, example_moon_anomaly_35,
          example_moon_anomaly_45, example_moon_anomaly_37, example_moon_anomaly_38,
          example_moon_anomaly_39, example_moon_anomaly_40, example_moon_anomaly_41,
          example_moon_anomaly_42]
        exact ⟨_, rfl, by norm_num [abs_lt]⟩
      · rw [h2, h3, h4, example_moon_anomaly_34, example_moon_anomaly_35,
          example_moon_anomaly_45, example_moon_anomaly_43, example_moon_anomaly_38,
          example_moon_anomaly_39, example_moon_anomaly_40, example_moon_anomaly_44,
          example_moon_anomaly_42]
        exact ⟨_, rfl, by norm_num [abs_lt]⟩
  · rcases example_pow_three lm h with h3 | h3
    · rcases example_pow_four lm h with h4 | h4
      · rw [h2, h3, h4, example_moon_anomaly_34, example_moon_anomaly_46,
          example_moon_anomaly_36, example_moon_anomaly_37, example_moon_anomaly_38,
          example_moon_anomaly_47, example_moon_anomaly_40, example_moon_anomaly_41,
          example_moon_anomaly_42]
        exact ⟨_, rfl, by norm_num [abs_lt]⟩
      · rw [h2, h3, h4, example_moon_anomaly_34, example_moon_anomaly_46,
          example_moon_anomaly_36, example_moon_anomaly_43, example_moon_anomaly_38,
          example_moon_anomaly_47, example_moon_anomaly_40, example_moon_anomaly_44,
          example_moon_anomaly_42]
        exact ⟨_, rfl, by norm_num [abs_lt]⟩
    · rcases example_pow_four lm h with h4 | h4
      · rw [h2, h3, h4, example_moon_anomaly_34, example_moon_anomaly_46,
          example_moon_anomaly_45, example_moon_anomaly_37, example_moon_anomaly_38,
          example_moon_anomaly_47, example_moon_anomaly_40, example_moon_anomaly_41,
          example_moon_anomaly_42]
        exact ⟨_, rfl, by norm_num [abs_lt]⟩
      · rw [h2, h3, h4, example_moon_anomaly_34, example_moon_anomaly_46,
          example_moon_anomaly_45, example_moon_anomaly_43, example_moon_anomaly_38,
          example_moon_anomaly_47, example_moon_anomaly_40, example_moon_anomaly_44,
          example_moon_anomaly_42]
        exact ⟨_, rfl, by norm_num [abs_lt]⟩

theorem meeus_latitude_arg_coeff_zero :
    meeusCoeffs.MOON_ARG_OF_LATITUDE_COEFFS 0 = 93.2720950 := by
  rw [meeusCoeffs]
  dsimp only
  exact vec5_zero _ _ _ _ _

theorem lit_93_2720950 :
    (93.2720950 : Dbl) = fin (6563440191969773 / 2 ^ 46) := by
  show ofRat (OfScientific.ofScientific 932720950 true 7) = _
  have h : (OfScientific.ofScientific 932720950 true 7 : ℚ) = 18654419 / 200000 := by norm_num
  rw [h]
  exact ofRat_eval_pos _ 6 6563440191969773 (by norm_num) (by norm_num) (by norm_num)
    (by norm_num) (by norm_num) (by norm_num) (by norm_num) (by norm_num)

theorem meeus_latitude_arg_coeff_one :
    meeusCoeffs.MOON_ARG_OF_LATITUDE_COEFFS 1 = 483202.0175233 := by
  rw [meeusCoeffs]
  dsimp only
  exact vec5_one _ _ _ _ _

theorem lit_483202_0175233 :
    (483202.0175233 : Dbl) = fin (4150673725247585 / 2 ^ 33) := by
  show ofRat (OfScientific.ofScientific 4832020175233 true 7) = _
  have h : (OfScientific.ofScientific 4832020175233 true 7 : ℚ) = 4832020175233 / 10000000 := by norm_num
  rw [h]
  exact ofRat_eval_pos _ 18 8301347450495170 (by norm_num) (by norm_num) (by norm_num)
    (by norm_num) (by norm_num) (by norm_num) (by norm_num) (by norm_num)

theorem meeus_latitude_arg_coeff_two :
    meeusCoeffs.MOON_ARG_OF_LATITUDE_COEFFS 2 = 0.0036539 := by
  rw [meeusCoeffs]
  dsimp only
  exact vec5_two _ _ _ _ _

theorem lit_0_0036539 :
    (0.0036539 : Dbl) = fin (2106329942841479 / 2 ^ 59) := by
  show ofRat (OfScientific.ofScientific 36539 true 7) = _
  have h : (OfScientific.ofScientific 36539 true 7 : ℚ) = 36539 / 10000000 := by norm_num
  rw [h]
  exact ofRat_eval_pos _ (-9) 8425319771365916 (by norm_num) (by norm_num) (by norm_num)
    (by norm_num) (by norm_num) (by norm_num) (by norm_num) (by norm_num)

theorem meeus_latitude_arg_coeff_three :
    meeusCoeffs.MOON_ARG_OF_LATITUDE_COEFFS 3 = 1.0 / 3526000.0 := by
  rw [meeusCoeffs]
  dsimp only
  exact vec5_three _ _ _ _ _

theorem lit_3526000_0 :
    (3526000.0 : Dbl) = fin (3526000) := by
  show ofRat (OfScientific.ofScientific 35260000 true 1) = _
  have h : (OfScientific.ofScientific 35260000 true 1 : ℚ) = 3526000 := by norm_num
  rw [h]
  exact ofRat_eval_pos _ 21 7572027342848000 (by norm_num) (by norm_num) (by norm_num)
    (by norm_num) (by norm_num) (by norm_num) (by norm_num) (by norm_num)

theorem coeff_latitude_arg_48 :
    (fin (1) : Dbl) / fin (3526000) = fin (5357193968088083 / 2 ^ 74) := by
  rw [div_fin _ (by norm_num)]
  exact ofRat_eval_pos _ (-22) 5357193968088083 (by norm_num) (by norm_num) (by norm_num)
    (by norm_num) (by norm_num) (by norm_num) (by norm_num) (by norm_num)

theorem meeus_latitude_arg_coeff_four :
    meeusCoeffs.MOON_ARG_OF_LATITUDE_COEFFS 4 = 1.0 / 863310000.0 := by
  rw [meeusCoeffs]
  dsimp only
  exact vec5_four _ _ _ _ _

theorem lit_863310000_0 :
    (863310000.0 : Dbl) = fin (863310000) := by
  show ofRat (OfScientific.ofScientific 8633100000 true 1) = _
  have h : (OfScientific.ofScientific 8633100000 true 1 : ℚ) = 863310000 := by norm_num
  rw [h]
  exact ofRat_eval_pos _ 29 7241969172480000 (by norm_num) (by norm_num) (by norm_num)
    (by norm_num) (by norm_num) (by norm_num) (by norm_num) (by norm_num)

theorem coeff_latitude_arg_49 :
    (fin (1) : Dbl) / fin (863310000) = fin (5601352096533709 / 2 ^ 82) := by
  rw [div_fin _ (by norm_num)]
  exact ofRat_eval_pos _ (-30) 5601352096533709 (by norm_num) (by norm_num) (by norm_num)
    (by norm_num) (by norm_num) (by norm_num) (by norm_num) (by norm_num)

theorem example_latitude_arg_50 :
    (fin (4150673725247585 / 2 ^ 33) : Dbl) * fin (-5564365338370315 / 2 ^ 56) = fin (-1282078055256489 / 2 ^ 35) := by
  rw [mul_fin]
  exact ofRat_eval_neg _ 15 (-5128312221025956) (by norm_num) (by norm_num) (by norm_num)
    (by norm_num) (by norm_num) (by norm_num) (by norm_num) (by norm_num)

theorem example_latitude_arg_51 :
    (fin (2106329942841479 / 2 ^ 59) : Dbl) * fin (1718745236071017 / 2 ^ 58) = fin (3215423087656903 / 2 ^ 67) := by
  rw [mul_fin]
  exact ofRat_eval_pos _ (-16) 6430846175313806 (by norm_num) (by norm_num) (by norm_num)
    (by norm_num) (by norm_num) (by norm_num) (by norm_num) (by norm_num)

theorem example_latitude_arg_52 :
    (fin (5357193968088083 / 2 ^ 74) : Dbl) * fin (-8494295415568829 / 2 ^ 64) = fin (-2526067586408253 / 2 ^ 84) := by
  rw [mul_fin]
  exact ofRat_eval_neg _ (-33) (-5052135172816506) (by norm_num) (by norm_num) (by norm_num)
    (by norm_num) (by norm_num) (by norm_num) (by norm_num) (by norm_num)

theorem example_latitude_arg_53 :
    (fin (5601352096533709 / 2 ^ 82) : Dbl) * fin (2623754712620055 / 2 ^ 66) = fin (1631647479385883 / 2 ^ 95) := by
  rw [mul_fin]
  exact ofRat_eval_pos _ (-45) 6526589917543532 (by norm_num) (by norm_num) (by norm_num)
    (by norm_num) (by norm_num) (by norm_num) (by norm_num) (by norm_num)

theorem example_latitude_arg_54 :
    (fin (6563440191969773 / 2 ^ 46) : Dbl) + fin (-1282078055256489 / 2 ^ 35) = fin (-5115493001901015 / 2 ^ 37) := by
  rw [add_fin]
  exact ofRat_eval_neg _ 15 (-5115493001901015) (by norm_num) (by norm_num) (by norm_num)
    (by norm_num) (by norm_num) (by norm_num) (by norm_num) (by norm_num)

theorem example_latitude_arg_55 :
    (fin (-5115493001901015 / 2 ^ 37) : Dbl) - fin (3215423087656903 / 2 ^ 67) = fin (-5115493004895611 / 2 ^ 37) := by
  rw [sub_fin]
  exact ofRat_eval_neg _ 15 (-5115493004895611) (by norm_num) (by norm_num) (by norm_num)
    (by norm_num) (by norm_num) (by norm_num) (by norm_num) (by norm_num)

theorem example_latitude_arg_56 :
    (fin (-5115493004895611 / 2 ^ 37) : Dbl) - fin (-2526067586408253 / 2 ^ 84) = fin (-5115493004895593 / 2 ^ 37) := by
  rw [sub_fin]
  exact ofRat_eval_neg _ 15 (-5115493004895593) (by norm_num) (by norm_num) (by norm_num)
    (by norm_num) (by norm_num) (by norm_num) (by norm_num) (by norm_num)

theorem example_latitude_arg_57 :
    (fin (-5115493004895593 / 2 ^ 37) : Dbl) + fin (1631647479385883 / 2 ^ 95) = fin (-5115493004895593 / 2 ^ 37) := by
  rw [add_fin]
  exact ofRat_eval_neg _ 15 (-5115493004895593) (by norm_num) (by norm_num) (by norm_num)
    (by norm_num) (by norm_num) (by norm_num) (by norm_num) (by norm_num)

theorem example_latitude_arg_58 :
    Reduce (fin (-5115493004895593 / 2 ^ 37)) = fin (30221413096087 / 2 ^ 37) := by
  have hf : fmodQ (-5115493004895593 / 2 ^ 37) 360 = -19256610153833 / 2 ^ 37 :=
    fmodQ_eval_neg (-103) (by norm_num) (by norm_num) (by norm_num) (by norm_num)
  exact Reduce_fin_of_neg_rem hf (by norm_num)
    (rnd_eval_pos _ 7 7736681752598272 (by norm_num) (by norm_num) (by norm_num)
    (by norm_num) (by norm_num) (by norm_num) (by norm_num))

theorem example_latitude_arg_59 :
    (fin (5601352096533709 / 2 ^ 82) : Dbl) * fin (5247509425240111 / 2 ^ 67) = fin (3263294958771767 / 2 ^ 96) := by
  rw [mul_fin]
  exact ofRat_eval_pos _ (-45) 6526589917543534 (by norm_num) (by norm_num) (by norm_num)
    (by norm_num) (by norm_num) (by norm_num) (by norm_num) (by norm_num)

theorem example_latitude_arg_60 :
    (fin (-5115493004895593 / 2 ^ 37) : Dbl) + fin (3263294958771767 / 2 ^ 96) = fin (-5115493004895593 / 2 ^ 37) := by
  rw [add_fin]
  exact ofRat_eval_neg _ 15 (-5115493004895593) (by norm_num) (by norm_num) (by norm_num)
    (by norm_num) (by norm_num) (by norm_num) (by norm_num) (by norm_num)

theorem example_latitude_arg_61 :
    (fin (5357193968088083 / 2 ^ 74) : Dbl) * fin (-2123573853892207 / 2 ^ 62) = fin (-2526067586408253 / 2 ^ 84) := by
  rw [mul_fin]
  exact ofRat_eval_neg _ (-33) (-5052135172816506) (by norm_num) (by norm_num) (by norm_num)
    (by norm_num) (by norm_num) (by norm_num) (by norm_num) (by norm_num)

theorem example_latitude_arg_62 :
    (fin (2106329942841479 / 2 ^ 59) : Dbl) * fin (6874980944284069 / 2 ^ 60) = fin (6430846175313807 / 2 ^ 68) := by
  rw [mul_fin]
  exact ofRat_eval_pos _ (-16) 6430846175313807 (by norm_num) (by norm_num) (by norm_num)
    (by norm_num) (by norm_num) (by norm_num) (by norm_num) (by norm_num)

theorem example_latitude_arg_63 :
    (fin (-5115493001901015 / 2 ^ 37) : Dbl) - fin (6430846175313807 / 2 ^ 68) = fin (-5115493004895611 / 2 ^ 37) := by
  rw [sub_fin]
  exact ofRat_eval_neg _ 15 (-5115493004895611) (by norm_num) (by norm_num) (by norm_num)
    (by norm_num) (by norm_num) (by norm_num) (by norm_num) (by norm_num)

theorem moonArgumentOfLatitude_example (lm : Libm) (h : lm.PowWithinOneUlp) (s : MoonPosition) :
    Near (CalcMoonArgumentOfLatitude lm meeusCoeffs
        (CalcDynamicTime meeusCoeffs { s with julianEphemerisDay := 2448724.5 })).moonArgumentOfLatitude
      219.889721 0.000001 := by
  rw [CalcMoonArgumentOfLatitude_moonArgumentOfLatitude, dynamicalTime_example,
    meeus_latitude_arg_coeff_zero, meeus_latitude_arg_coeff_one, meeus_latitude_arg_coeff_two,
    meeus_latitude_arg_coeff_three, meeus_latitude_arg_coeff_four, lit_93_2720950,
    lit_483202_0175233, lit_0_0036539, lit_one, lit_3526000_0, lit_863310000_0,
    coeff_latitude_arg_48, coeff_latitude_arg_49]
  rcases example_pow_two lm h with h2 | h2
  · rcases example_pow_three lm h with h3 | h3
    · rcases example_pow_four lm h with h4 | h4
      · rw [h2, h3, h4, example_latitude_arg_50, example_latitude_arg_51,
          example_latitude_arg_52, example_latitude_arg_53, example_latitude_arg_54,
          example_latitude_arg_55, example_latitude_arg_56, example_latitude_arg_57,
          example_latitude_arg_58]
        exact ⟨_, rfl, by norm_num [abs_lt]⟩
      · rw [h2, h3, h4, example_latitude_arg_50, example_latitude_arg_51,
          example_latitude_arg_52, example_latitude_arg_59, example_latitude_arg_54,
          example_latitude_arg_55, example_latitude_arg_56, example_latitude_arg_60,
          example_latitude_arg_58]
        exact ⟨_, rfl, by norm_num [abs_lt]⟩
    · rcases example_pow_four lm h with h4 | h4
      · rw [h2, h3, h4, example_latitude_arg_50, example_latitude_arg_51,
          example_latitude_arg_61, example_latitude_arg_53, example_latitude_arg_54,
          example_latitude_arg_55, example_latitude_arg_56, example_latitude_arg_57,
          example_latitude_arg_58]
        exact ⟨_, rfl, by norm_num [abs_lt]⟩
      · rw [h2, h3, h4, example_latitude_arg_50, example_latitude_arg_51,
          example_latitude_arg_61, example_latitude_arg_59, example_latitude_arg_54,
          example_latitude_arg_55, example_latitude_arg_56, example_latitude_arg_60,
          example_latitude_arg_58]
        exact ⟨_, rfl, by norm_num [abs_lt]⟩
  · rcases example_pow_three lm h with h3 | h3
    · rcases example_pow_four lm h with h4 | h4
      · rw [h2, h3, h4, example_latitude_arg_50, example_latitude_arg_62,
          example_latitude_arg_52, example_latitude_arg_53, example_latitude_arg_54,
          example_latitude_arg_63, example_latitude_arg_56, example_latitude_arg_57,
          example_latitude_arg_58]
        exact ⟨_, rfl, by norm_num [abs_lt]⟩
      · rw [h2, h3, h4, example_latitude_arg_50, example_latitude_arg_62,
          example_latitude_arg_52, example_latitude_arg_59, example_latitude_arg_54,
          example_latitude_arg_63, example_latitude_arg_56, example_latitude_arg_60,
          example_latitude_arg_58]
        exact ⟨_, rfl, by norm_num [abs_lt]⟩
    · rcases example_pow_four lm h with h4 | h4
      · rw [h2, h3, h4, example_latitude_arg_50, example_latitude_arg_62,
          example_latitude_arg_61, example_latitude_arg_53, example_latitude_arg_54,
          example_latitude_arg_63, example_latitude_arg_56, example_latitude_arg_57,
          example_latitude_arg_58]
        exact ⟨_, rfl, by norm_num [abs_lt]⟩
      · rw [h2, h3, h4, example_latitude_arg_50, example_latitude_arg_62,
          example_latitude_arg_61, example_latitude_arg_59, example_latitude_arg_54,
          example_latitude_arg_63, example_latitude_arg_56, example_latitude_arg_60,
          example_latitude_arg_58]
        exact ⟨_, rfl, by norm_num [abs_lt]⟩

theorem meeus_venus_coeff_zero :
    meeusCoeffs.ACTION_OF_VENUS_COEFFS 0 = 119.75 := by
  rw [meeusCoeffs]
  dsimp only
  exact vec2_zero _ _

theorem lit_119_75 :
    (119.75 : Dbl) = fin (479 / 2 ^ 2) := by
  show ofRat (OfScientific.ofScientific 11975 true 2) = _
  have h : (OfScientific.ofScientific 11975 true 2 : ℚ) = 479 / 4 := by norm_num
  rw [h]
  exact ofRat_eval_pos _ 6 8426657115275264 (by norm_num) (by norm_num) (by norm_num)
    (by norm_num) (by norm_num) (by norm_num) (by norm_num) (by norm_num)

theorem meeus_venus_coeff_one :
    meeusCoeffs.ACTION_OF_VENUS_COEFFS 1 = 131.849 := by
  rw [meeusCoeffs]
  dsimp only
  exact vec2_one _ _

theorem lit_131_849 :
    (131.849 : Dbl) = fin (2319512137770205 / 2 ^ 44) := by
  show ofRat (OfScientific.ofScientific 131849 true 3) = _
  have h : (OfScientific.ofScientific 131849 true 3 : ℚ) = 131849 / 1000 := by norm_num
  rw [h]
  exact ofRat_eval_pos _ 7 4639024275540410 (by norm_num) (by norm_num) (by norm_num)
    (by norm_num) (by norm_num) (by norm_num) (by norm_num) (by norm_num)

theorem example_venus_64 :
    (fin (2319512137770205 / 2 ^ 44) : Dbl) * fin (-5564365338370315 / 2 ^ 56) = fin (-2865843771479639 / 2 ^ 48) := by
  rw [mul_fin]
  exact ofRat_eval_neg _ 3 (-5731687542959278) (by norm_num) (by norm_num) (by norm_num)
    (by norm_num) (by norm_num) (by norm_num) (by norm_num) (by norm_num)

theorem example_venus_65 :
    (fin (479 / 2 ^ 2) : Dbl) + fin (-2865843771479639 / 2 ^ 48) = fin (3855098086202677 / 2 ^ 45) := by
  rw [add_fin]
  exact ofRat_eval_pos _ 6 7710196172405354 (by norm_num) (by norm_num) (by norm_num)
    (by norm_num) (by norm_num) (by norm_num) (by norm_num) (by norm_num)

theorem example_venus_66 :
    Reduce (fin (3855098086202677 / 2 ^ 45)) = fin (3855098086202677 / 2 ^ 45) := by
  exact Reduce_of_mem (by norm_num) (by norm_num)

theorem actionOfVenus_example (s : MoonPosition) :
    Near (CalcActionOfVenus meeusCoeffs
        (CalcDynamicTime meeusCoeffs { s with julianEphemerisDay := 2448724.5 })).actionOfVenus
      109.57 0.01 := by
  rw [CalcActionOfVenus_actionOfVenus, dynamicalTime_example, meeus_venus_coeff_zero,
    meeus_venus_coeff_one, lit_119_75, lit_131_849]
  rw [example_venus_64, example_venus_65, example_venus_66]
  exact ⟨_, rfl, by norm_num [abs_lt]⟩

theorem meeus_jupiter_coeff_zero :
    meeusCoeffs.ACTION_OF_JUPITER_COEFFS 0 = 53.09 := by
  rw [meeusCoeffs]
  dsimp only
  exact vec2_zero _ _

theorem lit_53_09 :
    (53.09 : Dbl) = fin (1867938314196091 / 2 ^ 45) := by
  show ofRat (OfScientific.ofScientific 5309 true 2) = _
  have h : (OfScientific.ofScientific 5309 true 2 : ℚ) = 5309 / 100 := by norm_num
  rw [h]
  exact ofRat_eval_pos _ 5 7471753256784364 (by norm_num) (by norm_num) (by norm_num)
    (by norm_num) (by norm_num) (by norm_num) (by norm_num) (by norm_num)

theorem meeus_jupiter_coeff_one :
    meeusCoeffs.ACTION_OF_JUPITER_COEFFS 1 = 479264.290 := by
  rw [meeusCoeffs]
  dsimp only
  exact vec2_one _ _

theorem lit_479264_290 :
    (479264.290 : Dbl) = fin (8233697806762639 / 2 ^ 34) := by
  show ofRat (OfScientific.ofScientific 479264290 true 3) = _
  have h : (OfScientific.ofScientific 479264290 true 3 : ℚ) = 47926429 / 100 := by norm_num
  rw [h]
  exact ofRat_eval_pos _ 18 8233697806762639 (by norm_num) (by norm_num) (by norm_num)
    (by norm_num) (by norm_num) (by norm_num) (by norm_num) (by norm_num)

theorem example_jupiter_67 :
    (fin (8233697806762639 / 2 ^ 34) : Dbl) * fin (-5564365338370315 / 2 ^ 56) = fin (-5086520391835515 / 2 ^ 37) := by
  rw [mul_fin]
  exact ofRat_eval_neg _ 15 (-5086520391835515) (by norm_num) (by norm_num) (by norm_num)
    (by norm_num) (by norm_num) (by norm_num) (by norm_num) (by norm_num)

theorem example_jupiter_68 :
    (fin (1867938314196091 / 2 ^ 45) : Dbl) + fin (-5086520391835515 / 2 ^ 37) = fin (-5079223757795687 / 2 ^ 37) := by
  rw [add_fin]
  exact ofRat_eval_neg _ 15 (-5079223757795687) (by norm_num) (by norm_num) (by norm_num)
    (by norm_num) (by norm_num) (by norm_num) (by norm_num) (by norm_num)

theorem example_jupiter_69 :
    Reduce (fin (-5079223757795687 / 2 ^ 37)) = fin (17012636946073 / 2 ^ 37) := by
  have hf : fmodQ (-5079223757795687 / 2 ^ 37) 360 = -32465386303847 / 2 ^ 37 :=
    fmodQ_eval_neg (-102) (by norm_num) (by norm_num) (by norm_num) (by norm_num)
  exact Reduce_fin_of_neg_rem hf (by norm_num)
    (rnd_eval_pos _ 6 8710470116389376 (by norm_num) (by norm_num) (by norm_num)
    (by norm_num) (by norm_num) (by norm_num) (by norm_num))

theorem actionOfJupiter_example (s : MoonPosition) :
    Near (CalcActionOfJupiter meeusCoeffs
        (CalcDynamicTime meeusCoeffs { s with julianEphemerisDay := 2448724.5 })).actionOfJupiter
      123.78 0.01 := by
  rw [CalcActionOfJupiter_actionOfJupiter, dynamicalTime_example, meeus_jupiter_coeff_zero,
    meeus_jupiter_coeff_one, lit_53_09, lit_479264_290]
  rw [example_jupiter_67, example_jupiter_68, example_jupiter_69]
  exact ⟨_, rfl, by norm_num [abs_lt]⟩

theorem meeus_something_coeff_zero :
    meeusCoeffs.ACTION_OF_SOMETHING_COEFFS 0 = 313.45 := by
  rw [meeusCoeffs]
  dsimp only
  exact vec2_zero _ _

theorem lit_313_45 :
    (313.45 : Dbl) = fin (5514270715622195 / 2 ^ 44) := by
  show ofRat (OfScientific.ofScientific 31345 true 2) = _
  have h : (OfScientific.ofScientific 31345 true 2 : ℚ) = 6269 / 20 := by norm_num
  rw [h]
  exact ofRat_eval_pos _ 8 5514270715622195 (by norm_num) (by norm_num) (by norm_num)
    (by norm_num) (by norm_num) (by norm_num) (by norm_num) (by norm_num)

theorem meeus_something_coeff_one :
    meeusCoeffs.ACTION_OF_SOMETHING_COEFFS 1 = 481266.484 := by
  rw [meeusCoeffs]
  dsimp only
  exact vec2_one _ _

theorem lit_481266_484 :
    (481266.484 : Dbl) = fin (8268095237763629 / 2 ^ 34) := by
  show ofRat (OfScientific.ofScientific 481266484 true 3) = _
  have h : (OfScientific.ofScientific 481266484 true 3 : ℚ) = 120316621 / 250 := by norm_num
  rw [h]
  exact ofRat_eval_pos _ 18 8268095237763629 (by norm_num) (by norm_num) (by norm_num)
    (by norm_num) (by norm_num) (by norm_num) (by norm_num) (by norm_num)

theorem example_something_70 :
    (fin (8268095237763629 / 2 ^ 34) : Dbl) * fin (-5564365338370315 / 2 ^ 56) = fin (-5107770046403793 / 2 ^ 37) := by
  rw [mul_fin]
  exact ofRat_eval_neg _ 15 (-5107770046403793) (by norm_num) (by norm_num) (by norm_num)
    (by norm_num) (by norm_num) (by norm_num) (by norm_num) (by norm_num)

theorem example_something_71 :
    (fin (5514270715622195 / 2 ^ 44) : Dbl) + fin (-5107770046403793 / 2 ^ 37) = fin (-5064689806437995 / 2 ^ 37) := by
  rw [add_fin]
  exact ofRat_eval_neg _ 15 (-5064689806437995) (by norm_num) (by norm_num) (by norm_num)
    (by norm_num) (by norm_num) (by norm_num) (by norm_num) (by norm_num)

theorem example_something_72 :
    Reduce (fin (-5064689806437995 / 2 ^ 37)) = fin (31546588303765 / 2 ^ 37) := by
  have hf : fmodQ (-5064689806437995 / 2 ^ 37) 360 = -17931434946155 / 2 ^ 37 :=
    fmodQ_eval_neg (-102) (by norm_num) (by norm_num) (by norm_num) (by norm_num)
  exact Reduce_fin_of_neg_rem hf (by norm_num)
    (rnd_eval_pos _ 7 8075926605763840 (by norm_num) (by norm_num) (by norm_num)
    (by norm_num) (by norm_num) (by norm_num) (by norm_num))

theorem actionOfSomething_example (s : MoonPosition) :
    Near (CalcActionOfSomething meeusCoeffs
        (CalcDynamicTime meeusCoeffs { s with julianEphemerisDay := 2448724.5 })).actionOfSomething
      229.53 0.01 := by
  rw [CalcActionOfSomething_actionOfSomething, dynamicalTime_example, meeus_something_coeff_zero,
    meeus_something_coeff_one, lit_313_45, lit_481266_484]
  rw [example_something_70, example_something_71, example_something_72]
  exact ⟨_, rfl, by norm_num [abs_lt]⟩

theorem meeus_eccentricity_coeff_zero :
    meeusCoeffs.EARTH_ECCENTRICITY_COEFFS 0 = 1.0 := by
  rw [meeusCoeffs]
  dsimp only
  exact vec3_zero _ _ _

theorem meeus_eccentricity_coeff_one :
    meeusCoeffs.EARTH_ECCENTRICITY_COEFFS 1 = 0.002516 := by
  rw [meeusCoeffs]
  dsimp only
  exact vec3_one _ _ _

theorem lit_0_002516 :
    (0.002516 : Dbl) = fin (2900750505590827 / 2 ^ 60) := by
  show ofRat (OfScientific.ofScientific 2516 true 6) = _
  have h : (OfScientific.ofScientific 2516 true 6 : ℚ) = 629 / 250000 := by norm_num
  rw [h]
  exact ofRat_eval_pos _ (-9) 5801501011181654 (by norm_num) (by norm_num) (by norm_num)
    (by norm_num) (by norm_num) (by norm_num) (by norm_num) (by norm_num)

theorem meeus_eccentricity_coeff_two :
    meeusCoeffs.EARTH_ECCENTRICITY_COEFFS 2 = 0.0000074 := by
  rw [meeusCoeffs]
  dsimp only
  exact vec3_two _ _ _

theorem lit_0_0000074 :
    (0.0000074 : Dbl) = fin (2184094498327211 / 2 ^ 68) := by
  show ofRat (OfScientific.ofScientific 74 true 7) = _
  have h : (OfScientific.ofScientific 74 true 7 : ℚ) = 37 / 5000000 := by norm_num
  rw [h]
  exact ofRat_eval_pos _ (-18) 8736377993308844 (by norm_num) (by norm_num) (by norm_num)
    (by norm_num) (by norm_num) (by norm_num) (by norm_num) (by norm_num)

theorem example_eccentricity_73 :
    (fin (2900750505590827 / 2 ^ 60) : Dbl) * fin (-5564365338370315 / 2 ^ 56) = fin (-7167970913965933 / 2 ^ 65) := by
  rw [mul_fin]
  exact ofRat_eval_neg _ (-13) (-7167970913965933) (by norm_num) (by norm_num) (by norm_num)
    (by norm_num) (by norm_num) (by norm_num) (by norm_num) (by norm_num)

theorem example_eccentricity_74 :
    (fin (2184094498327211 / 2 ^ 68) : Dbl) * fin (1718745236071017 / 2 ^ 58) = fin (3334134758618045 / 2 ^ 76) := by
  rw [mul_fin]
  exact ofRat_eval_pos _ (-25) 6668269517236090 (by norm_num) (by norm_num) (by norm_num)
    (by norm_num) (by norm_num) (by norm_num) (by norm_num) (by norm_num)

theorem example_eccentricity_75 :
    (fin (1) : Dbl) - fin (-7167970913965933 / 2 ^ 65) = fin (4504474623819955 / 2 ^ 52) := by
  rw [sub_fin]
  exact ofRat_eval_pos _ 0 4504474623819955 (by norm_num) (by norm_num) (by norm_num)
    (by norm_num) (by norm_num) (by norm_num) (by norm_num) (by norm_num)

theorem example_eccentricity_76 :
    (fin (4504474623819955 / 2 ^ 52) : Dbl) - fin (3334134758618045 / 2 ^ 76) = fin (4504474425090037 / 2 ^ 52) := by
  rw [sub_fin]
  exact ofRat_eval_pos _ 0 4504474425090037 (by norm_num) (by norm_num) (by norm_num)
    (by norm_num) (by norm_num) (by norm_num) (by norm_num) (by norm_num)

theorem example_eccentricity_77 :
    (fin (2184094498327211 / 2 ^ 68) : Dbl) * fin (6874980944284069 / 2 ^ 60) = fin (6668269517236091 / 2 ^ 77) := by
  rw [mul_fin]
  exact ofRat_eval_pos _ (-25) 6668269517236091 (by norm_num) (by norm_num) (by norm_num)
    (by norm_num) (by norm_num) (by norm_num) (by norm_num) (by norm_num)

theorem example_eccentricity_78 :
    (fin (4504474623819955 / 2 ^ 52) : Dbl) - fin (6668269517236091 / 2 ^ 77) = fin (4504474425090037 / 2 ^ 52) := by
  rw [sub_fin]
  exact ofRat_eval_pos _ 0 4504474425090037 (by norm_num) (by norm_num) (by norm_num)
    (by norm_num) (by norm_num) (by norm_num) (by norm_num) (by norm_num)

theorem earthEccentricity_example (lm : Libm) (h : lm.PowWithinOneUlp) (s : MoonPosition) :
    Near (CalcEarthEccentricity lm meeusCoeffs
        (CalcDynamicTime meeusCoeffs { s with julianEphemerisDay := 2448724.5 })).earthEccentricity
      1.000194 0.000001 := by
  rw [CalcEarthEccentricity_earthEccentricity, dynamicalTime_example,
    meeus_eccentricity_coeff_zero, meeus_eccentricity_coeff_one, meeus_eccentricity_coeff_two,
    lit_one, lit_0_002516, lit_0_0000074]
  rcases example_pow_two lm h with h2 | h2
  · rw [h2, example_eccentricity_73, example_eccentricity_74, example_eccentricity_75,
      example_eccentricity_76]
    exact ⟨_, rfl, by norm_num [abs_lt]⟩
  · rw [h2, example_eccentricity_73, example_eccentricity_77, example_eccentricity_75,
      example_eccentricity_78]
    exact ⟨_, rfl, by norm_num [abs_lt]⟩

/-- C13: `CalcDynamicTime` sets `dynamicalTime` to
`(julianEphemerisDay - DYNAMIC_TIME_COEFFS[0]) / DYNAMIC_TIME_COEFFS[1]`, a `double`
subtraction and division, for every coefficient array and every state; with the epoch
constant 2451545.0 and the century length 36525.0 the result at
`julianEphemerisDay = 2448724.5` is finite and within 1e-6 of -0.0772211. -/
theorem CalcDynamicTime_formula_and_example (cf : Coeffs) (s : MoonPosition) :
    (CalcDynamicTime cf s).dynamicalTime =
        (s.julianEphemerisDay - cf.DYNAMIC_TIME_COEFFS 0) / cf.DYNAMIC_TIME_COEFFS 1 ∧
      Near (CalcDynamicTime meeusCoeffs { s with julianEphemerisDay := 2448724.5 }).dynamicalTime
        (-0.0772211) 0.000001 :=
  ⟨rfl, _, dynamicalTime_example s, by norm_num [abs_lt]⟩

/-- C14: at `julianEphemerisDay = 2448724.5`, after `CalcDynamicTime`, each function of
a fundamental argument (its polynomial followed by `Reduce`) and
`CalcEarthEccentricity` give a finite value: `moonMeanElongation` within 0.001 of
113.842, `sunMeanAnomaly` within 1e-6 of 97.643514, `moonMeanAnomaly` within 1e-6 of
5.150833, `moonArgumentOfLatitude` within 1e-6 of 219.889721, `actionOfVenus` within
0.01 of 109.57, `actionOfJupiter` within 0.01 of 123.78, `actionOfSomething` within
0.01 of 229.53 and `earthEccentricity` within 1e-6 of 1.000194; this for every prior
state and every library whose `pow` is within one unit in the last place of the exact
power (either neighbouring `double` of the second, third and fourth power of
`dynamicalTime` is followed through the sums). -/
theorem fundamental_arguments_example (lm : Libm) (h : lm.PowWithinOneUlp)
    (s : MoonPosition) :
    Near (CalcMoonMeanElongation lm meeusCoeffs
        (CalcDynamicTime meeusCoeffs { s with julianEphemerisDay := 2448724.5 })).moonMeanElongation
        113.842 0.001 ∧
      Near (CalcSunMeanAnomaly lm meeusCoeffs
        (CalcDynamicTime meeusCoeffs { s with julianEphemerisDay := 2448724.5 })).sunMeanAnomaly
        97.643514 0.000001 ∧
      Near (CalcMoonMeanAnomaly lm meeusCoeffs
        (CalcDynamicTime meeusCoeffs { s with julianEphemerisDay := 2448724.5 })).moonMeanAnomaly
        5.150833 0.000001 ∧
      Near (CalcMoonArgumentOfLatitude lm meeusCoeffs
        (CalcDynamicTime meeusCoeffs { s with julianEphemerisDay := 2448724.5 })).moonArgumentOfLatitude
        219.889721 0.000001 ∧
      Near (CalcActionOfVenus meeusCoeffs
        (CalcDynamicTime meeusCoeffs { s with julianEphemerisDay := 2448724.5 })).actionOfVenus
        109.57 0.01 ∧
      Near (CalcActionOfJupiter meeusCoeffs
        (CalcDynamicTime meeusCoeffs { s with julianEphemerisDay := 2448724.5 })).actionOfJupiter
        123.78 0.01 ∧
      Near (CalcActionOfSomething meeusCoeffs
        (CalcDynamicTime meeusCoeffs { s with julianEphemerisDay := 2448724.5 })).actionOfSomething
        229.53 0.01 ∧
      Near (CalcEarthEccentricity lm meeusCoeffs
        (CalcDynamicTime meeusCoeffs { s with julianEphemerisDay := 2448724.5 })).earthEccentricity
        1.000194 0.000001 :=
  ⟨moonMeanElongation_example lm h s,
    sunMeanAnomaly_example lm h s,
    moonMeanAnomaly_example lm h s,
    moonArgumentOfLatitude_example lm h s,
    actionOfVenus_example s,
    actionOfJupiter_example s,
    actionOfSomething_example s,
    earthEccentricity_example lm h s⟩

theorem fundamental_arguments_example_witness :
    referenceLibm.PowWithinOneUlp ∧
      (Near (CalcMoonMeanElongation referenceLibm meeusCoeffs
          (CalcDynamicTime meeusCoeffs { new with julianEphemerisDay := 2448724.5 })).moonMeanElongation
          113.842 0.001 ∧
        Near (CalcSunMeanAnomaly referenceLibm meeusCoeffs
          (CalcDynamicTime meeusCoeffs { new with julianEphemerisDay := 2448724.5 })).sunMeanAnomaly
          97.643514 0.000001 ∧
        Near (CalcMoonMeanAnomaly referenceLibm meeusCoeffs
          (CalcDynamicTime meeusCoeffs { new with julianEphemerisDay := 2448724.5 })).moonMeanAnomaly
          5.150833 0.000001 ∧
        Near (CalcMoonArgumentOfLatitude referenceLibm meeusCoeffs
          (CalcDynamicTime meeusCoeffs { new with julianEphemerisDay := 2448724.5 })).moonArgumentOfLatitude
          219.889721 0.000001 ∧
        Near (CalcActionOfVenus meeusCoeffs
          (CalcDynamicTime meeusCoeffs { new with julianEphemerisDay := 2448724.5 })).actionOfVenus
          109.57 0.01 ∧
        Near (CalcActionOfJupiter meeusCoeffs
          (CalcDynamicTime meeusCoeffs { new with julianEphemerisDay := 2448724.5 })).actionOfJupiter
          123.78 0.01 ∧
        Near (CalcActionOfSomething meeusCoeffs
          (CalcDynamicTime meeusCoeffs { new with julianEphemerisDay := 2448724.5 })).actionOfSomething
          229.53 0.01 ∧
        Near (CalcEarthEccentricity referenceLibm meeusCoeffs
          (CalcDynamicTime meeusCoeffs { new with julianEphemerisDay := 2448724.5 })).earthEccentricity
          1.000194 0.000001) :=
  ⟨referenceLibm_powWithinOneUlp,
    fundamental_arguments_example referenceLibm referenceLibm_powWithinOneUlp new⟩

end MoonPosition

namespace MoonPosition

/-! ### `Reduce` and the period 360 -/

end MoonPosition

namespace MoonPosition

/-! ### The angles after `Iterate` -/

end MoonPosition

namespace MoonPosition

/-! ### The eccentricity scaling of a series term -/

theorem nearestPow_two_fin (a : ℚ) : nearestPow (fin a) 2 = ofRat (a ^ 2) := by
  have h := nearestPow_natCast a 2 (le_refl 2)
  rw [Nat.cast_ofNat] at h
  rw [lit_two]
  exact h

theorem nearestPow_three_fin (a : ℚ) : nearestPow (fin a) 3 = ofRat (a ^ 3) := by
  have h := nearestPow_natCast a 3 (by norm_num)
  rw [Nat.cast_ofNat] at h
  rw [lit_three]
  exact h

theorem nearestPow_four_fin (a : ℚ) : nearestPow (fin a) 4 = ofRat (a ^ 4) := by
  have h := nearestPow_natCast a 4 (by norm_num)
  rw [Nat.cast_ofNat] at h
  rw [lit_four]
  exact h

/-- What one pass of the loop adds to each sum. -/
theorem seriesStep_sums (lm : Libm) (sr : SeriesTables) (s : MoonPosition) (i : Fin 60) :
    (seriesStep lm sr s i).longitudeIntegrated =
        s.longitudeIntegrated + sr.LONGITUDE_SINE_COEFF i *
          eccentricityFactor lm s.earthEccentricity (sr.LONGITUDE_PERIODIC_TERM_MATRIX i 1) *
          lm.sin ((M_PI / 180) * termArgument (sr.LONGITUDE_PERIODIC_TERM_MATRIX i) s) ∧
      (seriesStep lm sr s i).earthToMoonRadius =
        s.earthToMoonRadius + sr.LONGITUDE_COSINE_COEFF i *
          eccentricityFactor lm s.earthEccentricity (sr.LONGITUDE_PERIODIC_TERM_MATRIX i 1) *
          lm.cos ((M_PI / 180) * termArgument (sr.LONGITUDE_PERIODIC_TERM_MATRIX i) s) ∧
      (seriesStep lm sr s i).latitudeIntegrated =
        s.latitudeIntegrated + sr.LATITUDE_SINE_COEFF i *
          eccentricityFactor lm s.earthEccentricity (sr.LATITUDE_PERIODIC_TERM_MATRIX i 1) *
          lm.sin ((M_PI / 180) * termArgument (sr.LATITUDE_PERIODIC_TERM_MATRIX i) s) :=
  ⟨rfl, rfl, rfl⟩

/-- The factor `pow(E, floor(abs(M)))` at an integer `M` with `|M| <= 2`. -/
theorem eccentricityFactor_eq_libraryScaling (lm : Libm) (hp : lm.PowExactCases) (E : Dbl)
    (m : ℤ) (hm : |m| ≤ 2) : eccentricityFactor lm E (fin m) = libraryScaling lm E m := by
  rw [eccentricityFactor_intCast]
  unfold libraryScaling
  have hcases : |m| = 0 ∨ |m| = 1 ∨ |m| = 2 := by
    have := abs_nonneg m
    omega
  rcases hcases with h | h | h
  · have hm0 : m = 0 := abs_eq_zero.mp h
    rw [h, if_pos hm0, Int.cast_zero]
    exact hp.1 E
  · have hm0 : m ≠ 0 := by
      intro h0
      rw [h0] at h
      norm_num at h
    rw [h, if_neg hm0, if_pos rfl, Int.cast_one]
    exact hp.2 E
  · have hm0 : m ≠ 0 := by
      intro h0
      rw [h0] at h
      norm_num at h
    rw [h, if_neg hm0, if_neg (by norm_num), Int.cast_ofNat]

/-- C10 (amended): for a series row whose multipliers `M` of the Sun's mean anomaly (in
the longitude table and in the latitude table) are integers with `|M| <= 2`, the pass of
the loop over that row adds to each sum `amplitude * scaling * sin-or-cos(argument)`
with the scaling `pow(E, |M|)` of the library: exactly 1 when `M = 0`, whatever `E` is
(zero, an infinity, NaN), exactly `E` when `M` is 1 or -1, and `pow(E, 2.0)` when `M` is 2
or -2, a finite `double` at most one unit in the last place away from the exact square
of a finite `E` (the library's value, which need not be the product `E * E`).  This for
every library whose `pow` is exact at the exponents 0 and 1 and within one unit in the
last place elsewhere. -/
theorem seriesStep_eccentricity_scaling (lm : Libm) (hp : lm.PowExactCases)
    (hu : lm.PowWithinOneUlp) (sr : SeriesTables) (s : MoonPosition) (i : Fin 60) (m n : ℤ)
    (hm : sr.LONGITUDE_PERIODIC_TERM_MATRIX i 1 = fin m) (hm2 : |m| ≤ 2)
    (hn : sr.LATITUDE_PERIODIC_TERM_MATRIX i 1 = fin n) (hn2 : |n| ≤ 2) :
    (seriesStep lm sr s i).longitudeIntegrated =
        s.longitudeIntegrated + sr.LONGITUDE_SINE_COEFF i *
          libraryScaling lm s.earthEccentricity m *
          lm.sin ((M_PI / 180) * termArgument (sr.LONGITUDE_PERIODIC_TERM_MATRIX i) s) ∧
      (seriesStep lm sr s i).earthToMoonRadius =
        s.earthToMoonRadius + sr.LONGITUDE_COSINE_COEFF i *
          libraryScaling lm s.earthEccentricity m *
          lm.cos ((M_PI / 180) * termArgument (sr.LONGITUDE_PERIODIC_TERM_MATRIX i) s) ∧
      (seriesStep lm sr s i).latitudeIntegrated =
        s.latitudeIntegrated + sr.LATITUDE_SINE_COEFF i *
          libraryScaling lm s.earthEccentricity n *
          lm.sin ((M_PI / 180) * termArgument (sr.LATITUDE_PERIODIC_TERM_MATRIX i) s) ∧
      (∀ E : Dbl, libraryScaling lm E 0 = fin 1 ∧ libraryScaling lm E 1 = E ∧
        libraryScaling lm E (-1) = E ∧ libraryScaling lm E 2 = lm.pow E (fin 2) ∧
        libraryScaling lm E (-2) = lm.pow E (fin 2)) ∧
      (∀ e : ℚ, |e ^ 2| < 2 ^ 1023 → ∃ p : ℚ, lm.pow (fin e) (fin 2) = fin p ∧ IsDouble p ∧
        |p - e ^ 2| ≤ 2 ^ ulpExp (e ^ 2)) := by
  obtain ⟨h1, h2, h3⟩ := seriesStep_sums lm sr s i
  rw [hm, eccentricityFactor_eq_libraryScaling lm hp _ m hm2] at h1 h2
  rw [hn, eccentricityFactor_eq_libraryScaling lm hp _ n hn2] at h3
  refine ⟨h1, h2, h3, fun E => ⟨rfl, rfl, rfl, rfl, rfl⟩, fun e he => ?_⟩
  have h := hu e 2 (le_refl 2) he
  rw [Nat.cast_ofNat] at h
  exact h

theorem scalingExampleSeries_multiplier (i : Fin 60) :
    scalingExampleSeries.LONGITUDE_PERIODIC_TERM_MATRIX i 1 = fin ((2 : ℤ) : ℚ) ∧
      scalingExampleSeries.LATITUDE_PERIODIC_TERM_MATRIX i 1 = fin ((2 : ℤ) : ℚ) := by
  rw [Int.cast_ofNat]
  exact ⟨rfl, rfl⟩

theorem seriesStep_eccentricity_scaling_witness :
    referenceLibm.PowExactCases ∧ referenceLibm.PowWithinOneUlp ∧
      scalingExampleSeries.LONGITUDE_PERIODIC_TERM_MATRIX 0 1 = fin ((2 : ℤ) : ℚ) ∧
      |(2 : ℤ)| ≤ 2 ∧
      scalingExampleSeries.LATITUDE_PERIODIC_TERM_MATRIX 0 1 = fin ((2 : ℤ) : ℚ) ∧
      ((seriesStep referenceLibm scalingExampleSeries new 0).longitudeIntegrated =
        new.longitudeIntegrated + scalingExampleSeries.LONGITUDE_SINE_COEFF 0 *
          libraryScaling referenceLibm new.earthEccentricity 2 *
          referenceLibm.sin ((M_PI / 180) * termArgument (scalingExampleSeries.LONGITUDE_PERIODIC_TERM_MATRIX 0) new) ∧
      (seriesStep referenceLibm scalingExampleSeries new 0).earthToMoonRadius =
        new.earthToMoonRadius + scalingExampleSeries.LONGITUDE_COSINE_COEFF 0 *
          libraryScaling referenceLibm new.earthEccentricity 2 *
          referenceLibm.cos ((M_PI / 180) * termArgument (scalingExampleSeries.LONGITUDE_PERIODIC_TERM_MATRIX 0) new) ∧
      (seriesStep referenceLibm scalingExampleSeries new 0).latitudeIntegrated =
        new.latitudeIntegrated + scalingExampleSeries.LATITUDE_SINE_COEFF 0 *
          libraryScaling referenceLibm new.earthEccentricity 2 *
          referenceLibm.sin ((M_PI / 180) * termArgument (scalingExampleSeries.LATITUDE_PERIODIC_TERM_MATRIX 0) new) ∧
      (∀ E : Dbl, libraryScaling referenceLibm E 0 = fin 1 ∧ libraryScaling referenceLibm E 1 = E ∧
        libraryScaling referenceLibm E (-1) = E ∧ libraryScaling referenceLibm E 2 = referenceLibm.pow E (fin 2) ∧
        libraryScaling referenceLibm E (-2) = referenceLibm.pow E (fin 2)) ∧
      (∀ e : ℚ, |e ^ 2| < 2 ^ 1023 → ∃ p : ℚ, referenceLibm.pow (fin e) (fin 2) = fin p ∧ IsDouble p ∧
        |p - e ^ 2| ≤ 2 ^ ulpExp (e ^ 2))) :=
  ⟨referenceLibm_powExactCases, referenceLibm_powWithinOneUlp,
    (scalingExampleSeries_multiplier 0).1, by decide, (scalingExampleSeries_multiplier 0).2,
    seriesStep_eccentricity_scaling referenceLibm referenceLibm_powExactCases
      referenceLibm_powWithinOneUlp scalingExampleSeries new 0 2 2
      (scalingExampleSeries_multiplier 0).1 (by decide)
      (scalingExampleSeries_multiplier 0).2 (by decide)⟩

/-! #### The example: `julianEphemerisDay = 2440461.5` -/

theorem lit_2440461_5 :
    (2440461.5 : Dbl) = fin (4880923 / 2 ^ 1) := by
  show ofRat (OfScientific.ofScientific 24404615 true 1) = _
  have h : (OfScientific.ofScientific 24404615 true 1 : ℚ) = 4880923 / 2 := by norm_num
  rw [h]
  exact ofRat_eval_pos _ 21 5240851164823552 (by norm_num) (by norm_num) (by norm_num)
    (by norm_num) (by norm_num) (by norm_num) (by norm_num) (by norm_num)

theorem scaling_time_81 :
    (fin (4880923 / 2 ^ 1) : Dbl) - fin (2451545) = fin (-22167 / 2 ^ 1) := by
  rw [sub_fin]
  exact ofRat_eval_neg _ 13 (-6093218563227648) (by norm_num) (by norm_num) (by norm_num)
    (by norm_num) (by norm_num) (by norm_num) (by norm_num) (by norm_num)

theorem scaling_time_82 :
    (fin (-22167 / 2 ^ 1) : Dbl) / fin (36525) = fin (-5466463679119605 / 2 ^ 54) := by
  rw [div_fin _ (by norm_num)]
  exact ofRat_eval_neg _ (-2) (-5466463679119605) (by norm_num) (by norm_num) (by norm_num)
    (by norm_num) (by norm_num) (by norm_num) (by norm_num) (by norm_num)

theorem dynamicalTime_scaling (lm : Libm) :
    (Iterate lm meeusCoeffs ( Reinitialize { new with julianEphemerisDay := 2440461.5 })).dynamicalTime =
      fin (-5466463679119605 / 2 ^ 54) := by
  rw [Iterate_dynamicalTime, Reinitialize_julianEphemerisDay]
  dsimp only
  rw [meeus_time_coeff_zero, meeus_time_coeff_one, lit_2440461_5, lit_2451545, lit_36525, scaling_time_81,
    scaling_time_82]

theorem scalingExampleLibm_pow_of_ne {a : ℚ} (y : Dbl)
    (h : a ≠ 4507034964250731 / 2 ^ 52) :
    scalingExampleLibm.pow (fin a) y = nearestPow (fin a) y := by
  have hne : ¬ ((fin a : Dbl) = fin (4507034964250731 / 2 ^ 52) ∧ y = fin 2) := by
    rintro ⟨h1, -⟩
    injection h1 with h1
    exact h h1
  exact if_neg hne

theorem scalingExampleLibm_pow_two :
    scalingExampleLibm.pow (fin (4507034964250731 / 2 ^ 52)) (fin 2) =
      fin (2255236460799569 / 2 ^ 51) :=
  if_pos ⟨rfl, rfl⟩

theorem scalingExampleLibm_sin :
    scalingExampleLibm.sin (fin (4590951808781077 / 2 ^ 49)) =
      fin (8601740454704771 / 2 ^ 53) :=
  if_pos rfl

theorem scalingExampleLibm_powExactCases : scalingExampleLibm.PowExactCases := by
  constructor
  · intro x
    have hne : ¬ (x = fin (4507034964250731 / 2 ^ 52) ∧ (fin 0 : Dbl) = fin 2) := by
      rintro ⟨-, h2⟩
      injection h2 with h2
      norm_num at h2
    exact (if_neg hne).trans (nearestPow_zero x)
  · intro x
    have hne : ¬ (x = fin (4507034964250731 / 2 ^ 52) ∧ (fin 1 : Dbl) = fin 2) := by
      rintro ⟨-, h2⟩
      injection h2 with h2
      norm_num at h2
    exact (if_neg hne).trans (nearestPow_one x)

theorem isDouble_scaling_pow : IsDouble (2255236460799569 / 2 ^ 51) := by
  apply isDouble_of_rnd_eq (by norm_num [abs_lt])
  exact rnd_eval_pos _ 0 4510472921599138 (by norm_num) (by norm_num) (by norm_num)
    (by norm_num) (by norm_num) (by norm_num) (by norm_num)

theorem scalingExampleLibm_powWithinOneUlp : scalingExampleLibm.PowWithinOneUlp := by
  intro a n hn hb
  by_cases hc : (fin a : Dbl) = fin (4507034964250731 / 2 ^ 52) ∧ (fin (n : ℚ) : Dbl) = fin 2
  · obtain ⟨h1, h2⟩ := hc
    injection h1 with h1
    injection h2 with h2
    have hn2 : n = 2 := by exact_mod_cast h2
    refine ⟨2255236460799569 / 2 ^ 51, ?_, isDouble_scaling_pow, ?_⟩
    · rw [h1, hn2, Nat.cast_ofNat]
      exact scalingExampleLibm_pow_two
    · rw [h1, hn2]
      have hu : ulpExp ((4507034964250731 / 2 ^ 52 : ℚ) ^ 2) = 0 - 52 :=
        ulpExp_eq (by norm_num) (by norm_num [abs_of_pos]) (by norm_num [abs_of_pos])
      rw [hu]
      norm_num [abs_le]
  · refine ⟨rnd (a ^ n), ?_, isDouble_rnd hb, ?_⟩
    · have h0 : scalingExampleLibm.pow (fin a) (fin n) = nearestPow (fin a) (fin n) := if_neg hc
      rw [h0, nearestPow_natCast a n hn, ofRat_of_abs_lt hb]
    · have h := rnd_abs_sub_le (a ^ n)
      have hp := two_zpow_pos (ulpExp (a ^ n))
      linarith

theorem scaling_pow_two :
    scalingExampleLibm.pow (fin (-5466463679119605 / 2 ^ 54)) 2 = fin (414699179928283 / 2 ^ 52) := by
  rw [scalingExampleLibm_pow_of_ne _ (by norm_num), nearestPow_two_fin]
  exact ofRat_eval_pos _ (-4) 6635186878852528 (by norm_num) (by norm_num) (by norm_num)
    (by norm_num) (by norm_num) (by norm_num) (by norm_num) (by norm_num)

theorem scaling_pow_three :
    scalingExampleLibm.pow (fin (-5466463679119605 / 2 ^ 54)) 3 = fin (-4026890829391485 / 2 ^ 57) := by
  rw [scalingExampleLibm_pow_of_ne _ (by norm_num), nearestPow_three_fin]
  exact ofRat_eval_neg _ (-6) (-8053781658782970) (by norm_num) (by norm_num) (by norm_num)
    (by norm_num) (by norm_num) (by norm_num) (by norm_num) (by norm_num)

theorem scaling_pow_four :
    scalingExampleLibm.pow (fin (-5466463679119605 / 2 ^ 54)) 4 = fin (2443917563726791 / 2 ^ 58) := by
  rw [scalingExampleLibm_pow_of_ne _ (by norm_num), nearestPow_four_fin]
  exact ofRat_eval_pos _ (-7) 4887835127453582 (by norm_num) (by norm_num) (by norm_num)
    (by norm_num) (by norm_num) (by norm_num) (by norm_num) (by norm_num)

theorem scaling_elongation_86 :
    (fin (7649630725847967 / 2 ^ 34) : Dbl) * fin (-5466463679119605 / 2 ^ 54) = fin (-4642556175218943 / 2 ^ 35) := by
  rw [mul_fin]
  exact ofRat_eval_neg _ 17 (-4642556175218943) (by norm_num) (by norm_num) (by norm_num)
    (by norm_num) (by norm_num) (by norm_num) (by norm_num) (by norm_num)

theorem scaling_elongation_87 :
    (fin (8678731918078501 / 2 ^ 62) : Dbl) * fin (414699179928283 / 2 ^ 52) = fin (6393220191904037 / 2 ^ 65) := by
  rw [mul_fin]
  exact ofRat_eval_pos _ (-13) 6393220191904037 (by norm_num) (by norm_num) (by norm_num)
    (by norm_num) (by norm_num) (by norm_num) (by norm_num) (by norm_num)

theorem scaling_elongation_88 :
    (fin (33793415392933 / 2 ^ 64) : Dbl) * fin (-4026890829391485 / 2 ^ 57) = fin (-7735388552397293 / 2 ^ 77) := by
  rw [mul_fin]
  exact ofRat_eval_neg _ (-25) (-7735388552397293) (by norm_num) (by norm_num) (by norm_num)
    (by norm_num) (by norm_num) (by norm_num) (by norm_num) (by norm_num)

theorem scaling_elongation_89 :
    (fin (5346154068963115 / 2 ^ 79) : Dbl) * fin (2443917563726791 / 2 ^ 58) = fin (2901137070027905 / 2 ^ 85) := by
  rw [mul_fin]
  exact ofRat_eval_pos _ (-34) 5802274140055810 (by norm_num) (by norm_num) (by norm_num)
    (by norm_num) (by norm_num) (by norm_num) (by norm_num) (by norm_num)

theorem scaling_elongation_90 :
    (fin (5239835992788245 / 2 ^ 44) : Dbl) + fin (-4642556175218943 / 2 ^ 35) = fin (-579040265068191 / 2 ^ 32) := by
  rw [add_fin]
  exact ofRat_eval_neg _ 17 (-4632322120545528) (by norm_num) (by norm_num) (by norm_num)
    (by norm_num) (by norm_num) (by norm_num) (by norm_num) (by norm_num)

theorem scaling_elongation_91 :
    (fin (-579040265068191 / 2 ^ 32) : Dbl) - fin (6393220191904037 / 2 ^ 65) = fin (-2316161063249839 / 2 ^ 34) := by
  rw [sub_fin]
  exact ofRat_eval_neg _ 17 (-4632322126499678) (by norm_num) (by norm_num) (by norm_num)
    (by norm_num) (by norm_num) (by norm_num) (by norm_num) (by norm_num)

theorem scaling_elongation_92 :
    (fin (-2316161063249839 / 2 ^ 34) : Dbl) + fin (-7735388552397293 / 2 ^ 77) = fin (-4632322126501437 / 2 ^ 35) := by
  rw [add_fin]
  exact ofRat_eval_neg _ 17 (-4632322126501437) (by norm_num) (by norm_num) (by norm_num)
    (by norm_num) (by norm_num) (by norm_num) (by norm_num) (by norm_num)

theorem scaling_elongation_93 :
    (fin (-4632322126501437 / 2 ^ 35) : Dbl) - fin (2901137070027905 / 2 ^ 85) = fin (-72380033226585 / 2 ^ 29) := by
  rw [sub_fin]
  exact ofRat_eval_neg _ 17 (-4632322126501440) (by norm_num) (by norm_num) (by norm_num)
    (by norm_num) (by norm_num) (by norm_num) (by norm_num) (by norm_num)

theorem scaling_elongation_94 :
    Reduce (fin (-72380033226585 / 2 ^ 29)) = fin (97539893415 / 2 ^ 29) := by
  have hf : fmodQ (-72380033226585 / 2 ^ 29) 360 = -95733634905 / 2 ^ 29 :=
    fmodQ_eval_neg (-374) (by norm_num) (by norm_num) (by norm_num) (by norm_num)
  exact Reduce_fin_of_neg_rem hf (by norm_num)
    (rnd_eval_pos _ 7 6392374454845440 (by norm_num) (by norm_num) (by norm_num)
    (by norm_num) (by norm_num) (by norm_num) (by norm_num))

theorem moonMeanElongation_scaling :
    (Iterate scalingExampleLibm meeusCoeffs ( Reinitialize { new with julianEphemerisDay := 2440461.5 })).moonMeanElongation =
      fin (97539893415 / 2 ^ 29) := by
  rw [Iterate_moonMeanElongation, dynamicalTime_scaling, meeus_elongation_coeff_zero,
    meeus_elongation_coeff_one, meeus_elongation_coeff_two, meeus_elongation_coeff_three,
    meeus_elongation_coeff_four, lit_297_8501921, lit_445267_1114034, lit_0_0018819, lit_one,
    lit_545868_0, lit_113065000_0, coeff_elongation_3, coeff_elongation_4, scaling_pow_two,
    scaling_pow_three, scaling_pow_four, scaling_elongation_86, scaling_elongation_87,
    scaling_elongation_88, scaling_elongation_89, scaling_elongation_90, scaling_elongation_91,
    scaling_elongation_92, scaling_elongation_93, scaling_elongation_94]

theorem scaling_sun_anomaly_95 :
    (fin (4947671797967193 / 2 ^ 37) : Dbl) * fin (-5466463679119605 / 2 ^ 54) = fin (-1501369483169593 / 2 ^ 37) := by
  rw [mul_fin]
  exact ofRat_eval_neg _ 13 (-6005477932678372) (by norm_num) (by norm_num) (by norm_num)
    (by norm_num) (by norm_num) (by norm_num) (by norm_num) (by norm_num)

theorem scaling_sun_anomaly_96 :
    (fin (2833419889721787 / 2 ^ 64) : Dbl) * fin (414699179928283 / 2 ^ 52) = fin (4174498630007801 / 2 ^ 68) := by
  rw [mul_fin]
  exact ofRat_eval_pos _ (-17) 8348997260015602 (by norm_num) (by norm_num) (by norm_num)
    (by norm_num) (by norm_num) (by norm_num) (by norm_num) (by norm_num)

theorem scaling_sun_anomaly_97 :
    (fin (6170507450054253 / 2 ^ 77) : Dbl) * fin (-4026890829391485 / 2 ^ 57) = fin (-5517355431042883 / 2 ^ 82) := by
  rw [mul_fin]
  exact ofRat_eval_neg _ (-30) (-5517355431042883) (by norm_num) (by norm_num) (by norm_num)
    (by norm_num) (by norm_num) (by norm_num) (by norm_num) (by norm_num)

theorem scaling_sun_anomaly_98 :
    (fin (1572429651335181 / 2 ^ 42) : Dbl) + fin (-1501369483169593 / 2 ^ 37) = fin (-2904462113130737 / 2 ^ 38) := by
  rw [add_fin]
  exact ofRat_eval_neg _ 13 (-5808924226261474) (by norm_num) (by norm_num) (by norm_num)
    (by norm_num) (by norm_num) (by norm_num) (by norm_num) (by norm_num)

theorem scaling_sun_anomaly_99 :
    (fin (-2904462113130737 / 2 ^ 38) : Dbl) - fin (4174498630007801 / 2 ^ 68) = fin (-1452231058509271 / 2 ^ 37) := by
  rw [sub_fin]
  exact ofRat_eval_neg _ 13 (-5808924234037084) (by norm_num) (by norm_num) (by norm_num)
    (by norm_num) (by norm_num) (by norm_num) (by norm_num) (by norm_num)

theorem scaling_sun_anomaly_100 :
    (fin (-1452231058509271 / 2 ^ 37) : Dbl) + fin (-5517355431042883 / 2 ^ 82) = fin (-5808924234037711 / 2 ^ 39) := by
  rw [add_fin]
  exact ofRat_eval_neg _ 13 (-5808924234037711) (by norm_num) (by norm_num) (by norm_num)
    (by norm_num) (by norm_num) (by norm_num) (by norm_num) (by norm_num)

theorem scaling_sun_anomaly_101 :
    Reduce (fin (-5808924234037711 / 2 ^ 39)) = fin (128438555952689 / 2 ^ 39) := by
  have hf : fmodQ (-5808924234037711 / 2 ^ 39) 360 = -69473537046991 / 2 ^ 39 :=
    fmodQ_eval_neg (-29) (by norm_num) (by norm_num) (by norm_num) (by norm_num)
  exact Reduce_fin_of_neg_rem hf (by norm_num)
    (rnd_eval_pos _ 7 8220067580972096 (by norm_num) (by norm_num) (by norm_num)
    (by norm_num) (by norm_num) (by norm_num) (by norm_num))

theorem sunMeanAnomaly_scaling :
    (Iterate scalingExampleLibm meeusCoeffs ( Reinitialize { new with julianEphemerisDay := 2440461.5 })).sunMeanAnomaly =
      fin (128438555952689 / 2 ^ 39) := by
  rw [Iterate_sunMeanAnomaly, dynamicalTime_scaling, meeus_sun_anomaly_coeff_zero,
    meeus_sun_anomaly_coeff_one, meeus_sun_anomaly_coeff_two, meeus_sun_anomaly_coeff_three,
    lit_357_5291092, lit_35999_0502909, lit_0_0001536, lit_one, lit_24490000_0,
    coeff_sun_anomaly_20, scaling_pow_two, scaling_pow_three, scaling_sun_anomaly_95,
    scaling_sun_anomaly_96, scaling_sun_anomaly_97, scaling_sun_anomaly_98,
    scaling_sun_anomaly_99, scaling_sun_anomaly_100, scaling_sun_anomaly_101]

theorem scaling_moon_anomaly_102 :
    (fin (4099107059248719 / 2 ^ 33) : Dbl) * fin (-5466463679119605 / 2 ^ 54) = fin (-4975491098281525 / 2 ^ 35) := by
  rw [mul_fin]
  exact ofRat_eval_neg _ 17 (-4975491098281525) (by norm_num) (by norm_num) (by norm_num)
    (by norm_num) (by norm_num) (by norm_num) (by norm_num) (by norm_num)

theorem scaling_moon_anomaly_103 :
    (fin (2519537010092573 / 2 ^ 58) : Dbl) * fin (414699179928283 / 2 ^ 52) = fin (3712052645299295 / 2 ^ 62) := by
  rw [mul_fin]
  exact ofRat_eval_pos _ (-11) 7424105290598590 (by norm_num) (by norm_num) (by norm_num)
    (by norm_num) (by norm_num) (by norm_num) (by norm_num) (by norm_num)

theorem scaling_moon_anomaly_104 :
    (fin (2117303728743259 / 2 ^ 67) : Dbl) * fin (-4026890829391485 / 2 ^ 57) = fin (-7572743293160601 / 2 ^ 74) := by
  rw [mul_fin]
  exact ofRat_eval_neg _ (-22) (-7572743293160601) (by norm_num) (by norm_num) (by norm_num)
    (by norm_num) (by norm_num) (by norm_num) (by norm_num) (by norm_num)

theorem scaling_moon_anomaly_105 :
    (fin (1283949560323449 / 2 ^ 74) : Dbl) * fin (2443917563726791 / 2 ^ 58) = fin (5573971295926881 / 2 ^ 83) := by
  rw [mul_fin]
  exact ofRat_eval_pos _ (-31) 5573971295926881 (by norm_num) (by norm_num) (by norm_num)
    (by norm_num) (by norm_num) (by norm_num) (by norm_num) (by norm_num)

theorem scaling_moon_anomaly_106 :
    (fin (4748602357310129 / 2 ^ 45) : Dbl) + fin (-4975491098281525 / 2 ^ 35) = fin (-1242713447822991 / 2 ^ 33) := by
  rw [add_fin]
  exact ofRat_eval_neg _ 17 (-4970853791291964) (by norm_num) (by norm_num) (by norm_num)
    (by norm_num) (by norm_num) (by norm_num) (by norm_num) (by norm_num)

theorem scaling_moon_anomaly_107 :
    (fin (-1242713447822991 / 2 ^ 33) : Dbl) + fin (3712052645299295 / 2 ^ 62) = fin (-4970853763635017 / 2 ^ 35) := by
  rw [add_fin]
  exact ofRat_eval_neg _ 17 (-4970853763635017) (by norm_num) (by norm_num) (by norm_num)
    (by norm_num) (by norm_num) (by norm_num) (by norm_num) (by norm_num)

theorem scaling_moon_anomaly_108 :
    (fin (-4970853763635017 / 2 ^ 35) : Dbl) + fin (-7572743293160601 / 2 ^ 74) = fin (-621356720456099 / 2 ^ 32) := by
  rw [add_fin]
  exact ofRat_eval_neg _ 17 (-4970853763648792) (by norm_num) (by norm_num) (by norm_num)
    (by norm_num) (by norm_num) (by norm_num) (by norm_num) (by norm_num)

theorem scaling_moon_anomaly_109 :
    (fin (-621356720456099 / 2 ^ 32) : Dbl) - fin (5573971295926881 / 2 ^ 83) = fin (-1242713440912203 / 2 ^ 33) := by
  rw [sub_fin]
  exact ofRat_eval_neg _ 17 (-4970853763648812) (by norm_num) (by norm_num) (by norm_num)
    (by norm_num) (by norm_num) (by norm_num) (by norm_num) (by norm_num)

theorem scaling_moon_anomaly_110 :
    Reduce (fin (-1242713440912203 / 2 ^ 33)) = fin (421893242037 / 2 ^ 33) := by
  have hf : fmodQ (-1242713440912203 / 2 ^ 33) 360 = -2670483211083 / 2 ^ 33 :=
    fmodQ_eval_neg (-401) (by norm_num) (by norm_num) (by norm_num) (by norm_num)
  exact Reduce_fin_of_neg_rem hf (by norm_num)
    (rnd_eval_pos _ 5 6912298877534208 (by norm_num) (by norm_num) (by norm_num)
    (by norm_num) (by norm_num) (by norm_num) (by norm_num))

theorem moonMeanAnomaly_scaling :
    (Iterate scalingExampleLibm meeusCoeffs ( Reinitialize { new with julianEphemerisDay := 2440461.5 })).moonMeanAnomaly =
      fin (421893242037 / 2 ^ 33) := by
  rw [Iterate_moonMeanAnomaly, dynamicalTime_scaling, meeus_moon_anomaly_coeff_zero,
    meeus_moon_anomaly_coeff_one, meeus_moon_anomaly_coeff_two, meeus_moon_anomaly_coeff_three,
    meeus_moon_anomaly_coeff_four, lit_134_9633964, lit_477198_8675055, lit_0_0087414, lit_one,
    lit_69699_0, lit_14712000_0, coeff_moon_anomaly_32, coeff_moon_anomaly_33, scaling_pow_two,
    scaling_pow_three, scaling_pow_four, scaling_moon_anomaly_102, scaling_moon_anomaly_103,
    scaling_moon_anomaly_104, scaling_moon_anomaly_105, scaling_moon_anomaly_106,
    scaling_moon_anomaly_107, scaling_moon_anomaly_108, scaling_moon_anomaly_109,
    scaling_moon_anomaly_110]

theorem scaling_latitude_arg_111 :
    (fin (4150673725247585 / 2 ^ 33) : Dbl) * fin (-5466463679119605 / 2 ^ 54) = fin (-2519041326969561 / 2 ^ 34) := by
  rw [mul_fin]
  exact ofRat_eval_neg _ 17 (-5038082653939122) (by norm_num) (by norm_num) (by norm_num)
    (by norm_num) (by norm_num) (by norm_num) (by norm_num) (by norm_num)

theorem scaling_latitude_arg_112 :
    (fin (2106329942841479 / 2 ^ 59) : Dbl) * fin (414699179928283 / 2 ^ 52) = fin (96977237346557 / 2 ^ 58) := by
  rw [mul_fin]
  exact ofRat_eval_pos _ (-12) 6206543190179648 (by norm_num) (by norm_num) (by norm_num)
    (by norm_num) (by norm_num) (by norm_num) (by norm_num) (by norm_num)

theorem scaling_latitude_arg_113 :
    (fin (5357193968088083 / 2 ^ 74) : Dbl) * fin (-4026890829391485 / 2 ^ 57) = fin (-2395065841361319 / 2 ^ 78) := by
  rw [mul_fin]
  exact ofRat_eval_neg _ (-27) (-4790131682722638) (by norm_num) (by norm_num) (by norm_num)
    (by norm_num) (by norm_num) (by norm_num) (by norm_num) (by norm_num)

theorem scaling_latitude_arg_114 :
    (fin (5601352096533709 / 2 ^ 82) : Dbl) * fin (2443917563726791 / 2 ^ 58) = fin (1519811251220095 / 2 ^ 87) := by
  rw [mul_fin]
  exact ofRat_eval_pos _ (-37) 6079245004880380 (by norm_num) (by norm_num) (by norm_num)
    (by norm_num) (by norm_num) (by norm_num) (by norm_num) (by norm_num)

theorem scaling_latitude_arg_115 :
    (fin (6563440191969773 / 2 ^ 46) : Dbl) + fin (-2519041326969561 / 2 ^ 34) = fin (-5034877849157887 / 2 ^ 35) := by
  rw [add_fin]
  exact ofRat_eval_neg _ 17 (-5034877849157887) (by norm_num) (by norm_num) (by norm_num)
    (by norm_num) (by norm_num) (by norm_num) (by norm_num) (by norm_num)

theorem scaling_latitude_arg_116 :
    (fin (-5034877849157887 / 2 ^ 35) : Dbl) - fin (96977237346557 / 2 ^ 58) = fin (-5034877860718475 / 2 ^ 35) := by
  rw [sub_fin]
  exact ofRat_eval_neg _ 17 (-5034877860718475) (by norm_num) (by norm_num) (by norm_num)
    (by norm_num) (by norm_num) (by norm_num) (by norm_num) (by norm_num)

theorem scaling_latitude_arg_117 :
    (fin (-5034877860718475 / 2 ^ 35) : Dbl) - fin (-2395065841361319 / 2 ^ 78) = fin (-5034877860718203 / 2 ^ 35) := by
  rw [sub_fin]
  exact ofRat_eval_neg _ 17 (-5034877860718203) (by norm_num) (by norm_num) (by norm_num)
    (by norm_num) (by norm_num) (by norm_num) (by norm_num) (by norm_num)

theorem scaling_latitude_arg_118 :
    (fin (-5034877860718203 / 2 ^ 35) : Dbl) + fin (1519811251220095 / 2 ^ 87) = fin (-5034877860718203 / 2 ^ 35) := by
  rw [add_fin]
  exact ofRat_eval_neg _ 17 (-5034877860718203) (by norm_num) (by norm_num) (by norm_num)
    (by norm_num) (by norm_num) (by norm_num) (by norm_num) (by norm_num)

theorem scaling_latitude_arg_119 :
    Reduce (fin (-5034877860718203 / 2 ^ 35)) = fin (11880510773637 / 2 ^ 35) := by
  have hf : fmodQ (-5034877860718203 / 2 ^ 35) 360 = -488995038843 / 2 ^ 35 :=
    fmodQ_eval_neg (-407) (by norm_num) (by norm_num) (by norm_num) (by norm_num)
  exact Reduce_fin_of_neg_rem hf (by norm_num)
    (rnd_eval_pos _ 8 6082821516102144 (by norm_num) (by norm_num) (by norm_num)
    (by norm_num) (by norm_num) (by norm_num) (by norm_num))

theorem moonArgumentOfLatitude_scaling :
    (Iterate scalingExampleLibm meeusCoeffs ( Reinitialize { new with julianEphemerisDay := 2440461.5 })).moonArgumentOfLatitude =
      fin (11880510773637 / 2 ^ 35) := by
  rw [Iterate_moonArgumentOfLatitude, dynamicalTime_scaling, meeus_latitude_arg_coeff_zero,
    meeus_latitude_arg_coeff_one, meeus_latitude_arg_coeff_two, meeus_latitude_arg_coeff_three,
    meeus_latitude_arg_coeff_four, lit_93_2720950, lit_483202_0175233, lit_0_0036539, lit_one,
    lit_3526000_0, lit_863310000_0, coeff_latitude_arg_48, coeff_latitude_arg_49,
    scaling_pow_two, scaling_pow_three, scaling_pow_four, scaling_latitude_arg_111,
    scaling_latitude_arg_112, scaling_latitude_arg_113, scaling_latitude_arg_114,
    scaling_latitude_arg_115, scaling_latitude_arg_116, scaling_latitude_arg_117,
    scaling_latitude_arg_118, scaling_latitude_arg_119]

theorem scaling_eccentricity_120 :
    (fin (2900750505590827 / 2 ^ 60) : Dbl) * fin (-5466463679119605 / 2 ^ 54) = fin (-3520927389866221 / 2 ^ 62) := by
  rw [mul_fin]
  exact ofRat_eval_neg _ (-11) (-7041854779732442) (by norm_num) (by norm_num) (by norm_num)
    (by norm_num) (by norm_num) (by norm_num) (by norm_num) (by norm_num)

theorem scaling_eccentricity_121 :
    (fin (2184094498327211 / 2 ^ 68) : Dbl) * fin (414699179928283 / 2 ^ 52) = fin (3217842693964347 / 2 ^ 72) := by
  rw [mul_fin]
  exact ofRat_eval_pos _ (-21) 6435685387928694 (by norm_num) (by norm_num) (by norm_num)
    (by norm_num) (by norm_num) (by norm_num) (by norm_num) (by norm_num)

theorem scaling_eccentricity_122 :
    (fin (1) : Dbl) - fin (-3520927389866221 / 2 ^ 62) = fin (2253519016512331 / 2 ^ 51) := by
  rw [sub_fin]
  exact ofRat_eval_pos _ 0 4507038033024662 (by norm_num) (by norm_num) (by norm_num)
    (by norm_num) (by norm_num) (by norm_num) (by norm_num) (by norm_num)

theorem scaling_eccentricity_123 :
    (fin (2253519016512331 / 2 ^ 51) : Dbl) - fin (3217842693964347 / 2 ^ 72) = fin (4507034964250731 / 2 ^ 52) := by
  rw [sub_fin]
  exact ofRat_eval_pos _ 0 4507034964250731 (by norm_num) (by norm_num) (by norm_num)
    (by norm_num) (by norm_num) (by norm_num) (by norm_num) (by norm_num)

theorem earthEccentricity_scaling :
    (Iterate scalingExampleLibm meeusCoeffs ( Reinitialize { new with julianEphemerisDay := 2440461.5 })).earthEccentricity =
      fin (4507034964250731 / 2 ^ 52) := by
  rw [Iterate_earthEccentricity, dynamicalTime_scaling, meeus_eccentricity_coeff_zero,
    meeus_eccentricity_coeff_one, meeus_eccentricity_coeff_two, lit_one, lit_0_002516,
    lit_0_0000074, scaling_pow_two, scaling_eccentricity_120, scaling_eccentricity_121,
    scaling_eccentricity_122, scaling_eccentricity_123]

theorem scaling_arg_124 :
    (fin (0) : Dbl) * fin (97539893415 / 2 ^ 29) = fin (0) := by
  rw [mul_fin]
  have h : ((0 : ℚ) * (97539893415 / 2 ^ 29)) = 0 := by norm_num
  rw [h]
  exact ofRat_zero

theorem scaling_arg_125 :
    (fin (2) : Dbl) * fin (128438555952689 / 2 ^ 39) = fin (128438555952689 / 2 ^ 38) := by
  rw [mul_fin]
  exact ofRat_eval_pos _ 8 8220067580972096 (by norm_num) (by norm_num) (by norm_num)
    (by norm_num) (by norm_num) (by norm_num) (by norm_num) (by norm_num)

theorem scaling_arg_126 :
    (fin (0) : Dbl) * fin (421893242037 / 2 ^ 33) = fin (0) := by
  rw [mul_fin]
  have h : ((0 : ℚ) * (421893242037 / 2 ^ 33)) = 0 := by norm_num
  rw [h]
  exact ofRat_zero

theorem scaling_arg_127 :
    (fin (0) : Dbl) * fin (11880510773637 / 2 ^ 35) = fin (0) := by
  rw [mul_fin]
  have h : ((0 : ℚ) * (11880510773637 / 2 ^ 35)) = 0 := by norm_num
  rw [h]
  exact ofRat_zero

theorem scaling_arg_128 :
    (fin (0) : Dbl) + fin (128438555952689 / 2 ^ 38) = fin (128438555952689 / 2 ^ 38) := by
  rw [add_fin]
  exact ofRat_eval_pos _ 8 8220067580972096 (by norm_num) (by norm_num) (by norm_num)
    (by norm_num) (by norm_num) (by norm_num) (by norm_num) (by norm_num)

theorem scaling_arg_129 :
    (fin (128438555952689 / 2 ^ 38) : Dbl) + fin (0) = fin (128438555952689 / 2 ^ 38) := by
  rw [add_fin]
  exact ofRat_eval_pos _ 8 8220067580972096 (by norm_num) (by norm_num) (by norm_num)
    (by norm_num) (by norm_num) (by norm_num) (by norm_num) (by norm_num)

theorem lit_180 :
    (180 : Dbl) = fin 180 := by
  show ofRat ((180 : ℕ) : ℚ) = _
  have h : (((180 : ℕ) : ℚ)) = 180 := by norm_num
  rw [h]
  exact ofRat_eval_pos _ 7 6333186975989760 (by norm_num) (by norm_num) (by norm_num)
    (by norm_num) (by norm_num) (by norm_num) (by norm_num) (by norm_num)

theorem M_PI_div_180 : M_PI / 180 = fin (5030569068109113 / 2 ^ 58) := by
  rw [M_PI, lit_180, div_fin _ (by norm_num)]
  exact ofRat_eval_pos _ (-6) 5030569068109113 (by norm_num) (by norm_num) (by norm_num)
    (by norm_num) (by norm_num) (by norm_num) (by norm_num) (by norm_num)

theorem scaling_arg_130 :
    (fin (5030569068109113 / 2 ^ 58) : Dbl) * fin (128438555952689 / 2 ^ 38) = fin (4590951808781077 / 2 ^ 49) := by
  rw [mul_fin]
  exact ofRat_eval_pos _ 3 4590951808781077 (by norm_num) (by norm_num) (by norm_num)
    (by norm_num) (by norm_num) (by norm_num) (by norm_num) (by norm_num)

theorem termArgument_eq (row : Fin 4 → Dbl) (s : MoonPosition) :
    termArgument row s =
      row 0 * s.moonMeanElongation + row 1 * s.sunMeanAnomaly +
        row 2 * s.moonMeanAnomaly + row 3 * s.moonArgumentOfLatitude := rfl

theorem scalingExampleSeries_row (i : Fin 60) :
    scalingExampleSeries.LONGITUDE_PERIODIC_TERM_MATRIX i 0 = fin 0 ∧
      scalingExampleSeries.LONGITUDE_PERIODIC_TERM_MATRIX i 1 = fin 2 ∧
      scalingExampleSeries.LONGITUDE_PERIODIC_TERM_MATRIX i 2 = fin 0 ∧
      scalingExampleSeries.LONGITUDE_PERIODIC_TERM_MATRIX i 3 = fin 0 ∧
      scalingExampleSeries.LONGITUDE_SINE_COEFF i = fin 1 :=
  ⟨rfl, rfl, rfl, rfl, rfl⟩

/-- The sine of the argument of row 0 in the example. -/
theorem scaling_sine :
    scalingExampleLibm.sin ((M_PI / 180) *
        termArgument (scalingExampleSeries.LONGITUDE_PERIODIC_TERM_MATRIX 0)
          (Iterate scalingExampleLibm meeusCoeffs ( Reinitialize { new with julianEphemerisDay := 2440461.5 }))) =
      fin (8601740454704771 / 2 ^ 53) := by
  obtain ⟨r0, r1, r2, r3, -⟩ := scalingExampleSeries_row 0
  rw [termArgument_eq, r0, r1, r2, r3, moonMeanElongation_scaling, sunMeanAnomaly_scaling,
    moonMeanAnomaly_scaling, moonArgumentOfLatitude_scaling, M_PI_div_180,
    scaling_arg_124, scaling_arg_125, scaling_arg_126, scaling_arg_127, scaling_arg_128,
    scaling_arg_129, scaling_arg_129, scaling_arg_130]
  exact scalingExampleLibm_sin

theorem eccentricityFactor_two (lm : Libm) (E : Dbl) :
    eccentricityFactor lm E (fin 2) = lm.pow E (fin 2) := by
  have h := eccentricityFactor_intCast lm E 2
  rw [Int.cast_ofNat] at h
  rw [h]
  norm_num

theorem longitudeIntegrated_scaling :
    (Iterate scalingExampleLibm meeusCoeffs ( Reinitialize { new with julianEphemerisDay := 2440461.5 })).longitudeIntegrated =
      fin 0 := by
  rw [(sums_zero_before_loop _ _ _).1, lit_zero]

theorem scaling_term_131 :
    (fin (1) : Dbl) * fin (2255236460799569 / 2 ^ 51) = fin (2255236460799569 / 2 ^ 51) := by
  rw [mul_fin]
  exact ofRat_eval_pos _ 0 4510472921599138 (by norm_num) (by norm_num) (by norm_num)
    (by norm_num) (by norm_num) (by norm_num) (by norm_num) (by norm_num)

theorem scaling_term_132 :
    (fin (2255236460799569 / 2 ^ 51) : Dbl) * fin (8601740454704771 / 2 ^ 53) = fin (4307434120450729 / 2 ^ 52) := by
  rw [mul_fin]
  exact ofRat_eval_pos _ (-1) 8614868240901458 (by norm_num) (by norm_num) (by norm_num)
    (by norm_num) (by norm_num) (by norm_num) (by norm_num) (by norm_num)

theorem scaling_term_133 :
    (fin (0) : Dbl) + fin (4307434120450729 / 2 ^ 52) = fin (4307434120450729 / 2 ^ 52) := by
  rw [add_fin]
  exact ofRat_eval_pos _ (-1) 8614868240901458 (by norm_num) (by norm_num) (by norm_num)
    (by norm_num) (by norm_num) (by norm_num) (by norm_num) (by norm_num)

theorem scaling_term_134 :
    (fin (4507034964250731 / 2 ^ 52) : Dbl) * fin (4507034964250731 / 2 ^ 52) = fin (4510472921599137 / 2 ^ 52) := by
  rw [mul_fin]
  exact ofRat_eval_pos _ 0 4510472921599137 (by norm_num) (by norm_num) (by norm_num)
    (by norm_num) (by norm_num) (by norm_num) (by norm_num) (by norm_num)

theorem scaling_term_135 :
    (fin (1) : Dbl) * fin (4510472921599137 / 2 ^ 52) = fin (4510472921599137 / 2 ^ 52) := by
  rw [mul_fin]
  exact ofRat_eval_pos _ 0 4510472921599137 (by norm_num) (by norm_num) (by norm_num)
    (by norm_num) (by norm_num) (by norm_num) (by norm_num) (by norm_num)

theorem scaling_term_136 :
    (fin (4510472921599137 / 2 ^ 52) : Dbl) * fin (8601740454704771 / 2 ^ 53) = fin (538429265056341 / 2 ^ 49) := by
  rw [mul_fin]
  exact ofRat_eval_pos _ (-1) 8614868240901456 (by norm_num) (by norm_num) (by norm_num)
    (by norm_num) (by norm_num) (by norm_num) (by norm_num) (by norm_num)

theorem scaling_term_137 :
    (fin (0) : Dbl) + fin (538429265056341 / 2 ^ 49) = fin (538429265056341 / 2 ^ 49) := by
  rw [add_fin]
  exact ofRat_eval_pos _ (-1) 8614868240901456 (by norm_num) (by norm_num) (by norm_num)
    (by norm_num) (by norm_num) (by norm_num) (by norm_num) (by norm_num)

/-- What the pass over row 0 leaves in `longitudeIntegrated` in the example. -/
theorem seriesStep_scaling_value :
    (seriesStep scalingExampleLibm scalingExampleSeries
        (Iterate scalingExampleLibm meeusCoeffs ( Reinitialize { new with julianEphemerisDay := 2440461.5 })) 0).longitudeIntegrated =
      fin (4307434120450729 / 2 ^ 52) := by
  rw [(seriesStep_sums _ _ _ _).1, scaling_sine, longitudeIntegrated_scaling,
    (scalingExampleSeries_row 0).2.2.2.2, (scalingExampleSeries_row 0).2.1,
    eccentricityFactor_two, earthEccentricity_scaling, scalingExampleLibm_pow_two,
    scaling_term_131, scaling_term_132, scaling_term_133]

/-- What C10 as worded would leave there: the term scaled by the product `E * E`. -/
theorem specScaling_value :
    (Iterate scalingExampleLibm meeusCoeffs ( Reinitialize { new with julianEphemerisDay := 2440461.5 })).longitudeIntegrated +
          scalingExampleSeries.LONGITUDE_SINE_COEFF 0 *
            specScaling (Iterate scalingExampleLibm meeusCoeffs ( Reinitialize { new with julianEphemerisDay := 2440461.5 })).earthEccentricity 2 *
            scalingExampleLibm.sin ((M_PI / 180) *
              termArgument (scalingExampleSeries.LONGITUDE_PERIODIC_TERM_MATRIX 0)
                (Iterate scalingExampleLibm meeusCoeffs ( Reinitialize { new with julianEphemerisDay := 2440461.5 }))) =
      fin (538429265056341 / 2 ^ 49) := by
  have hs : ∀ E : Dbl, specScaling E 2 = E * E := fun E => rfl
  rw [scaling_sine, longitudeIntegrated_scaling, (scalingExampleSeries_row 0).2.2.2.2, hs,
    earthEccentricity_scaling, scaling_term_134, scaling_term_135, scaling_term_136, scaling_term_137]

/-- C10 (counterexample): at `julianEphemerisDay = 2440461.5` the `earthEccentricity` is
`0x1.0031fda08d06bp+0`; with a library that returns there what glibc 2.36 returns,
`pow(E, 2.0) = 0x1.006405042cca2p+0`, one unit in the last place above the product
`E * E`, the pass of the loop over a row with the multipliers `(0, 2, 0, 0)` and the
amplitude 1 leaves in `longitudeIntegrated` another `double` than the term scaled by
`E * E`.  The library is exact at the exponents 0 and 1 and within one unit in the last
place elsewhere. -/
theorem seriesStep_scaling_not_product :
    scalingExampleLibm.PowExactCases ∧ scalingExampleLibm.PowWithinOneUlp ∧
      scalingExampleSeries.LONGITUDE_PERIODIC_TERM_MATRIX 0 1 = fin ((2 : ℤ) : ℚ) ∧
      (Iterate scalingExampleLibm meeusCoeffs ( Reinitialize { new with julianEphemerisDay := 2440461.5 })).earthEccentricity =
        fin (4507034964250731 / 2 ^ 52) ∧
      scalingExampleLibm.pow (fin (4507034964250731 / 2 ^ 52)) (fin 2) =
        fin (2255236460799569 / 2 ^ 51) ∧
      (fin (4507034964250731 / 2 ^ 52) : Dbl) * fin (4507034964250731 / 2 ^ 52) =
        fin (4510472921599137 / 2 ^ 52) ∧
      (seriesStep scalingExampleLibm scalingExampleSeries
          (Iterate scalingExampleLibm meeusCoeffs ( Reinitialize { new with julianEphemerisDay := 2440461.5 })) 0).longitudeIntegrated ≠
        (Iterate scalingExampleLibm meeusCoeffs ( Reinitialize { new with julianEphemerisDay := 2440461.5 })).longitudeIntegrated +
          scalingExampleSeries.LONGITUDE_SINE_COEFF 0 *
            specScaling (Iterate scalingExampleLibm meeusCoeffs ( Reinitialize { new with julianEphemerisDay := 2440461.5 })).earthEccentricity 2 *
            scalingExampleLibm.sin ((M_PI / 180) *
              termArgument (scalingExampleSeries.LONGITUDE_PERIODIC_TERM_MATRIX 0)
                (Iterate scalingExampleLibm meeusCoeffs ( Reinitialize { new with julianEphemerisDay := 2440461.5 }))) := by
  refine ⟨scalingExampleLibm_powExactCases, scalingExampleLibm_powWithinOneUlp,
    (scalingExampleSeries_multiplier 0).1, earthEccentricity_scaling,
    scalingExampleLibm_pow_two, scaling_term_134, ?_⟩
  rw [seriesStep_scaling_value, specScaling_value]
  intro h
  injection h with h
  norm_num at h

end MoonPosition

namespace MoonPosition

/-! ### The Cartesian triple and the distance -/

end MoonPosition
